import Mathlib

/-!
# GraphicsVK: a shallow embedding of `gameplay/src/vk/GraphicsVK.cpp`

The Vulkan backend of the GamePlay engine is embedded as pure Lean functions.
Handles are natural numbers (`0` is `VK_NULL_HANDLE`), machine integers are
`Nat`/`Int` reduced explicitly where the C++ type narrows a value, and the
answers of the Vulkan driver are explicit arguments of the functions that query
it.  Definitions come first, theorems afterwards.
-/

namespace gameplay

/-! ## Machine integers -/

/-- Conversion to `uint32_t`. -/
def toUInt32 (n : Nat) : Nat := n % 2 ^ 32

/-- Conversion to `size_t` (64-bit target). -/
def toSizeT (n : Nat) : Nat := n % 2 ^ 64

/-- Conversion of an unsigned 32-bit value to `int` (two's complement). -/
def toInt32 (n : Nat) : Int :=
  if n % 2 ^ 32 < 2 ^ 31 then ((n % 2 ^ 32 : Nat) : Int) else ((n % 2 ^ 32 : Nat) : Int) - 2 ^ 32

/-! ## Physical-device selection (`createDevice`, lines 1198-1231) -/

/-- The values of `VkPhysicalDeviceType`. -/
inductive VkPhysicalDeviceType where
  | VK_PHYSICAL_DEVICE_TYPE_OTHER
  | VK_PHYSICAL_DEVICE_TYPE_INTEGRATED_GPU
  | VK_PHYSICAL_DEVICE_TYPE_DISCRETE_GPU
  | VK_PHYSICAL_DEVICE_TYPE_VIRTUAL_GPU
  | VK_PHYSICAL_DEVICE_TYPE_CPU
  deriving DecidableEq, Repr

/-- An enumerated `VkPhysicalDevice` together with what
`vkGetPhysicalDeviceProperties` and `vkGetPhysicalDeviceFeatures` report for it
(the fields `createDevice` reads). -/
structure VkPhysicalDevice where
  handle : Nat
  deviceType : VkPhysicalDeviceType
  maxImageDimension2D : Nat
  geometryShader : Bool
  deriving DecidableEq, Repr

/-- The `int score` computed in the body of the rating loop (lines 1216-1221):
`score += 1000` for a discrete GPU, `score += maxImageDimension2D` (an `int`
plus a `uint32_t`, stored back into an `int`), and `score = 0` without geometry
shaders. -/
def GraphicsVK.deviceScore (d : VkPhysicalDevice) : Int :=
  let score0 : Nat :=
    if d.deviceType = VkPhysicalDeviceType.VK_PHYSICAL_DEVICE_TYPE_DISCRETE_GPU then 1000 else 0
  let score1 : Int := toInt32 (toUInt32 (score0 + toUInt32 d.maxImageDimension2D))
  if !d.geometryShader then 0 else score1

/-- The score the specification assigns to a device: `1000` for a discrete GPU
plus `maxImageDimension2D`, forced to `0` without geometry-shader support. -/
def specScore (d : VkPhysicalDevice) : Int :=
  if d.geometryShader then
    (if d.deviceType = VkPhysicalDeviceType.VK_PHYSICAL_DEVICE_TYPE_DISCRETE_GPU then 1000 else 0)
      + (d.maxImageDimension2D : Int)
  else 0

/-- The ordered map `std::map<int, V>` as a list of pairs kept in ascending key order;
`mapAssign k v m` is `m[k] = v`. -/
def mapAssign {V : Type} (k : Int) (v : V) : List (Int × V) → List (Int × V)
  | [] => [(k, v)]
  | (k', v') :: rest =>
    if k < k' then (k, v) :: (k', v') :: rest
    else if k = k' then (k, v) :: rest
    else (k', v') :: mapAssign k v rest

/-- The rating loop (lines 1209-1223): `physicalDevicesRated[score] = physicalDevice`
for each enumerated device in order. -/
def GraphicsVK.ratePhysicalDevices (physicalDevices : List VkPhysicalDevice) :
    List (Int × VkPhysicalDevice) :=
  physicalDevices.foldl (fun rated d => mapAssign (GraphicsVK.deviceScore d) d rated) []

/-- The selection of `createDevice` (lines 1225-1231): the range-for over the
rated map assigns its first element to `_physicalDevice` and breaks; with an
empty map `_physicalDevice` keeps its value. -/
def GraphicsVK.createDevice_physicalDevice (physicalDevices : List VkPhysicalDevice)
    (_physicalDevice : Option VkPhysicalDevice) : Option VkPhysicalDevice :=
  match GraphicsVK.ratePhysicalDevices physicalDevices with
  | [] => _physicalDevice
  | physicalDeviceRated :: _ => some physicalDeviceRated.2

/-- Two enumerated devices: an integrated GPU and a discrete GPU, both with
geometry shaders. -/
def integratedGpu : VkPhysicalDevice :=
  ⟨1, VkPhysicalDeviceType.VK_PHYSICAL_DEVICE_TYPE_INTEGRATED_GPU, 4096, true⟩

/-- A discrete GPU with a larger image limit. -/
def discreteGpu : VkPhysicalDevice :=
  ⟨2, VkPhysicalDeviceType.VK_PHYSICAL_DEVICE_TYPE_DISCRETE_GPU, 16384, true⟩

/-! ## Memory-type search (`getMemoryTypeFromProperties`, lines 1797-1812) -/

/-- One entry of `VkPhysicalDeviceMemoryProperties::memoryTypes`. -/
structure VkMemoryType where
  propertyFlags : Nat
  heapIndex : Nat
  deriving DecidableEq, Repr

/-- The memory-type table of the selected device
(`_physicalDeviceMemoryProperties`). -/
structure VkPhysicalDeviceMemoryProperties where
  memoryTypeCount : Nat
  memoryTypes : List VkMemoryType
  deriving DecidableEq, Repr

/-- The array read `memoryTypes[i]`. -/
def VkPhysicalDeviceMemoryProperties.memoryTypeAt
    (p : VkPhysicalDeviceMemoryProperties) (i : Nat) : VkMemoryType :=
  p.memoryTypes.getD i ⟨0, 0⟩

/-- The `for` loop of `getMemoryTypeFromProperties`: `remaining` iterations are
left, `i` is the loop counter, `typeBits` the mask shifted so far and
`typeIndex` the current content of the output parameter.  The result is the
returned `VkBool32` and the content of `*typeIndex` on return. -/
def GraphicsVK.getMemoryTypeLoop (p : VkPhysicalDeviceMemoryProperties) (requirements_mask : Nat) :
    Nat → Nat → Nat → Nat → Bool × Nat
  | 0, _, _, typeIndex => (false, typeIndex)
  | remaining + 1, i, typeBits, typeIndex =>
    if typeBits &&& 1 = 1 ∧
        (p.memoryTypeAt i).propertyFlags &&& requirements_mask = requirements_mask then
      (true, i)
    else
      GraphicsVK.getMemoryTypeLoop p requirements_mask remaining (i + 1) (typeBits >>> 1) typeIndex

/-- The function `GraphicsVK::getMemoryTypeFromProperties(typeBits, requirements_mask, &typeIndex)`.
A right shift and a mask never leave the range of `uint32_t`, so no reduction
is needed. -/
def GraphicsVK.getMemoryTypeFromProperties (p : VkPhysicalDeviceMemoryProperties)
    (typeBits requirements_mask typeIndex : Nat) : Bool × Nat :=
  GraphicsVK.getMemoryTypeLoop p requirements_mask p.memoryTypeCount 0 typeBits typeIndex

/-- Index `i` is a candidate of the search: it is below `memoryTypeCount`, bit
`i` of `typeBits` is set and `memoryTypes[i].propertyFlags` contains every bit
of `flags`. -/
def MemoryTypeMatches (p : VkPhysicalDeviceMemoryProperties) (typeBits flags i : Nat) : Prop :=
  i < p.memoryTypeCount ∧ typeBits.testBit i = true ∧
    ∀ k, flags.testBit k = true → (p.memoryTypeAt i).propertyFlags.testBit k = true

/-! ## Present mode and surface format (lines 1724-1756) -/

/-- The values of `VkPresentModeKHR`. -/
inductive VkPresentModeKHR where
  | VK_PRESENT_MODE_IMMEDIATE_KHR
  | VK_PRESENT_MODE_MAILBOX_KHR
  | VK_PRESENT_MODE_FIFO_KHR
  | VK_PRESENT_MODE_FIFO_RELAXED_KHR
  | VK_PRESENT_MODE_SHARED_DEMAND_REFRESH_KHR
  | VK_PRESENT_MODE_SHARED_CONTINUOUS_REFRESH_KHR
  deriving DecidableEq, Repr

/-- The loop of `choosePresentMode` (lines 1742-1753) over the remaining modes,
with the current value of `swapchainPresentMode`. -/
def GraphicsVK.choosePresentModeLoop :
    List VkPresentModeKHR → VkPresentModeKHR → VkPresentModeKHR
  | [], swapchainPresentMode => swapchainPresentMode
  | mode :: rest, swapchainPresentMode =>
    if mode = VkPresentModeKHR.VK_PRESENT_MODE_MAILBOX_KHR then
      VkPresentModeKHR.VK_PRESENT_MODE_MAILBOX_KHR
    else if swapchainPresentMode ≠ VkPresentModeKHR.VK_PRESENT_MODE_MAILBOX_KHR ∧
        mode = VkPresentModeKHR.VK_PRESENT_MODE_IMMEDIATE_KHR then
      GraphicsVK.choosePresentModeLoop rest VkPresentModeKHR.VK_PRESENT_MODE_IMMEDIATE_KHR
    else
      GraphicsVK.choosePresentModeLoop rest swapchainPresentMode

/-- The function `GraphicsVK::choosePresentMode`, with the member `_vsync` as an argument. -/
def GraphicsVK.choosePresentMode (_vsync : Bool) (availablePresentModes : List VkPresentModeKHR) :
    VkPresentModeKHR :=
  if !_vsync then
    GraphicsVK.choosePresentModeLoop availablePresentModes VkPresentModeKHR.VK_PRESENT_MODE_FIFO_KHR
  else
    VkPresentModeKHR.VK_PRESENT_MODE_FIFO_KHR

/-- The native formats named in the source; any other value of `VkFormat` is
`VK_FORMAT_OTHER` with its numeric code. -/
inductive VkFormat where
  | VK_FORMAT_UNDEFINED
  | VK_FORMAT_R8_UNORM
  | VK_FORMAT_R16_UNORM
  | VK_FORMAT_R16_SFLOAT
  | VK_FORMAT_R32_UINT
  | VK_FORMAT_R32_SFLOAT
  | VK_FORMAT_R8G8_UNORM
  | VK_FORMAT_R16G16_UNORM
  | VK_FORMAT_R16G16_SFLOAT
  | VK_FORMAT_R32G32_UINT
  | VK_FORMAT_R32G32_SFLOAT
  | VK_FORMAT_R8G8B8_UNORM
  | VK_FORMAT_R16G16B16_UNORM
  | VK_FORMAT_R16G16B16_SFLOAT
  | VK_FORMAT_R32G32B32_UINT
  | VK_FORMAT_R32G32B32_SFLOAT
  | VK_FORMAT_B8G8R8A8_UNORM
  | VK_FORMAT_R8G8B8A8_UNORM
  | VK_FORMAT_R16G16B16A16_UNORM
  | VK_FORMAT_R16G16B16A16_SFLOAT
  | VK_FORMAT_R32G32B32A32_UINT
  | VK_FORMAT_R32G32B32A32_SFLOAT
  | VK_FORMAT_D16_UNORM
  | VK_FORMAT_X8_D24_UNORM_PACK32
  | VK_FORMAT_D32_SFLOAT
  | VK_FORMAT_S8_UINT
  | VK_FORMAT_D16_UNORM_S8_UINT
  | VK_FORMAT_D24_UNORM_S8_UINT
  | VK_FORMAT_D32_SFLOAT_S8_UINT
  | VK_FORMAT_OTHER (code : Nat)
  deriving DecidableEq, Repr

/-- The values of `VkColorSpaceKHR`. -/
inductive VkColorSpaceKHR where
  | VK_COLOR_SPACE_SRGB_NONLINEAR_KHR
  | VK_COLOR_SPACE_OTHER (code : Nat)
  deriving DecidableEq, Repr

/-- A reported surface format. -/
structure VkSurfaceFormatKHR where
  format : VkFormat
  colorSpace : VkColorSpaceKHR
  deriving DecidableEq, Repr

/-- The pair `chooseSurfaceFormat` prefers. -/
def preferredSurfaceFormat : VkSurfaceFormatKHR :=
  ⟨VkFormat.VK_FORMAT_B8G8R8A8_UNORM, VkColorSpaceKHR.VK_COLOR_SPACE_SRGB_NONLINEAR_KHR⟩

/-- The function `GraphicsVK::chooseSurfaceFormat`.  The reads `availableFormats[0]` are
defined only for a non-empty vector; the result is `none` where the source
reads past the end. -/
def GraphicsVK.chooseSurfaceFormat (availableFormats : List VkSurfaceFormatKHR) :
    Option VkSurfaceFormatKHR :=
  match availableFormats with
  | [] => none
  | first :: _ =>
    if availableFormats.length = 1 ∧ first.format = VkFormat.VK_FORMAT_UNDEFINED then
      some ⟨VkFormat.VK_FORMAT_B8G8R8A8_UNORM, VkColorSpaceKHR.VK_COLOR_SPACE_SRGB_NONLINEAR_KHR⟩
    else
      match availableFormats.find? (fun availableFormat =>
          decide (availableFormat.format = VkFormat.VK_FORMAT_B8G8R8A8_UNORM ∧
            availableFormat.colorSpace = VkColorSpaceKHR.VK_COLOR_SPACE_SRGB_NONLINEAR_KHR)) with
      | some availableFormat => some availableFormat
      | none => some first

/-! ## Format and sample-count tables (lines 568-683) -/

/-- Modelled from the spec: the enumerators of `Format` (`Format.h` is not
among the sources): the portable pixel formats the spec lists, which are the
case labels of the `switch` in `toFormat`, and `FORMAT_UNDEFINED` (line 810). -/
inductive Format where
  | FORMAT_UNDEFINED
  | FORMAT_R8_UNORM
  | FORMAT_R16_UNORM
  | FORMAT_R16_FLOAT
  | FORMAT_R32_UINT
  | FORMAT_R32_FLOAT
  | FORMAT_R8G8_UNORM
  | FORMAT_R16G16_UNORM
  | FORMAT_R16G16_FLOAT
  | FORMAT_R32G32_UINT
  | FORMAT_R32G32_FLOAT
  | FORMAT_R8G8B8_UNORM
  | FORMAT_R16G16B16_UNORM
  | FORMAT_R16G16B16_FLOAT
  | FORMAT_R32G32B32_UINT
  | FORMAT_R32G32B32_FLOAT
  | FORMAT_B8G8R8A8_UNORM
  | FORMAT_R8G8B8A8_UNORM
  | FORMAT_R16G16B16A16_UNORM
  | FORMAT_R16G16B16A16_FLOAT
  | FORMAT_R32G32B32A32_UINT
  | FORMAT_R32G32B32A32_FLOAT
  | FORMAT_D16_UNORM
  | FORMAT_X8_D24_UNORM_PACK32
  | FORMAT_D32_FLOAT
  | FORMAT_S8_UINT
  | FORMAT_D16_UNORM_S8_UINT
  | FORMAT_D24_UNORM_S8_UINT
  | FORMAT_D32_FLOAT_S8_UINT
  deriving DecidableEq, Repr

/-- The function `GraphicsVK::toFormat`: the `switch` over the portable format, with
`VK_FORMAT_UNDEFINED` as the initial value of `result`. -/
def GraphicsVK.toFormat : Format → VkFormat
  | Format.FORMAT_R8_UNORM => VkFormat.VK_FORMAT_R8_UNORM
  | Format.FORMAT_R16_UNORM => VkFormat.VK_FORMAT_R16_UNORM
  | Format.FORMAT_R16_FLOAT => VkFormat.VK_FORMAT_R16_SFLOAT
  | Format.FORMAT_R32_UINT => VkFormat.VK_FORMAT_R32_UINT
  | Format.FORMAT_R32_FLOAT => VkFormat.VK_FORMAT_R32_SFLOAT
  | Format.FORMAT_R8G8_UNORM => VkFormat.VK_FORMAT_R8G8_UNORM
  | Format.FORMAT_R16G16_UNORM => VkFormat.VK_FORMAT_R16G16_UNORM
  | Format.FORMAT_R16G16_FLOAT => VkFormat.VK_FORMAT_R16G16_SFLOAT
  | Format.FORMAT_R32G32_UINT => VkFormat.VK_FORMAT_R32G32_UINT
  | Format.FORMAT_R32G32_FLOAT => VkFormat.VK_FORMAT_R32G32_SFLOAT
  | Format.FORMAT_R8G8B8_UNORM => VkFormat.VK_FORMAT_R8G8B8_UNORM
  | Format.FORMAT_R16G16B16_UNORM => VkFormat.VK_FORMAT_R16G16B16_UNORM
  | Format.FORMAT_R16G16B16_FLOAT => VkFormat.VK_FORMAT_R16G16B16_SFLOAT
  | Format.FORMAT_R32G32B32_UINT => VkFormat.VK_FORMAT_R32G32B32_UINT
  | Format.FORMAT_R32G32B32_FLOAT => VkFormat.VK_FORMAT_R32G32B32_SFLOAT
  | Format.FORMAT_B8G8R8A8_UNORM => VkFormat.VK_FORMAT_B8G8R8A8_UNORM
  | Format.FORMAT_R8G8B8A8_UNORM => VkFormat.VK_FORMAT_R8G8B8A8_UNORM
  | Format.FORMAT_R16G16B16A16_UNORM => VkFormat.VK_FORMAT_R16G16B16A16_UNORM
  | Format.FORMAT_R16G16B16A16_FLOAT => VkFormat.VK_FORMAT_R16G16B16A16_SFLOAT
  | Format.FORMAT_R32G32B32A32_UINT => VkFormat.VK_FORMAT_R32G32B32A32_UINT
  | Format.FORMAT_R32G32B32A32_FLOAT => VkFormat.VK_FORMAT_R32G32B32A32_SFLOAT
  | Format.FORMAT_D16_UNORM => VkFormat.VK_FORMAT_D16_UNORM
  | Format.FORMAT_X8_D24_UNORM_PACK32 => VkFormat.VK_FORMAT_X8_D24_UNORM_PACK32
  | Format.FORMAT_D32_FLOAT => VkFormat.VK_FORMAT_D32_SFLOAT
  | Format.FORMAT_S8_UINT => VkFormat.VK_FORMAT_S8_UINT
  | Format.FORMAT_D16_UNORM_S8_UINT => VkFormat.VK_FORMAT_D16_UNORM_S8_UINT
  | Format.FORMAT_D24_UNORM_S8_UINT => VkFormat.VK_FORMAT_D24_UNORM_S8_UINT
  | Format.FORMAT_D32_FLOAT_S8_UINT => VkFormat.VK_FORMAT_D32_SFLOAT_S8_UINT
  | Format.FORMAT_UNDEFINED => VkFormat.VK_FORMAT_UNDEFINED

/-- Modelled from the spec: the enumerators of `Texture::SampleCount`
(`Texture.h` is not among the sources).  The spec names the sample counts 1, 2,
4, 8 and 16 and compares them by size (`sample count > 1`), so a sample count
is its number of samples. -/
abbrev Texture.SampleCount := Nat

/-- The enumerator `Texture::SAMPLE_COUNT_1X`. -/
def Texture.SAMPLE_COUNT_1X : Texture.SampleCount := 1

/-- The enumerator `Texture::SAMPLE_COUNT_2X`. -/
def Texture.SAMPLE_COUNT_2X : Texture.SampleCount := 2

/-- The enumerator `Texture::SAMPLE_COUNT_4X`. -/
def Texture.SAMPLE_COUNT_4X : Texture.SampleCount := 4

/-- The enumerator `Texture::SAMPLE_COUNT_8X`. -/
def Texture.SAMPLE_COUNT_8X : Texture.SampleCount := 8

/-- The enumerator `Texture::SAMPLE_COUNT_16X`. -/
def Texture.SAMPLE_COUNT_16X : Texture.SampleCount := 16

/-- The type `VkSampleCountFlagBits`, by numeric value. -/
abbrev VkSampleCountFlagBits := Nat

/-- The flag `VK_SAMPLE_COUNT_1_BIT`. -/
def VK_SAMPLE_COUNT_1_BIT : VkSampleCountFlagBits := 1

/-- The flag `VK_SAMPLE_COUNT_2_BIT`. -/
def VK_SAMPLE_COUNT_2_BIT : VkSampleCountFlagBits := 2

/-- The flag `VK_SAMPLE_COUNT_4_BIT`. -/
def VK_SAMPLE_COUNT_4_BIT : VkSampleCountFlagBits := 4

/-- The flag `VK_SAMPLE_COUNT_8_BIT`. -/
def VK_SAMPLE_COUNT_8_BIT : VkSampleCountFlagBits := 8

/-- The flag `VK_SAMPLE_COUNT_16_BIT`. -/
def VK_SAMPLE_COUNT_16_BIT : VkSampleCountFlagBits := 16

/-- The function `GraphicsVK::toSamples`: the `switch` over the sample count, with
`VK_SAMPLE_COUNT_1_BIT` as the initial value of `result`. -/
def GraphicsVK.toSamples (sampleCount : Texture.SampleCount) : VkSampleCountFlagBits :=
  if sampleCount = Texture.SAMPLE_COUNT_1X then VK_SAMPLE_COUNT_1_BIT
  else if sampleCount = Texture.SAMPLE_COUNT_2X then VK_SAMPLE_COUNT_2_BIT
  else if sampleCount = Texture.SAMPLE_COUNT_4X then VK_SAMPLE_COUNT_4_BIT
  else if sampleCount = Texture.SAMPLE_COUNT_8X then VK_SAMPLE_COUNT_8_BIT
  else if sampleCount = Texture.SAMPLE_COUNT_16X then VK_SAMPLE_COUNT_16_BIT
  else VK_SAMPLE_COUNT_1_BIT

/-! ## Vulkan enumerations used by images and attachments -/

/-- The values of `VkAttachmentLoadOp`; the first one has value 0. -/
inductive VkAttachmentLoadOp where
  | VK_ATTACHMENT_LOAD_OP_LOAD
  | VK_ATTACHMENT_LOAD_OP_CLEAR
  | VK_ATTACHMENT_LOAD_OP_DONT_CARE
  deriving DecidableEq, Repr

/-- The values of `VkAttachmentStoreOp`; the first one has value 0. -/
inductive VkAttachmentStoreOp where
  | VK_ATTACHMENT_STORE_OP_STORE
  | VK_ATTACHMENT_STORE_OP_DONT_CARE
  deriving DecidableEq, Repr

/-- The values of `VkImageLayout`; the first one has value 0. -/
inductive VkImageLayout where
  | VK_IMAGE_LAYOUT_UNDEFINED
  | VK_IMAGE_LAYOUT_GENERAL
  | VK_IMAGE_LAYOUT_COLOR_ATTACHMENT_OPTIMAL
  | VK_IMAGE_LAYOUT_DEPTH_STENCIL_ATTACHMENT_OPTIMAL
  | VK_IMAGE_LAYOUT_DEPTH_STENCIL_READ_ONLY_OPTIMAL
  | VK_IMAGE_LAYOUT_SHADER_READ_ONLY_OPTIMAL
  | VK_IMAGE_LAYOUT_TRANSFER_SRC_OPTIMAL
  | VK_IMAGE_LAYOUT_TRANSFER_DST_OPTIMAL
  | VK_IMAGE_LAYOUT_PREINITIALIZED
  | VK_IMAGE_LAYOUT_PRESENT_SRC_KHR
  deriving DecidableEq, Repr

/-! ## Texture creation (`createTexture`, lines 431-566; flag tables, lines 685-757) -/

/-- The values of `Texture::Type`. -/
inductive Texture.Type where
  | TYPE_1D
  | TYPE_2D
  | TYPE_3D
  deriving DecidableEq, Repr

/-- A `Texture::Usage` bit mask. -/
abbrev Texture.Usage := Nat

/-- Modelled from the spec: the enumerators of `Texture::Usage` (`Texture.h`
is not among the sources).  The spec lists the usage kinds transfer (source and
destination), sampled, storage, color-attachment and depth-stencil-attachment;
the source tests them as bit flags, so each kind is one bit, in that order. -/
def Texture.USAGE_TRANSFER_SRC : Texture.Usage := 0x01

/-- Modelled from the spec: see `Texture.USAGE_TRANSFER_SRC`. -/
def Texture.USAGE_TRANSFER_DST : Texture.Usage := 0x02

/-- Modelled from the spec: see `Texture.USAGE_TRANSFER_SRC`. -/
def Texture.USAGE_SAMPLED_IMAGE : Texture.Usage := 0x04

/-- Modelled from the spec: see `Texture.USAGE_TRANSFER_SRC`. -/
def Texture.USAGE_STORAGE : Texture.Usage := 0x08

/-- Modelled from the spec: see `Texture.USAGE_TRANSFER_SRC`. -/
def Texture.USAGE_COLOR_ATTACHMENT : Texture.Usage := 0x10

/-- Modelled from the spec: see `Texture.USAGE_TRANSFER_SRC`. -/
def Texture.USAGE_DEPTH_STENCIL_ATTACHMENT : Texture.Usage := 0x20

/-- The flag `VK_IMAGE_USAGE_TRANSFER_SRC_BIT`. -/
def VK_IMAGE_USAGE_TRANSFER_SRC_BIT : Nat := 0x01

/-- The flag `VK_IMAGE_USAGE_TRANSFER_DST_BIT`. -/
def VK_IMAGE_USAGE_TRANSFER_DST_BIT : Nat := 0x02

/-- The flag `VK_IMAGE_USAGE_SAMPLED_BIT`. -/
def VK_IMAGE_USAGE_SAMPLED_BIT : Nat := 0x04

/-- The flag `VK_IMAGE_USAGE_STORAGE_BIT`. -/
def VK_IMAGE_USAGE_STORAGE_BIT : Nat := 0x08

/-- The flag `VK_IMAGE_USAGE_COLOR_ATTACHMENT_BIT`. -/
def VK_IMAGE_USAGE_COLOR_ATTACHMENT_BIT : Nat := 0x10

/-- The flag `VK_IMAGE_USAGE_DEPTH_STENCIL_ATTACHMENT_BIT`. -/
def VK_IMAGE_USAGE_DEPTH_STENCIL_ATTACHMENT_BIT : Nat := 0x20

/-- The flag `VK_FORMAT_FEATURE_SAMPLED_IMAGE_BIT`. -/
def VK_FORMAT_FEATURE_SAMPLED_IMAGE_BIT : Nat := 0x0001

/-- The flag `VK_FORMAT_FEATURE_STORAGE_IMAGE_BIT`. -/
def VK_FORMAT_FEATURE_STORAGE_IMAGE_BIT : Nat := 0x0002

/-- The flag `VK_FORMAT_FEATURE_COLOR_ATTACHMENT_BIT`. -/
def VK_FORMAT_FEATURE_COLOR_ATTACHMENT_BIT : Nat := 0x0080

/-- The flag `VK_FORMAT_FEATURE_DEPTH_STENCIL_ATTACHMENT_BIT`. -/
def VK_FORMAT_FEATURE_DEPTH_STENCIL_ATTACHMENT_BIT : Nat := 0x0200

/-- The flag `VK_FORMAT_FEATURE_BLIT_DST_BIT`. -/
def VK_FORMAT_FEATURE_BLIT_DST_BIT : Nat := 0x0800

/-- The flag `VK_IMAGE_ASPECT_COLOR_BIT`. -/
def VK_IMAGE_ASPECT_COLOR_BIT : Nat := 0x1

/-- The flag `VK_IMAGE_ASPECT_DEPTH_BIT`. -/
def VK_IMAGE_ASPECT_DEPTH_BIT : Nat := 0x2

/-- The flag `VK_IMAGE_ASPECT_STENCIL_BIT`. -/
def VK_IMAGE_ASPECT_STENCIL_BIT : Nat := 0x4

/-- The flag `VK_MEMORY_PROPERTY_DEVICE_LOCAL_BIT`. -/
def VK_MEMORY_PROPERTY_DEVICE_LOCAL_BIT : Nat := 0x1

/-- The flag `VK_MEMORY_PROPERTY_HOST_VISIBLE_BIT`. -/
def VK_MEMORY_PROPERTY_HOST_VISIBLE_BIT : Nat := 0x2

/-- The flag `VK_MEMORY_PROPERTY_HOST_COHERENT_BIT`. -/
def VK_MEMORY_PROPERTY_HOST_COHERENT_BIT : Nat := 0x4

/-- The function `GraphicsVK::toImageUsageFlags`. -/
def GraphicsVK.toImageUsageFlags (usage : Texture.Usage) : Nat :=
  let result := 0
  let result := if Texture.USAGE_TRANSFER_SRC = (usage &&& Texture.USAGE_TRANSFER_SRC) then
    result ||| VK_IMAGE_USAGE_TRANSFER_SRC_BIT else result
  let result := if Texture.USAGE_TRANSFER_DST = (usage &&& Texture.USAGE_TRANSFER_DST) then
    result ||| VK_IMAGE_USAGE_TRANSFER_DST_BIT else result
  let result := if Texture.USAGE_SAMPLED_IMAGE = (usage &&& Texture.USAGE_SAMPLED_IMAGE) then
    result ||| VK_IMAGE_USAGE_SAMPLED_BIT else result
  let result := if Texture.USAGE_STORAGE = (usage &&& Texture.USAGE_STORAGE) then
    result ||| VK_IMAGE_USAGE_STORAGE_BIT else result
  let result := if Texture.USAGE_COLOR_ATTACHMENT = (usage &&& Texture.USAGE_COLOR_ATTACHMENT) then
    result ||| VK_IMAGE_USAGE_COLOR_ATTACHMENT_BIT else result
  let result :=
    if Texture.USAGE_DEPTH_STENCIL_ATTACHMENT =
        (usage &&& Texture.USAGE_DEPTH_STENCIL_ATTACHMENT) then
      result ||| VK_IMAGE_USAGE_DEPTH_STENCIL_ATTACHMENT_BIT else result
  result

/-- The function `GraphicsVK::toFormatFeatureFlags`. -/
def GraphicsVK.toFormatFeatureFlags (usage : Nat) : Nat :=
  let result := 0
  let result := if VK_IMAGE_USAGE_SAMPLED_BIT = (usage &&& VK_IMAGE_USAGE_SAMPLED_BIT) then
    result ||| VK_FORMAT_FEATURE_SAMPLED_IMAGE_BIT else result
  let result := if VK_IMAGE_USAGE_STORAGE_BIT = (usage &&& VK_IMAGE_USAGE_STORAGE_BIT) then
    result ||| VK_FORMAT_FEATURE_STORAGE_IMAGE_BIT else result
  let result :=
    if VK_IMAGE_USAGE_COLOR_ATTACHMENT_BIT = (usage &&& VK_IMAGE_USAGE_COLOR_ATTACHMENT_BIT) then
      result ||| VK_FORMAT_FEATURE_COLOR_ATTACHMENT_BIT else result
  let result :=
    if VK_IMAGE_USAGE_DEPTH_STENCIL_ATTACHMENT_BIT =
        (usage &&& VK_IMAGE_USAGE_DEPTH_STENCIL_ATTACHMENT_BIT) then
      result ||| VK_FORMAT_FEATURE_DEPTH_STENCIL_ATTACHMENT_BIT else result
  result

/-- The function `GraphicsVK::toImageAspectFlags`. -/
def GraphicsVK.toImageAspectFlags : VkFormat → Nat
  | VkFormat.VK_FORMAT_D16_UNORM => VK_IMAGE_ASPECT_DEPTH_BIT
  | VkFormat.VK_FORMAT_X8_D24_UNORM_PACK32 => VK_IMAGE_ASPECT_DEPTH_BIT
  | VkFormat.VK_FORMAT_D32_SFLOAT => VK_IMAGE_ASPECT_DEPTH_BIT
  | VkFormat.VK_FORMAT_S8_UINT => VK_IMAGE_ASPECT_STENCIL_BIT
  | VkFormat.VK_FORMAT_D16_UNORM_S8_UINT => VK_IMAGE_ASPECT_DEPTH_BIT ||| VK_IMAGE_ASPECT_STENCIL_BIT
  | VkFormat.VK_FORMAT_D24_UNORM_S8_UINT => VK_IMAGE_ASPECT_DEPTH_BIT ||| VK_IMAGE_ASPECT_STENCIL_BIT
  | VkFormat.VK_FORMAT_D32_SFLOAT_S8_UINT =>
    VK_IMAGE_ASPECT_DEPTH_BIT ||| VK_IMAGE_ASPECT_STENCIL_BIT
  | _ => VK_IMAGE_ASPECT_COLOR_BIT

/-- The values of `VkImageType`; the first one has value 0. -/
inductive VkImageType where
  | VK_IMAGE_TYPE_1D
  | VK_IMAGE_TYPE_2D
  | VK_IMAGE_TYPE_3D
  deriving DecidableEq, Repr

/-- The values of `VkImageViewType` used by the source. -/
inductive VkImageViewType where
  | VK_IMAGE_VIEW_TYPE_1D
  | VK_IMAGE_VIEW_TYPE_2D
  | VK_IMAGE_VIEW_TYPE_3D
  deriving DecidableEq, Repr

/-- The values of `VkImageTiling`; the first one has value 0. -/
inductive VkImageTiling where
  | VK_IMAGE_TILING_OPTIMAL
  | VK_IMAGE_TILING_LINEAR
  deriving DecidableEq, Repr

/-- An image extent (`uint32_t` members). -/
structure VkExtent3D where
  width : Nat
  height : Nat
  depth : Nat
  deriving DecidableEq, Repr

/-- The members of `VkImageCreateInfo` that vary; sharing mode and queue
family members are the same constants at every use. -/
structure VkImageCreateInfo where
  flags : Nat
  imageType : VkImageType
  format : VkFormat
  extent : VkExtent3D
  mipLevels : Nat
  arrayLayers : Nat
  samples : VkSampleCountFlagBits
  tiling : VkImageTiling
  usage : Nat
  initialLayout : VkImageLayout
  deriving DecidableEq, Repr

/-- The members of `VkImageViewCreateInfo` that vary; the component mapping is
the identity swizzle at every use. -/
structure VkImageViewCreateInfo where
  flags : Nat
  image : Nat
  viewType : VkImageViewType
  format : VkFormat
  aspectMask : Nat
  baseMipLevel : Nat
  levelCount : Nat
  baseArrayLayer : Nat
  layerCount : Nat
  deriving DecidableEq, Repr

/-- What `vkGetPhysicalDeviceFormatProperties` reports for a format. -/
structure VkFormatProperties where
  linearTilingFeatures : Nat
  optimalTilingFeatures : Nat
  bufferFeatures : Nat
  deriving DecidableEq, Repr

/-- What `vkGetImageMemoryRequirements` reports. -/
structure VkMemoryRequirements where
  size : Nat
  alignment : Nat
  memoryTypeBits : Nat
  deriving DecidableEq, Repr

/-- The create-info passed to `vkCreateFramebuffer`. -/
structure VkFramebufferCreateInfo where
  renderPass : Nat
  attachmentCount : Nat
  pAttachments : List Nat
  width : Nat
  height : Nat
  layers : Nat
  deriving DecidableEq, Repr

/-! ## Attachment descriptions and render-pass create-info -/

/-- The native attachment description.  `samples` is the numeric value of the
`VkSampleCountFlagBits` member. -/
structure VkAttachmentDescription where
  flags : Nat
  format : VkFormat
  samples : VkSampleCountFlagBits
  loadOp : VkAttachmentLoadOp
  storeOp : VkAttachmentStoreOp
  stencilLoadOp : VkAttachmentLoadOp
  stencilStoreOp : VkAttachmentStoreOp
  initialLayout : VkImageLayout
  finalLayout : VkImageLayout
  deriving DecidableEq, Repr

/-- An attachment description as `calloc` leaves it: every member has value 0. -/
def VkAttachmentDescription.zeroed : VkAttachmentDescription :=
  { flags := 0
    format := VkFormat.VK_FORMAT_UNDEFINED
    samples := 0
    loadOp := VkAttachmentLoadOp.VK_ATTACHMENT_LOAD_OP_LOAD
    storeOp := VkAttachmentStoreOp.VK_ATTACHMENT_STORE_OP_STORE
    stencilLoadOp := VkAttachmentLoadOp.VK_ATTACHMENT_LOAD_OP_LOAD
    stencilStoreOp := VkAttachmentStoreOp.VK_ATTACHMENT_STORE_OP_STORE
    initialLayout := VkImageLayout.VK_IMAGE_LAYOUT_UNDEFINED
    finalLayout := VkImageLayout.VK_IMAGE_LAYOUT_UNDEFINED }

/-- The native attachment reference; `attachment` is a `uint32_t`. -/
structure VkAttachmentReference where
  attachment : Nat
  layout : VkImageLayout
  deriving DecidableEq, Repr

/-- An attachment reference as `calloc` leaves it. -/
def VkAttachmentReference.zeroed : VkAttachmentReference :=
  ⟨0, VkImageLayout.VK_IMAGE_LAYOUT_UNDEFINED⟩

/-- The subpass description built at lines 923-933; a null pointer is `none`. -/
structure VkSubpassDescription where
  colorAttachmentCount : Nat
  pColorAttachments : Option (List VkAttachmentReference)
  pResolveAttachments : Option (List VkAttachmentReference)
  pDepthStencilAttachment : Option VkAttachmentReference
  deriving DecidableEq, Repr

/-- The create-info passed to `vkCreateRenderPass` (lines 951-960); the single
subpass dependency is a constant and is left out. -/
structure VkRenderPassCreateInfo where
  attachmentCount : Nat
  pAttachments : List VkAttachmentDescription
  pSubpasses : VkSubpassDescription
  deriving DecidableEq, Repr

/-! ## The object state and the Vulkan implementation -/

/-- A surface extent (`uint32_t` members). -/
structure VkExtent2D where
  width : Nat
  height : Nat
  deriving DecidableEq, Repr

/-- The members of `VkSwapchainCreateInfoKHR` set at lines 1445-1468. -/
structure VkSwapchainCreateInfoKHR where
  surface : Nat
  minImageCount : Nat
  imageFormat : VkFormat
  imageColorSpace : VkColorSpaceKHR
  imageExtent : VkExtent2D
  imageArrayLayers : Nat
  imageUsage : Nat
  preTransform : Nat
  presentMode : VkPresentModeKHR
  oldSwapchain : Nat
  deriving DecidableEq, Repr

/-- The members of `VkSurfaceCapabilitiesKHR` read by `createSwapchain`. -/
structure VkSurfaceCapabilitiesKHR where
  minImageCount : Nat
  maxImageCount : Nat
  supportedTransforms : Nat
  currentTransform : Nat
  deriving DecidableEq, Repr

/-- The structure `GraphicsVK::SwapchainSurfaceInfo`, the result of `querySwapchainSurfaceInfo`. -/
structure SwapchainSurfaceInfo where
  capabilities : VkSurfaceCapabilitiesKHR
  formats : List VkSurfaceFormatKHR
  presentModes : List VkPresentModeKHR
  deriving DecidableEq, Repr

/-- Modelled from the spec: the enumerators of `Buffer::Usage` (`Buffer.h` is
not among the sources); the spec names the usage kinds vertex, index and
uniform, and `createBuffer` switches over these three. -/
inductive Buffer.Usage where
  | USAGE_VERTEX
  | USAGE_INDEX
  | USAGE_UNIFORM
  deriving DecidableEq, Repr

/-- The flag `VK_BUFFER_USAGE_UNIFORM_BUFFER_BIT`. -/
def VK_BUFFER_USAGE_UNIFORM_BUFFER_BIT : Nat := 0x10

/-- The flag `VK_BUFFER_USAGE_INDEX_BUFFER_BIT`. -/
def VK_BUFFER_USAGE_INDEX_BUFFER_BIT : Nat := 0x40

/-- The flag `VK_BUFFER_USAGE_VERTEX_BUFFER_BIT`. -/
def VK_BUFFER_USAGE_VERTEX_BUFFER_BIT : Nat := 0x80

/-- The members of `VkBufferCreateInfo` that `createBuffer` varies; the sharing
mode and the queue-family list are constants. -/
structure VkBufferCreateInfo where
  flags : Nat
  size : Nat
  usage : Nat
  deriving DecidableEq, Repr

/-- The calls into the Vulkan implementation that create, destroy or wait,
with the arguments the source passes and, for a creation, the handle(s) the
implementation returns. -/
inductive VkCall where
  | vkDeviceWaitIdle
  | vkCreateImage (info : VkImageCreateInfo) (image : Nat)
  | vkDestroyImage (image : Nat)
  | vkAllocateMemory (allocationSize memoryTypeIndex memory : Nat)
  | vkFreeMemory (memory : Nat)
  | vkBindImageMemory (image memory offset : Nat)
  | vkMapMemory (memory : Nat)
  | vkCreateImageView (info : VkImageViewCreateInfo) (view : Nat)
  | vkDestroyImageView (view : Nat)
  | vkCreateRenderPass (info : VkRenderPassCreateInfo) (renderPass : Nat)
  | vkDestroyRenderPass (renderPass : Nat)
  | vkCreateFramebuffer (info : VkFramebufferCreateInfo) (framebuffer : Nat)
  | vkDestroyFramebuffer (framebuffer : Nat)
  | vkCreateSwapchainKHR (info : VkSwapchainCreateInfoKHR) (swapchain : Nat)
  | vkDestroySwapchainKHR (swapchain : Nat)
  | vkAllocateCommandBuffers (commandPool commandBufferCount : Nat) (commandBuffers : List Nat)
  | vkFreeCommandBuffers (commandPool : Nat) (commandBuffers : List Nat)
  | vkCreateSemaphore (semaphore : Nat)
  | vkCreateFence (fence : Nat)
  | vkCreateInstance (handle : Nat)
  | vkCreateDebugReportCallbackEXT (callback : Nat)
  | vkCreateDevice (physicalDevice : Nat) (queueFamilyIndices : List Nat) (device : Nat)
  | vkCreateSurfaceKHR (window connection surface : Nat)
  | vkCreateCommandPool (queueFamilyIndex commandPool : Nat)
  | vkCreateBuffer (info : VkBufferCreateInfo) (buffer : Nat)
  | vkBindBufferMemory (buffer memory offset : Nat)
  | vkDestroyFence (fence : Nat)
  | vkDestroySemaphore (semaphore : Nat)
  | vkDestroyPipelineCache (pipelineCache : Nat)
  | vkDestroyCommandPool (commandPool : Nat)
  | vkDestroyDevice (device : Nat)
  | vkDestroyDebugReportCallbackEXT (callback : Nat)
  | vkDestroySurfaceKHR (surface : Nat)
  | vkDestroyInstance (handle : Nat)
  | vkDestroyBuffer (buffer : Nat)
  deriving DecidableEq, Repr

/-- The state of the Vulkan implementation as the object observes it: the
number of handles handed out so far and the calls made, oldest first. -/
structure VkWorld where
  handles : Nat
  calls : List VkCall
  deriving DecidableEq, Repr

/-- A creation call hands out the next handle; handles are never
`VK_NULL_HANDLE` (0). -/
def VkWorld.fresh (w : VkWorld) : Nat := w.handles + 1

/-- The implementation after one creation call. -/
def VkWorld.create (w : VkWorld) (call : Nat → VkCall) : VkWorld :=
  { handles := w.handles + 1, calls := w.calls ++ [call (w.handles + 1)] }

/-- The implementation after a call that creates nothing. -/
def VkWorld.call (w : VkWorld) (c : VkCall) : VkWorld :=
  { w with calls := w.calls ++ [c] }

/-- The handle `VK_NULL_HANDLE`. -/
def VK_NULL_HANDLE : Nat := 0

/-- The constant `UINT32_MAX`. -/
def UINT32_MAX : Nat := 2 ^ 32 - 1

/-- The flag `VK_QUEUE_GRAPHICS_BIT`. -/
def VK_QUEUE_GRAPHICS_BIT : Nat := 0x1

/-- The flag `VK_QUEUE_COMPUTE_BIT`. -/
def VK_QUEUE_COMPUTE_BIT : Nat := 0x2

/-- The flag `VK_SURFACE_TRANSFORM_IDENTITY_BIT_KHR`. -/
def VK_SURFACE_TRANSFORM_IDENTITY_BIT_KHR : Nat := 0x1

/-- The member of `VkQueueFamilyProperties` the source reads. -/
structure VkQueueFamilyProperties where
  queueFlags : Nat
  deriving DecidableEq, Repr

/-- The answers of the Vulkan implementation to the queries made during one
call of a `GraphicsVK` method.  Calls that return a `VkResult` are taken to
return `VK_SUCCESS` (any other result aborts in `VK_CHECK_RESULT`), except
`vkGetPhysicalDeviceImageFormatProperties`, whose failure is `none`. -/
structure Driver where
  /-- The function `vkEnumeratePhysicalDevices` with the properties and features of each. -/
  physicalDevices : List VkPhysicalDevice
  /-- The function `vkGetPhysicalDeviceMemoryProperties` of the selected device. -/
  memoryProperties : VkPhysicalDeviceMemoryProperties
  /-- The function `vkGetPhysicalDeviceQueueFamilyProperties` of the selected device. -/
  queueProps : List VkQueueFamilyProperties
  /-- The function `vkGetPhysicalDeviceSurfaceSupportKHR` per queue family. -/
  supportsPresent : List Bool
  /-- The function `vkGetPhysicalDeviceSurfaceCapabilitiesKHR`. -/
  capabilities : VkSurfaceCapabilitiesKHR
  /-- The function `vkGetPhysicalDeviceSurfaceFormatsKHR`. -/
  surfaceFormats : List VkSurfaceFormatKHR
  /-- The function `vkGetPhysicalDeviceSurfacePresentModesKHR`. -/
  presentModes : List VkPresentModeKHR
  /-- The function `vkGetPhysicalDeviceFormatProperties`. -/
  formatProperties : VkFormat → VkFormatProperties
  /-- The member `maxMipLevels` of `vkGetPhysicalDeviceImageFormatProperties`, by format,
  type, tiling, usage and flags. -/
  maxMipLevels : VkFormat → VkImageType → VkImageTiling → Nat → Nat → Option Nat
  /-- The function `vkGetImageMemoryRequirements` of an image created from the given info. -/
  imageMemoryRequirements : VkImageCreateInfo → VkMemoryRequirements
  /-- The function `vkGetBufferMemoryRequirements` of a buffer created from the given info. -/
  bufferMemoryRequirements : VkBufferCreateInfo → VkMemoryRequirements
  /-- The number of images `vkGetSwapchainImagesKHR` reports for a swapchain
  created from the given info. -/
  swapchainImageCount : VkSwapchainCreateInfoKHR → Nat

/-- The two semaphores of `_semaphores`. -/
structure Semaphores where
  presentComplete : Nat
  renderComplete : Nat
  deriving DecidableEq, Repr

/-- The data members of `GraphicsVK` (initialised as in the constructor, lines
32-61), and `vk`, the Vulkan implementation the object talks to. -/
structure GraphicsVK where
  _initialized : Bool
  _resized : Bool
  _width : Nat
  _height : Nat
  _fullscreen : Bool
  _vsync : Bool
  _multisampling : Nat
  _validation : Bool
  _instance : Nat
  _surface : Nat
  _physicalDevice : Option VkPhysicalDevice
  _physicalDeviceMemoryProperties : VkPhysicalDeviceMemoryProperties
  _queueFamilyProperties : List VkQueueFamilyProperties
  _queueFamilyIndexGraphics : Nat
  _queueFamilyIndexCompute : Nat
  _queueIndex : Nat
  _device : Nat
  _swapchain : Nat
  _backBufferIndex : Nat
  _backBufferCount : Nat
  _backBufferImages : List Nat
  _backBufferImageViews : List Nat
  _colorSpace : VkColorSpaceKHR
  _colorFormat : VkFormat
  _depthStencilFormat : VkFormat
  _depthStencilMemory : Nat
  _depthStencilImage : Nat
  _depthStencilImageView : Nat
  _frameBuffers : List Nat
  _renderPass : Nat
  _pipelineCache : Nat
  _commandPool : Nat
  _commandBuffers : List Nat
  _semaphores : Semaphores
  _fences : List Nat
  _debugMessageCallback : Nat
  vk : VkWorld
  deriving DecidableEq, Repr

/-- Modelled from the spec: the macro `GP_ERROR` (`Base.h` is not among the
sources).  The spec makes each of these failures fatal and unrecoverable: the
diagnostic is produced and the call never returns, so the result is `none`. -/
abbrev GP_ERROR {α : Type} : Option α := none

/-- Modelled from the spec: `GP_MATH_MIN` (`Base.h` is not among the sources);
the spec says mip levels are clamped to the device-reported maximum. -/
def GP_MATH_MIN (x y : Nat) : Nat := if x < y then x else y

/-- The members of `TextureVK` set by `createTexture`. -/
structure TextureVK where
  type : Texture.Type
  width : Nat
  height : Nat
  depth : Nat
  mipLevels : Nat
  pixelFormat : Format
  usage : Texture.Usage
  sampleCount : Texture.SampleCount
  hostVisible : Bool
  _image : Nat
  _deviceMemory : Nat
  _imageView : Nat
  _imageAspectFlags : Nat
  deriving DecidableEq, Repr

/-- The image create-info of `createTexture` as filled at lines 435-476,
before the mip-level clamp. -/
def GraphicsVK.createTexture_imageCreateInfo (type : Texture.Type)
    (width height depth mipLevels : Nat) (pixelFormat : Format) (usage : Texture.Usage)
    (sampleCount : Texture.SampleCount) (hostVisible : Bool) : VkImageCreateInfo :=
  let usage0 := GraphicsVK.toImageUsageFlags usage
  { flags := 0
    imageType := match type with
      | Texture.Type.TYPE_1D => VkImageType.VK_IMAGE_TYPE_1D
      | Texture.Type.TYPE_2D => VkImageType.VK_IMAGE_TYPE_2D
      | Texture.Type.TYPE_3D => VkImageType.VK_IMAGE_TYPE_3D
    format := GraphicsVK.toFormat pixelFormat
    extent := ⟨toUInt32 width, toUInt32 height, toUInt32 depth⟩
    mipLevels := toUInt32 mipLevels
    arrayLayers := 1
    samples := GraphicsVK.toSamples sampleCount
    tiling := if hostVisible then VkImageTiling.VK_IMAGE_TILING_LINEAR
      else VkImageTiling.VK_IMAGE_TILING_OPTIMAL
    usage := if VK_IMAGE_USAGE_SAMPLED_BIT &&& usage0 ≠ 0 then
        usage0 ||| (VK_IMAGE_USAGE_TRANSFER_SRC_BIT ||| VK_IMAGE_USAGE_TRANSFER_DST_BIT)
      else usage0
    initialLayout := VkImageLayout.VK_IMAGE_LAYOUT_UNDEFINED }

/-- The value `flags` tested by the two `assert`s of `createTexture` (lines
478-491). -/
def GraphicsVK.createTexture_supportFlags (drv : Driver) (imageCreateInfo : VkImageCreateInfo)
    (hostVisible : Bool) : Nat :=
  let formatProps := drv.formatProperties imageCreateInfo.format
  let formatFeatureFlags := GraphicsVK.toFormatFeatureFlags imageCreateInfo.usage
  if hostVisible then formatProps.linearTilingFeatures &&& formatFeatureFlags
  else formatProps.optimalTilingFeatures &&& formatFeatureFlags

/-- The image-view type chosen by the `switch` at lines 437-451. -/
def GraphicsVK.createTexture_imageViewType : Texture.Type → VkImageViewType
  | Texture.Type.TYPE_1D => VkImageViewType.VK_IMAGE_VIEW_TYPE_1D
  | Texture.Type.TYPE_2D => VkImageViewType.VK_IMAGE_VIEW_TYPE_2D
  | Texture.Type.TYPE_3D => VkImageViewType.VK_IMAGE_VIEW_TYPE_3D

/-- The memory property flags requested by `createTexture` (lines 514-518). -/
def GraphicsVK.createTexture_memFlags (hostVisible : Bool) : Nat :=
  if hostVisible then VK_MEMORY_PROPERTY_HOST_VISIBLE_BIT ||| VK_MEMORY_PROPERTY_HOST_COHERENT_BIT
  else VK_MEMORY_PROPERTY_DEVICE_LOCAL_BIT

/-- The mip-level count after the clamp at lines 499-503. -/
def GraphicsVK.createTexture_mipLevels (imageCreateInfo : VkImageCreateInfo)
    (mipLevels maxMipLevels : Nat) : Nat :=
  if imageCreateInfo.mipLevels > 1 then GP_MATH_MIN mipLevels maxMipLevels else mipLevels

/-- The image create-info after the clamp at lines 499-503. -/
def GraphicsVK.createTexture_clampedCreateInfo (imageCreateInfo : VkImageCreateInfo)
    (mipLevels maxMipLevels : Nat) : VkImageCreateInfo :=
  if imageCreateInfo.mipLevels > 1 then
    { imageCreateInfo with mipLevels := toUInt32 (GP_MATH_MIN mipLevels maxMipLevels) }
  else imageCreateInfo

/-- The image-view create-info of `createTexture` (lines 543-558). -/
def GraphicsVK.createTexture_imageViewCreateInfo (type : Texture.Type) (pixelFormat : Format)
    (mipLevels textureVK : Nat) : VkImageViewCreateInfo :=
  { flags := 0
    image := textureVK
    viewType := GraphicsVK.createTexture_imageViewType type
    format := GraphicsVK.toFormat pixelFormat
    aspectMask := GraphicsVK.toImageAspectFlags (GraphicsVK.toFormat pixelFormat)
    baseMipLevel := 0
    levelCount := toUInt32 mipLevels
    baseArrayLayer := 0
    layerCount := 1 }

/-- The implementation after `vkMapMemory`, which `createTexture` calls only
for a host-visible texture (lines 539-540). -/
def VkWorld.mapWhen (w : VkWorld) (hostVisible : Bool) (memory : Nat) : VkWorld :=
  if hostVisible then w.call (VkCall.vkMapMemory memory) else w

/-- The second half of `createTexture` (lines 506-565): image, memory, binding,
mapping and view, for the clamped create-info and mip-level count. -/
def GraphicsVK.createTexture_allocate (drv : Driver) (self : GraphicsVK) (type : Texture.Type)
    (width height depth mipLevels : Nat) (pixelFormat : Format) (usage : Texture.Usage)
    (sampleCount : Texture.SampleCount) (hostVisible : Bool)
    (imageCreateInfo : VkImageCreateInfo) : Option (TextureVK × GraphicsVK) :=
  let textureVK := self.vk.fresh
  let vk1 := self.vk.create (VkCall.vkCreateImage imageCreateInfo)
  let memReqs := drv.imageMemoryRequirements imageCreateInfo
  let found := GraphicsVK.getMemoryTypeFromProperties self._physicalDeviceMemoryProperties
    memReqs.memoryTypeBits (GraphicsVK.createTexture_memFlags hostVisible) UINT32_MAX
  if found.1 = false then GP_ERROR -- "Failed to find compatible memory for texture."
  else
    let deviceMemoryVK := vk1.fresh
    let vk2 := vk1.create (VkCall.vkAllocateMemory memReqs.size found.2)
    let vk3 := vk2.call (VkCall.vkBindImageMemory textureVK deviceMemoryVK 0)
    let vk4 := vk3.mapWhen hostVisible deviceMemoryVK
    let imageViewCreateinfo :=
      GraphicsVK.createTexture_imageViewCreateInfo type pixelFormat mipLevels textureVK
    let imageView := vk4.fresh
    let vk5 := vk4.create (VkCall.vkCreateImageView imageViewCreateinfo)
    some
      ({ type := type
         width := width
         height := height
         depth := depth
         mipLevels := mipLevels
         pixelFormat := pixelFormat
         usage := usage
         sampleCount := sampleCount
         hostVisible := hostVisible
         _image := textureVK
         _deviceMemory := deviceMemoryVK
         _imageView := imageView
         _imageAspectFlags := imageViewCreateinfo.aspectMask },
       { self with vk := vk5 })

/-- The function `GraphicsVK::createTexture`.  `none` is an abort: a failed `assert` or
`GP_ASSERT`, or the fatal `GP_ERROR` (the spec: failure to find a matching
memory type is fatal). -/
def GraphicsVK.createTexture (drv : Driver) (self : GraphicsVK) (type : Texture.Type)
    (width height depth mipLevels : Nat) (pixelFormat : Format) (usage : Texture.Usage)
    (sampleCount : Texture.SampleCount) (hostVisible : Bool) :
    Option (TextureVK × GraphicsVK) :=
  let imageCreateInfo := GraphicsVK.createTexture_imageCreateInfo type width height depth
    mipLevels pixelFormat usage sampleCount hostVisible
  if GraphicsVK.createTexture_supportFlags drv imageCreateInfo hostVisible = 0 then none -- assert(0 != flags)
  else
    match drv.maxMipLevels imageCreateInfo.format imageCreateInfo.imageType
        imageCreateInfo.tiling imageCreateInfo.usage imageCreateInfo.flags with
    | none => none -- GP_ASSERT(VK_SUCCESS == vkResult)
    | some maxMipLevels =>
      GraphicsVK.createTexture_allocate drv self type width height depth
        (GraphicsVK.createTexture_mipLevels imageCreateInfo mipLevels maxMipLevels)
        pixelFormat usage sampleCount hostVisible
        (GraphicsVK.createTexture_clampedCreateInfo imageCreateInfo mipLevels maxMipLevels)

/-- The function `GraphicsVK::createTexture2d`. -/
def GraphicsVK.createTexture2d (drv : Driver) (self : GraphicsVK)
    (width height mipLevels : Nat) (pixelFormat : Format) (usage : Texture.Usage)
    (sampleCount : Texture.SampleCount) (hostVisible : Bool) :
    Option (TextureVK × GraphicsVK) :=
  GraphicsVK.createTexture drv self Texture.Type.TYPE_2D width height 1 mipLevels pixelFormat
    usage sampleCount hostVisible

/-! ## Buffer creation (`createBuffer`, lines 349-406) -/

/-- Modelled from the spec: `GP_MATH_ROUNDUP` (`Base.h` is not among the
sources); the spec says uniform-buffer sizes are rounded up to a 256-byte
alignment, 100 bytes giving 256. -/
def GP_MATH_ROUNDUP (x n : Nat) : Nat := (x + n - 1) / n * n

/-- The constant `VK_WHOLE_SIZE`. -/
def VK_WHOLE_SIZE : Nat := 2 ^ 64 - 1

/-- The structure `VkDescriptorBufferInfo` of `BufferVK::_bufferView`. -/
structure VkDescriptorBufferInfo where
  buffer : Nat
  offset : Nat
  range : Nat
  deriving DecidableEq, Repr

/-- The members of `BufferVK` set by `createBuffer`: the arguments of the
constructor call at line 396 in their order, the mapping made by `vkMapMemory`
(`none`: not mapped) and the buffer view. -/
structure BufferVK where
  usage : Buffer.Usage
  size : Nat
  stride : Nat
  hostVisible : Bool
  _device : Nat
  _buffer : Nat
  _deviceMemory : Nat
  _hostMemory : Option Nat
  _bufferView : VkDescriptorBufferInfo
  deriving DecidableEq, Repr

/-- The value of the `size_t` variable `size` after lines 351-352. -/
def GraphicsVK.createBuffer_size (usage : Buffer.Usage) (size : Nat) : Nat :=
  if usage = Buffer.Usage.USAGE_UNIFORM then toSizeT (GP_MATH_ROUNDUP size 256) else size

/-- The buffer create-info of `createBuffer` (lines 354-374), for the `size`
of lines 351-352. -/
def GraphicsVK.createBuffer_bufferCreateInfo (usage : Buffer.Usage) (size : Nat) :
    VkBufferCreateInfo :=
  { flags := 0
    size := size
    usage := match usage with
      | Buffer.Usage.USAGE_VERTEX => 0 ||| VK_BUFFER_USAGE_VERTEX_BUFFER_BIT
      | Buffer.Usage.USAGE_INDEX => 0 ||| VK_BUFFER_USAGE_INDEX_BUFFER_BIT
      | Buffer.Usage.USAGE_UNIFORM => 0 ||| VK_BUFFER_USAGE_UNIFORM_BUFFER_BIT }

/-- The memory property flags of `createBuffer` (lines 380-382). -/
def GraphicsVK.createBuffer_memFlags (hostVisible : Bool) : Nat :=
  if hostVisible then
    VK_MEMORY_PROPERTY_HOST_VISIBLE_BIT ||| VK_MEMORY_PROPERTY_HOST_COHERENT_BIT
  else VK_MEMORY_PROPERTY_DEVICE_LOCAL_BIT

/-- The function `GraphicsVK::createBuffer`.  `none` is the fatal `GP_ERROR` ("Failed to
find compatible memory for buffer."). -/
def GraphicsVK.createBuffer (drv : Driver) (self : GraphicsVK) (usage : Buffer.Usage)
    (size stride : Nat) (hostVisible : Bool) : Option (BufferVK × GraphicsVK) :=
  let size1 := GraphicsVK.createBuffer_size usage size
  let bufferCreateInfo := GraphicsVK.createBuffer_bufferCreateInfo usage size1
  let bufferVK := self.vk.fresh
  let vk1 := self.vk.create (VkCall.vkCreateBuffer bufferCreateInfo)
  let memReqs := drv.bufferMemoryRequirements bufferCreateInfo
  let found := GraphicsVK.getMemoryTypeFromProperties self._physicalDeviceMemoryProperties
    memReqs.memoryTypeBits (GraphicsVK.createBuffer_memFlags hostVisible) UINT32_MAX
  if found.1 = false then GP_ERROR -- "Failed to find compatible memory for buffer."
  else
    let deviceMemoryVK := vk1.fresh
    let vk2 := vk1.create (VkCall.vkAllocateMemory memReqs.size found.2)
    let vk3 := vk2.call (VkCall.vkBindBufferMemory bufferVK deviceMemoryVK 0)
    let vk4 := vk3.mapWhen hostVisible deviceMemoryVK
    some
      ({ usage := Buffer.Usage.USAGE_VERTEX
         size := size1
         stride := stride
         hostVisible := hostVisible
         _device := self._device
         _buffer := bufferVK
         _deviceMemory := deviceMemoryVK
         _hostMemory := if hostVisible then some deviceMemoryVK else none
         _bufferView := ⟨bufferVK, 0, VK_WHOLE_SIZE⟩ },
       { self with vk := vk4 })

/-- The function `GraphicsVK::createUniformBuffer`. -/
def GraphicsVK.createUniformBuffer (drv : Driver) (self : GraphicsVK) (size : Nat)
    (hostVisible : Bool) : Option (BufferVK × GraphicsVK) :=
  GraphicsVK.createBuffer drv self Buffer.Usage.USAGE_UNIFORM size size hostVisible

/-! ## Render-pass construction (`createRenderPass`, lines 799-1048) -/

/-- The three scratch arrays filled by the attachment loops. -/
structure AttachmentArrays where
  attachmentDescs : List VkAttachmentDescription
  colorAttachmentRefs : List VkAttachmentReference
  resolveAttachmentRefs : List VkAttachmentReference
  deriving DecidableEq, Repr

/-- The member writes `array[i].member = value`: the element at `i` is replaced
by its update. -/
def writeAt {α : Type} (array : List α) (i : Nat) (update : α → α) (dflt : α) : List α :=
  array.set i (update (array.getD i dflt))

/-- The variable `depthStencilAttachmentCount` (line 810). -/
def GraphicsVK.depthStencilAttachmentCount (depthStencilFormat : Format) : Nat :=
  if depthStencilFormat = Format.FORMAT_UNDEFINED then 0 else 1

/-- One iteration of the multisample loop (lines 830-854) at index `i`. -/
def GraphicsVK.multisampleAttachmentStep (colorFormat : Format)
    (sampleCount : Texture.SampleCount) (a : AttachmentArrays) (i : Nat) : AttachmentArrays :=
  let colorIndex := 2 * i
  let multiSampleIndex := colorIndex + 1
  let descs1 := writeAt a.attachmentDescs colorIndex (fun d =>
    { d with
      flags := 0
      format := GraphicsVK.toFormat colorFormat
      samples := GraphicsVK.toSamples sampleCount
      loadOp := VkAttachmentLoadOp.VK_ATTACHMENT_LOAD_OP_CLEAR
      storeOp := VkAttachmentStoreOp.VK_ATTACHMENT_STORE_OP_STORE
      stencilLoadOp := VkAttachmentLoadOp.VK_ATTACHMENT_LOAD_OP_CLEAR
      stencilStoreOp := VkAttachmentStoreOp.VK_ATTACHMENT_STORE_OP_STORE
      initialLayout := VkImageLayout.VK_IMAGE_LAYOUT_COLOR_ATTACHMENT_OPTIMAL })
    VkAttachmentDescription.zeroed
  let descs2 := writeAt descs1 multiSampleIndex (fun d =>
    { d with
      format := GraphicsVK.toFormat colorFormat
      samples := GraphicsVK.toSamples sampleCount
      loadOp := VkAttachmentLoadOp.VK_ATTACHMENT_LOAD_OP_CLEAR
      storeOp := VkAttachmentStoreOp.VK_ATTACHMENT_STORE_OP_STORE
      stencilLoadOp := VkAttachmentLoadOp.VK_ATTACHMENT_LOAD_OP_CLEAR
      stencilStoreOp := VkAttachmentStoreOp.VK_ATTACHMENT_STORE_OP_STORE
      initialLayout := VkImageLayout.VK_IMAGE_LAYOUT_COLOR_ATTACHMENT_OPTIMAL
      finalLayout := VkImageLayout.VK_IMAGE_LAYOUT_COLOR_ATTACHMENT_OPTIMAL })
    VkAttachmentDescription.zeroed
  { attachmentDescs := descs2
    colorAttachmentRefs := writeAt a.colorAttachmentRefs i (fun _ =>
      ⟨toUInt32 multiSampleIndex,
        (descs2.getD multiSampleIndex VkAttachmentDescription.zeroed).initialLayout⟩)
      VkAttachmentReference.zeroed
    resolveAttachmentRefs := writeAt a.resolveAttachmentRefs i (fun _ =>
      ⟨toUInt32 colorIndex,
        (descs2.getD colorIndex VkAttachmentDescription.zeroed).initialLayout⟩)
      VkAttachmentReference.zeroed }

/-- One iteration of the single-sample loop (lines 890-902) at index `i`. -/
def GraphicsVK.singleSampleAttachmentStep (colorFormat : Format)
    (sampleCount : Texture.SampleCount) (a : AttachmentArrays) (i : Nat) : AttachmentArrays :=
  let colorIndex := i
  let descs1 := writeAt a.attachmentDescs colorIndex (fun d =>
    { d with
      flags := 0
      format := GraphicsVK.toFormat colorFormat
      samples := GraphicsVK.toSamples sampleCount
      loadOp := VkAttachmentLoadOp.VK_ATTACHMENT_LOAD_OP_CLEAR
      storeOp := VkAttachmentStoreOp.VK_ATTACHMENT_STORE_OP_STORE
      stencilLoadOp := VkAttachmentLoadOp.VK_ATTACHMENT_LOAD_OP_CLEAR
      stencilStoreOp := VkAttachmentStoreOp.VK_ATTACHMENT_STORE_OP_STORE
      initialLayout := VkImageLayout.VK_IMAGE_LAYOUT_COLOR_ATTACHMENT_OPTIMAL
      finalLayout := VkImageLayout.VK_IMAGE_LAYOUT_COLOR_ATTACHMENT_OPTIMAL })
    VkAttachmentDescription.zeroed
  { attachmentDescs := descs1
    colorAttachmentRefs := writeAt a.colorAttachmentRefs i (fun _ =>
      ⟨colorIndex, (descs1.getD colorIndex VkAttachmentDescription.zeroed).initialLayout⟩)
      VkAttachmentReference.zeroed
    resolveAttachmentRefs := a.resolveAttachmentRefs }

/-- The depth-stencil block (lines 857-871 and 905-920): the description at
`index` and the reference to it; `index` is a `uint32_t`. -/
def GraphicsVK.depthStencilAttachmentStep (depthStencilFormat : Format)
    (sampleCount : Texture.SampleCount) (descs : List VkAttachmentDescription) (index : Nat) :
    List VkAttachmentDescription × VkAttachmentReference :=
  let descs1 := writeAt descs index (fun d =>
    { d with
      flags := 0
      format := GraphicsVK.toFormat depthStencilFormat
      samples := GraphicsVK.toSamples sampleCount
      loadOp := VkAttachmentLoadOp.VK_ATTACHMENT_LOAD_OP_CLEAR
      storeOp := VkAttachmentStoreOp.VK_ATTACHMENT_STORE_OP_STORE
      stencilLoadOp := VkAttachmentLoadOp.VK_ATTACHMENT_LOAD_OP_CLEAR
      stencilStoreOp := VkAttachmentStoreOp.VK_ATTACHMENT_STORE_OP_STORE
      initialLayout := VkImageLayout.VK_IMAGE_LAYOUT_DEPTH_STENCIL_ATTACHMENT_OPTIMAL
      finalLayout := VkImageLayout.VK_IMAGE_LAYOUT_DEPTH_STENCIL_ATTACHMENT_OPTIMAL })
    VkAttachmentDescription.zeroed
  (descs1, ⟨index, (descs1.getD index VkAttachmentDescription.zeroed).initialLayout⟩)

/-- The variable `attachmentCount` (lines 945-946): a `uint32_t` initialised from a `size_t`
expression and then incremented by a `size_t`. -/
def GraphicsVK.createRenderPass_attachmentCount (colorAttachmentCount : Nat)
    (depthStencilFormat : Format) (sampleCount : Texture.SampleCount) : Nat :=
  let attachmentCount :=
    if sampleCount > Texture.SAMPLE_COUNT_1X then toUInt32 (toSizeT (2 * colorAttachmentCount))
    else toUInt32 colorAttachmentCount
  toUInt32 (attachmentCount + GraphicsVK.depthStencilAttachmentCount depthStencilFormat)

/-- The render-pass half of `createRenderPass` (lines 805-962): the create-info
handed to `vkCreateRenderPass`.  `colorAttachmentCount` is a `size_t`.  The
result is `none` where the source has no defined result: in the multisample
branch when the `size_t` element count `2 * colorAttachmentCount +
depthStencilAttachmentCount` of the `calloc` wraps (the loop then writes past
the array), and in the single-sample branch when `colorAttachmentCount` does
not fit the `uint32_t` loop counter (the loop never ends). -/
def GraphicsVK.createRenderPass_renderPassInfo (colorAttachmentCount : Nat)
    (colorFormat depthStencilFormat : Format) (sampleCount : Texture.SampleCount) :
    Option VkRenderPassCreateInfo :=
  let depthStencilAttachmentCount := GraphicsVK.depthStencilAttachmentCount depthStencilFormat
  let refs0 : List VkAttachmentReference :=
    List.replicate colorAttachmentCount VkAttachmentReference.zeroed
  let attachmentCount :=
    GraphicsVK.createRenderPass_attachmentCount colorAttachmentCount depthStencilFormat sampleCount
  if sampleCount > Texture.SAMPLE_COUNT_1X then
    if 2 * colorAttachmentCount + depthStencilAttachmentCount < 2 ^ 64 then
      let a0 : AttachmentArrays :=
        { attachmentDescs := List.replicate (2 * colorAttachmentCount + depthStencilAttachmentCount)
            VkAttachmentDescription.zeroed
          colorAttachmentRefs := refs0
          resolveAttachmentRefs := refs0 }
      let a1 := (List.range colorAttachmentCount).foldl
        (GraphicsVK.multisampleAttachmentStep colorFormat sampleCount) a0
      let ds := GraphicsVK.depthStencilAttachmentStep depthStencilFormat sampleCount
        a1.attachmentDescs (toUInt32 (2 * colorAttachmentCount))
      some
        { attachmentCount := attachmentCount
          pAttachments := if depthStencilAttachmentCount > 0 then ds.1 else a1.attachmentDescs
          pSubpasses :=
            { colorAttachmentCount := toUInt32 colorAttachmentCount
              pColorAttachments :=
                if colorAttachmentCount > 0 then some a1.colorAttachmentRefs else none
              pResolveAttachments :=
                if colorAttachmentCount > 0 then some a1.resolveAttachmentRefs else none
              pDepthStencilAttachment :=
                if depthStencilAttachmentCount > 0 then some ds.2 else none } }
    else none -- the loop writes past attachmentDescs
  else
    if colorAttachmentCount < 2 ^ 32 then
      let a0 : AttachmentArrays :=
        { attachmentDescs := List.replicate (colorAttachmentCount + depthStencilAttachmentCount)
            VkAttachmentDescription.zeroed
          colorAttachmentRefs := refs0
          resolveAttachmentRefs := [] }
      let a1 := (List.range colorAttachmentCount).foldl
        (GraphicsVK.singleSampleAttachmentStep colorFormat sampleCount) a0
      let ds := GraphicsVK.depthStencilAttachmentStep depthStencilFormat sampleCount
        a1.attachmentDescs (toUInt32 colorAttachmentCount)
      some
        { attachmentCount := attachmentCount
          pAttachments := if depthStencilAttachmentCount > 0 then ds.1 else a1.attachmentDescs
          pSubpasses :=
            { colorAttachmentCount := toUInt32 colorAttachmentCount
              pColorAttachments :=
                if colorAttachmentCount > 0 then some a1.colorAttachmentRefs else none
              pResolveAttachments := none
              pDepthStencilAttachment :=
                if depthStencilAttachmentCount > 0 then some ds.2 else none } }
    else none -- the uint32_t loop counter never reaches colorAttachmentCount

/-- The members of `RenderPassVK` set by `createRenderPass`. -/
structure RenderPassVK where
  width : Nat
  height : Nat
  colorAttachmentCount : Nat
  colorFormat : Format
  depthStencilFormat : Format
  sampleCount : Texture.SampleCount
  colorAttachments : List TextureVK
  colorMultisampleAttachments : List TextureVK
  depthStencilAttachment : Option TextureVK
  _renderPass : Nat
  _framebuffer : Nat
  deriving DecidableEq, Repr

/-- The variables of the framebuffer block of `createRenderPass` (lines
969-1022): the image views written through the `imageView` cursor so far, the
two texture vectors and the object. -/
structure FramebufferScratch where
  imageViews : List Nat
  colorAttachments : List TextureVK
  colorMultisampleAttachments : List TextureVK
  self : GraphicsVK
  deriving DecidableEq, Repr

/-- One iteration of the colour loop of the framebuffer block (lines 993-1012). -/
def GraphicsVK.colorAttachmentStep (drv : Driver) (width height : Nat) (colorFormat : Format)
    (sampleCount : Texture.SampleCount) (st : FramebufferScratch) : Option FramebufferScratch :=
  match GraphicsVK.createTexture2d drv st.self width height 1 colorFormat
      Texture.USAGE_COLOR_ATTACHMENT Texture.SAMPLE_COUNT_1X false with
  | none => none
  | some (colorAttachment, self1) =>
    let st1 : FramebufferScratch :=
      { imageViews := st.imageViews ++ [colorAttachment._imageView]
        colorAttachments := st.colorAttachments ++ [colorAttachment]
        colorMultisampleAttachments := st.colorMultisampleAttachments
        self := self1 }
    if sampleCount > Texture.SAMPLE_COUNT_1X then
      match GraphicsVK.createTexture2d drv self1 width height 1 colorFormat
          Texture.USAGE_COLOR_ATTACHMENT sampleCount false with
      | none => none
      | some (colorMultisampleAttachment, self2) =>
        some
          { imageViews := st1.imageViews ++ [colorMultisampleAttachment._imageView]
            colorAttachments := st1.colorAttachments
            colorMultisampleAttachments :=
              st1.colorMultisampleAttachments ++ [colorMultisampleAttachment]
            self := self2 }
    else some st1

/-- The colour loop of the framebuffer block, with the number of iterations
left. -/
def GraphicsVK.colorAttachmentLoop (drv : Driver) (width height : Nat) (colorFormat : Format)
    (sampleCount : Texture.SampleCount) : Nat → FramebufferScratch → Option FramebufferScratch
  | 0, st => some st
  | remaining + 1, st =>
    match GraphicsVK.colorAttachmentStep drv width height colorFormat sampleCount st with
    | none => none
    | some st1 =>
      GraphicsVK.colorAttachmentLoop drv width height colorFormat sampleCount remaining st1

/-- The depth-stencil block of the framebuffer part (lines 1013-1022): the
views written, the depth-stencil texture and the object afterwards. -/
def GraphicsVK.depthStencilTextureStep (drv : Driver) (width height : Nat)
    (depthStencilFormat : Format) (st : FramebufferScratch) :
    Option (List Nat × Option TextureVK × GraphicsVK) :=
  if depthStencilFormat ≠ Format.FORMAT_UNDEFINED then
    match GraphicsVK.createTexture2d drv st.self width height 1 depthStencilFormat
        Texture.USAGE_DEPTH_STENCIL_ATTACHMENT Texture.SAMPLE_COUNT_1X false with
    | none => none
    | some (depthStencilAttachment, self1) =>
      some (st.imageViews ++ [depthStencilAttachment._imageView], some depthStencilAttachment,
        self1)
  else some (st.imageViews, none, st.self)

/-- The function `GraphicsVK::createRenderPass`: the render pass is created from the
create-info of `createRenderPass_renderPassInfo`, then the attachment textures
are created and their views collected in slot order, then the framebuffer is
created.  `none` is an abort (or an input outside the domain of
`createRenderPass_renderPassInfo`). -/
def GraphicsVK.createRenderPass (drv : Driver) (self : GraphicsVK)
    (width height colorAttachmentCount : Nat) (colorFormat depthStencilFormat : Format)
    (sampleCount : Texture.SampleCount) : Option (RenderPassVK × GraphicsVK) :=
  match GraphicsVK.createRenderPass_renderPassInfo colorAttachmentCount colorFormat
      depthStencilFormat sampleCount with
  | none => none
  | some createInfo =>
    let renderPassVK := self.vk.fresh
    let self1 := { self with vk := self.vk.create (VkCall.vkCreateRenderPass createInfo) }
    match GraphicsVK.colorAttachmentLoop drv width height colorFormat sampleCount
        colorAttachmentCount ⟨[], [], [], self1⟩ with
    | none => none
    | some st =>
      match GraphicsVK.depthStencilTextureStep drv width height depthStencilFormat st with
      | none => none
      | some (imageViews, depthStencilAttachment, self2) =>
        let framebufferInfo : VkFramebufferCreateInfo :=
          { renderPass := renderPassVK
            attachmentCount := GraphicsVK.createRenderPass_attachmentCount colorAttachmentCount
              depthStencilFormat sampleCount
            pAttachments := imageViews
            width := toUInt32 width
            height := toUInt32 height
            layers := 1 }
        let framebufferVK := self2.vk.fresh
        some
          ({ width := width
             height := height
             colorAttachmentCount := colorAttachmentCount
             colorFormat := colorFormat
             depthStencilFormat := depthStencilFormat
             sampleCount := sampleCount
             colorAttachments := st.colorAttachments
             colorMultisampleAttachments := st.colorMultisampleAttachments
             depthStencilAttachment := depthStencilAttachment
             _renderPass := renderPassVK
             _framebuffer := framebufferVK },
           { self2 with vk := self2.vk.create (VkCall.vkCreateFramebuffer framebufferInfo) })

/-! ## Bring-up and resize (`onInitialize`, `onResize` and the `create*` steps) -/

/-- Modelled from the spec: the configuration bundle read by `onInitialize`
(`Game::Config`; `Game.h` is not among the sources): width, height,
fullscreen, vsync, multisample count and validation. -/
structure Config where
  width : Nat
  height : Nat
  fullscreen : Bool
  vsync : Bool
  multisampling : Nat
  validation : Bool
  deriving DecidableEq, Repr

/-- The next `n` handles of the implementation, handed out at once (the images
of a swapchain, the command buffers of one allocation). -/
def VkWorld.freshMany (w : VkWorld) (n : Nat) : List Nat :=
  (List.range n).map (fun i => w.handles + 1 + i)

/-- The operation `std::vector::resize` on a vector of handles: truncate, or pad with
value-initialised (null) handles. -/
def vectorResize (v : List Nat) (n : Nat) : List Nat :=
  v.take n ++ List.replicate (n - v.length) VK_NULL_HANDLE

/-- The function `GraphicsVK::createInstance` (lines 1133-1196): the instance and, with
validation enabled, the debug report callback.  The extension and layer lists
are not modelled. -/
def GraphicsVK.createInstance (self : GraphicsVK) : GraphicsVK :=
  let self1 := { self with
    _instance := self.vk.fresh
    vk := self.vk.create VkCall.vkCreateInstance }
  if self1._validation then
    { self1 with
      _debugMessageCallback := self1.vk.fresh
      vk := self1.vk.create VkCall.vkCreateDebugReportCallbackEXT }
  else self1

/-- The first index at or after `i` of an element satisfying `p`, as a `for`
loop that returns at the first hit. -/
def firstIndexFrom {α : Type} (p : α → Bool) : List α → Nat → Option Nat
  | [], _ => none
  | x :: rest, i => if p x then some i else firstIndexFrom p rest (i + 1)

/-- The function `GraphicsVK::getQueueFamiliyIndex` over the member `_queueFamilyProperties`. -/
def GraphicsVK.getQueueFamiliyIndex (_queueFamilyProperties : List VkQueueFamilyProperties)
    (queueFlags : Nat) : Nat :=
  let dedicated :=
    if queueFlags &&& VK_QUEUE_COMPUTE_BIT ≠ 0 then
      firstIndexFrom (fun q => decide (q.queueFlags &&& queueFlags ≠ 0 ∧
        q.queueFlags &&& VK_QUEUE_GRAPHICS_BIT = 0)) _queueFamilyProperties 0
    else none
  match dedicated with
  | some i => i
  | none =>
    match firstIndexFrom (fun q => decide (q.queueFlags &&& queueFlags ≠ 0))
        _queueFamilyProperties 0 with
    | some i => i
    | none => 0

/-- The function `GraphicsVK::createDevice` (lines 1198-1307).  `none` is a failed
`GP_ASSERT` (no physical device, no queue family).  The member vector
`_queueFamilyProperties` is not resized anywhere in the file: its `data()` is
what the second `vkGetPhysicalDeviceQueueFamilyProperties` call receives, and
the vector keeps its content.  The device extension and layer lists are not
modelled. -/
def GraphicsVK.createDevice (drv : Driver) (self : GraphicsVK) : Option GraphicsVK :=
  if drv.physicalDevices.length = 0 then none -- GP_ASSERT(gpuCount > 0)
  else if drv.queueProps.length = 0 then none -- GP_ASSERT(queueFamilyCount > 0)
  else
    let self1 := { self with
      _physicalDevice :=
        GraphicsVK.createDevice_physicalDevice drv.physicalDevices self._physicalDevice
      _physicalDeviceMemoryProperties := drv.memoryProperties }
    let self2 := { self1 with
      _queueFamilyIndexGraphics :=
        GraphicsVK.getQueueFamiliyIndex self1._queueFamilyProperties VK_QUEUE_GRAPHICS_BIT }
    let self3 := { self2 with
      _queueFamilyIndexCompute :=
        GraphicsVK.getQueueFamiliyIndex self2._queueFamilyProperties VK_QUEUE_COMPUTE_BIT }
    let queueFamilyIndices :=
      if self3._queueFamilyIndexCompute ≠ self3._queueFamilyIndexGraphics then
        [self3._queueFamilyIndexGraphics, self3._queueFamilyIndexCompute]
      else [self3._queueFamilyIndexGraphics]
    let physicalDevice := match self3._physicalDevice with
      | some d => d.handle
      | none => VK_NULL_HANDLE
    some { self3 with
      _device := self3.vk.fresh
      vk := self3.vk.create (VkCall.vkCreateDevice physicalDevice queueFamilyIndices) }

/-- The variables of the first present-queue loop of `createSurface` (lines
1353-1368). -/
structure QueueNodeIndices where
  graphicsQueueNodeIndex : Nat
  presentQueueNodeIndex : Nat
  deriving DecidableEq, Repr

/-- The first loop of the present-queue discovery (lines 1355-1368), over the
families from index `i` on; each family comes with its `supportsPresent`
entry. -/
def GraphicsVK.findGraphicsPresentQueue :
    List (VkQueueFamilyProperties × Bool) → Nat → QueueNodeIndices → QueueNodeIndices
  | [], _, idx => idx
  | (q, supportsPresent) :: rest, i, idx =>
    if q.queueFlags &&& VK_QUEUE_GRAPHICS_BIT ≠ 0 then
      let idx1 : QueueNodeIndices :=
        if idx.graphicsQueueNodeIndex = UINT32_MAX then { idx with graphicsQueueNodeIndex := i }
        else idx
      if supportsPresent then ⟨i, i⟩
      else GraphicsVK.findGraphicsPresentQueue rest (i + 1) idx1
    else GraphicsVK.findGraphicsPresentQueue rest (i + 1) idx

/-- The present-queue discovery of `createSurface` (lines 1342-1384): the
value stored in `_queueIndex`, or `none` for either fatal `GP_ERROR`. -/
def GraphicsVK.createSurface_queueIndex (queueProps : List VkQueueFamilyProperties)
    (supportsPresent : List Bool) : Option Nat :=
  let families := queueProps.zip supportsPresent
  let idx := GraphicsVK.findGraphicsPresentQueue families 0 ⟨UINT32_MAX, UINT32_MAX⟩
  let presentQueueNodeIndex :=
    if idx.presentQueueNodeIndex = UINT32_MAX then
      match firstIndexFrom (fun f => f.2) families 0 with
      | some i => i
      | none => UINT32_MAX
    else idx.presentQueueNodeIndex
  if idx.graphicsQueueNodeIndex = UINT32_MAX ∨ presentQueueNodeIndex = UINT32_MAX then
    GP_ERROR -- "Failed to find a graphics and/or presenting queue."
  else if idx.graphicsQueueNodeIndex ≠ presentQueueNodeIndex then
    GP_ERROR -- "Separate graphics and presenting queues are not supported yet!"
  else some idx.graphicsQueueNodeIndex

/-- The function `GraphicsVK::createSurface` (lines 1309-1409): the surface, the present
queue, the colour format and colour space, and the command pool.  `none` is a
failed `GP_ASSERT` or a fatal `GP_ERROR`. -/
def GraphicsVK.createSurface (drv : Driver) (self : GraphicsVK) (window connection : Nat) :
    Option GraphicsVK :=
  let self1 := { self with
    _surface := self.vk.fresh
    vk := self.vk.create (VkCall.vkCreateSurfaceKHR window connection) }
  if drv.queueProps.length = 0 then none -- GP_ASSERT(queueCount > 0)
  else
    match GraphicsVK.createSurface_queueIndex drv.queueProps drv.supportsPresent with
    | none => none
    | some queueIndex =>
      match drv.surfaceFormats with
      | [] => GP_ERROR -- "Failed to find device surface formats."
      | first :: _ =>
        let self2 := { self1 with
          _queueIndex := queueIndex
          _colorFormat :=
            if drv.surfaceFormats.length = 1 ∧ first.format = VkFormat.VK_FORMAT_UNDEFINED then
              VkFormat.VK_FORMAT_B8G8R8A8_UNORM
            else first.format
          _colorSpace := first.colorSpace }
        some { self2 with
          _commandPool := self2.vk.fresh
          vk := self2.vk.create (VkCall.vkCreateCommandPool self2._queueFamilyIndexGraphics) }

/-- The function `GraphicsVK::querySwapchainSurfaceInfo`. -/
def GraphicsVK.querySwapchainSurfaceInfo (drv : Driver) : SwapchainSurfaceInfo :=
  { capabilities := drv.capabilities
    formats := drv.surfaceFormats
    presentModes := drv.presentModes }

/-- The back-buffer count requested from the swapchain (lines 1432-1435). -/
def GraphicsVK.createSwapchain_requestedCount (capabilities : VkSurfaceCapabilitiesKHR) : Nat :=
  let _backBufferCount := capabilities.minImageCount
  if capabilities.maxImageCount > 0 ∧ _backBufferCount > capabilities.maxImageCount then
    capabilities.maxImageCount
  else _backBufferCount

/-- The create-info passed to `vkCreateSwapchainKHR` (lines 1419-1468), for the
chosen surface format. -/
def GraphicsVK.createSwapchain_createInfo (drv : Driver) (self : GraphicsVK)
    (surfaceFormat : VkSurfaceFormatKHR) : VkSwapchainCreateInfoKHR :=
  let oldSwapchain := self._swapchain
  let surfaceInfo := GraphicsVK.querySwapchainSurfaceInfo drv
  let presentMode := GraphicsVK.choosePresentMode self._vsync surfaceInfo.presentModes
  let preTransfer :=
    if surfaceInfo.capabilities.supportedTransforms &&& VK_SURFACE_TRANSFORM_IDENTITY_BIT_KHR ≠ 0
    then VK_SURFACE_TRANSFORM_IDENTITY_BIT_KHR
    else surfaceInfo.capabilities.currentTransform
  let formatProps := drv.formatProperties self._colorFormat
  { surface := self._surface
    minImageCount := GraphicsVK.createSwapchain_requestedCount surfaceInfo.capabilities
    imageFormat := surfaceFormat.format
    imageColorSpace := surfaceFormat.colorSpace
    imageExtent := ⟨self._width, self._height⟩
    imageArrayLayers := 1
    imageUsage :=
      if formatProps.optimalTilingFeatures &&& VK_FORMAT_FEATURE_BLIT_DST_BIT ≠ 0 then
        VK_IMAGE_USAGE_COLOR_ATTACHMENT_BIT ||| VK_IMAGE_USAGE_TRANSFER_SRC_BIT
      else VK_IMAGE_USAGE_COLOR_ATTACHMENT_BIT
    preTransform := preTransfer
    presentMode := presentMode
    oldSwapchain := oldSwapchain }

/-- The image-view create-info of one back buffer (lines 1482-1500). -/
def GraphicsVK.backBufferViewInfo (_colorFormat : VkFormat) (image : Nat) :
    VkImageViewCreateInfo :=
  { flags := 0
    image := image
    viewType := VkImageViewType.VK_IMAGE_VIEW_TYPE_2D
    format := _colorFormat
    aspectMask := VK_IMAGE_ASPECT_COLOR_BIT
    baseMipLevel := 0
    levelCount := 1
    baseArrayLayer := 0
    layerCount := 1 }

/-- The view loop of `createSwapchain` (lines 1480-1502) over the remaining
images: the views created so far and the implementation. -/
def GraphicsVK.createBackBufferViews (_colorFormat : VkFormat) :
    List Nat → List Nat × VkWorld → List Nat × VkWorld
  | [], acc => acc
  | image :: rest, (views, vk) =>
    GraphicsVK.createBackBufferViews _colorFormat rest
      (views ++ [vk.fresh],
        vk.create (VkCall.vkCreateImageView (GraphicsVK.backBufferViewInfo _colorFormat image)))

/-- The function `GraphicsVK::createSwapchain` (lines 1411-1503).  `_backBufferCount` is
first the requested count and is then overwritten by
`vkGetSwapchainImagesKHR` with the number of images of the new swapchain; both
vectors are resized to it and every element is assigned.  `none`: the surface
reports no format and `chooseSurfaceFormat` reads past the end. -/
def GraphicsVK.createSwapchain (drv : Driver) (self : GraphicsVK) : Option GraphicsVK :=
  match GraphicsVK.chooseSurfaceFormat (GraphicsVK.querySwapchainSurfaceInfo drv).formats with
  | none => none -- availableFormats[0] of an empty vector
  | some surfaceFormat =>
    let createInfo := GraphicsVK.createSwapchain_createInfo drv self surfaceFormat
    let self1 := { self with
      _backBufferCount := createInfo.minImageCount
      _swapchain := self.vk.fresh
      vk := self.vk.create (VkCall.vkCreateSwapchainKHR createInfo) }
    let imageCount := drv.swapchainImageCount createInfo
    let images := self1.vk.freshMany imageCount
    let vk2 : VkWorld := { self1.vk with handles := self1.vk.handles + imageCount }
    let views := GraphicsVK.createBackBufferViews self1._colorFormat images ([], vk2)
    some { self1 with
      _backBufferCount := imageCount
      _backBufferImages := images
      _backBufferImageViews := views.1
      vk := views.2 }

/-- The function `GraphicsVK::createCommandBuffers` (lines 1687-1696). -/
def GraphicsVK.createCommandBuffers (self : GraphicsVK) : GraphicsVK :=
  let commandBuffers := self.vk.freshMany self._backBufferCount
  { self with
    _commandBuffers := commandBuffers
    vk :=
      { handles := self.vk.handles + self._backBufferCount
        calls := self.vk.calls ++
          [VkCall.vkAllocateCommandBuffers self._commandPool self._backBufferCount
            commandBuffers] } }

/-- The ordered preference list of `getDepthStencilFormat` (lines 1761-1768). -/
def GraphicsVK.depthStencilFormats : List VkFormat :=
  [VkFormat.VK_FORMAT_D32_SFLOAT_S8_UINT, VkFormat.VK_FORMAT_D32_SFLOAT,
   VkFormat.VK_FORMAT_D24_UNORM_S8_UINT, VkFormat.VK_FORMAT_D16_UNORM_S8_UINT,
   VkFormat.VK_FORMAT_D16_UNORM]

/-- The function `GraphicsVK::getDepthStencilFormat(physicalDevice, &depthStencilFormat)`:
the returned `VkBool32` and the content of `*depthStencilFormat` on return. -/
def GraphicsVK.getDepthStencilFormat (drv : Driver) (depthStencilFormat : VkFormat) :
    Bool × VkFormat :=
  match GraphicsVK.depthStencilFormats.find? (fun format =>
      decide ((drv.formatProperties format).optimalTilingFeatures &&&
        VK_FORMAT_FEATURE_DEPTH_STENCIL_ATTACHMENT_BIT ≠ 0)) with
  | some format => (true, format)
  | none => (false, depthStencilFormat)

/-- The image create-info of `createDepthStencil` (lines 1513-1529).
`imageType` is not assigned and keeps the value 0 of the `= {}`
initialisation. -/
def GraphicsVK.createDepthStencil_imageCreateInfo (self : GraphicsVK) : VkImageCreateInfo :=
  { flags := 0
    imageType := VkImageType.VK_IMAGE_TYPE_1D
    format := self._depthStencilFormat
    extent := ⟨toUInt32 self._width, toUInt32 self._height, 1⟩
    mipLevels := 1
    arrayLayers := 1
    samples := VK_SAMPLE_COUNT_1_BIT
    tiling := VkImageTiling.VK_IMAGE_TILING_OPTIMAL
    usage := VK_IMAGE_USAGE_DEPTH_STENCIL_ATTACHMENT_BIT
    initialLayout := VkImageLayout.VK_IMAGE_LAYOUT_UNDEFINED }

/-- The function `GraphicsVK::createDepthStencil` (lines 1505-1568).  `none` is a fatal
`GP_ERROR`: no valid depth format, or no compatible memory type. -/
def GraphicsVK.createDepthStencil (drv : Driver) (self : GraphicsVK) : Option GraphicsVK :=
  let validDepthFormat := GraphicsVK.getDepthStencilFormat drv self._depthStencilFormat
  if validDepthFormat.1 = false then GP_ERROR -- "Failed to find valid depth format."
  else
    let self1 := { self with _depthStencilFormat := validDepthFormat.2 }
    let imageCreateInfo := GraphicsVK.createDepthStencil_imageCreateInfo self1
    let self2 := { self1 with
      _depthStencilImage := self1.vk.fresh
      vk := self1.vk.create (VkCall.vkCreateImage imageCreateInfo) }
    let memoryReqs := drv.imageMemoryRequirements imageCreateInfo
    let found := GraphicsVK.getMemoryTypeFromProperties self2._physicalDeviceMemoryProperties
      memoryReqs.memoryTypeBits 0 0
    if found.1 = false then
      GP_ERROR -- "Failed to find compatible memory for depth stencil buffer."
    else
      let self3 := { self2 with
        _depthStencilMemory := self2.vk.fresh
        vk := (self2.vk.create (VkCall.vkAllocateMemory memoryReqs.size found.2)).call
          (VkCall.vkBindImageMemory self2._depthStencilImage self2.vk.fresh 0) }
      let imageViewCreateInfo : VkImageViewCreateInfo :=
        { flags := 0
          image := self3._depthStencilImage
          viewType := VkImageViewType.VK_IMAGE_VIEW_TYPE_2D
          format := self3._depthStencilFormat
          aspectMask := VK_IMAGE_ASPECT_DEPTH_BIT
          baseMipLevel := 0
          levelCount := 1
          baseArrayLayer := 0
          layerCount := 1 }
      some { self3 with
        _depthStencilImageView := self3.vk.fresh
        vk := self3.vk.create (VkCall.vkCreateImageView imageViewCreateInfo) }

/-- The render-pass create-info of `createFrameBuffer` (lines 1572-1643): the
colour attachment, the depth-stencil attachment and the single subpass; the two
subpass dependencies are constants and are left out. -/
def GraphicsVK.createFrameBuffer_renderPassInfo (self : GraphicsVK) : VkRenderPassCreateInfo :=
  { attachmentCount := 2
    pAttachments :=
      [ { flags := 0
          format := self._colorFormat
          samples := VK_SAMPLE_COUNT_1_BIT
          loadOp := VkAttachmentLoadOp.VK_ATTACHMENT_LOAD_OP_CLEAR
          storeOp := VkAttachmentStoreOp.VK_ATTACHMENT_STORE_OP_STORE
          stencilLoadOp := VkAttachmentLoadOp.VK_ATTACHMENT_LOAD_OP_DONT_CARE
          stencilStoreOp := VkAttachmentStoreOp.VK_ATTACHMENT_STORE_OP_DONT_CARE
          initialLayout := VkImageLayout.VK_IMAGE_LAYOUT_UNDEFINED
          finalLayout := VkImageLayout.VK_IMAGE_LAYOUT_PRESENT_SRC_KHR },
        { flags := 0
          format := self._depthStencilFormat
          samples := VK_SAMPLE_COUNT_1_BIT
          loadOp := VkAttachmentLoadOp.VK_ATTACHMENT_LOAD_OP_CLEAR
          storeOp := VkAttachmentStoreOp.VK_ATTACHMENT_STORE_OP_DONT_CARE
          stencilLoadOp := VkAttachmentLoadOp.VK_ATTACHMENT_LOAD_OP_DONT_CARE
          stencilStoreOp := VkAttachmentStoreOp.VK_ATTACHMENT_STORE_OP_DONT_CARE
          initialLayout := VkImageLayout.VK_IMAGE_LAYOUT_UNDEFINED
          finalLayout := VkImageLayout.VK_IMAGE_LAYOUT_DEPTH_STENCIL_ATTACHMENT_OPTIMAL } ]
    pSubpasses :=
      { colorAttachmentCount := 1
        pColorAttachments :=
          some [⟨0, VkImageLayout.VK_IMAGE_LAYOUT_COLOR_ATTACHMENT_OPTIMAL⟩]
        pResolveAttachments := none
        pDepthStencilAttachment :=
          some ⟨1, VkImageLayout.VK_IMAGE_LAYOUT_DEPTH_STENCIL_ATTACHMENT_OPTIMAL⟩ } }

/-- The function `GraphicsVK::createFrameBuffer` (lines 1570-1646): creates the default
render pass. -/
def GraphicsVK.createFrameBuffer (self : GraphicsVK) : GraphicsVK :=
  { self with
    _renderPass := self.vk.fresh
    vk := self.vk.create
      (VkCall.vkCreateRenderPass (GraphicsVK.createFrameBuffer_renderPassInfo self)) }

/-- The loop of `createBackBuffers` (lines 1651-1666) with `remaining`
iterations left at counter `i`.  `none`: the read `_backBufferImageViews[i]`
is past the end of the vector. -/
def GraphicsVK.createBackBuffersLoop : Nat → Nat → GraphicsVK → Option GraphicsVK
  | 0, _, self => some self
  | remaining + 1, i, self =>
    match self._backBufferImageViews[i]? with
    | none => none
    | some view =>
      let frameBufferCreateInfo : VkFramebufferCreateInfo :=
        { renderPass := self._renderPass
          attachmentCount := 2
          pAttachments := [view, self._depthStencilImageView]
          width := self._width
          height := self._height
          layers := 1 }
      GraphicsVK.createBackBuffersLoop remaining (i + 1)
        { self with
          _frameBuffers := self._frameBuffers.set i self.vk.fresh
          vk := self.vk.create (VkCall.vkCreateFramebuffer frameBufferCreateInfo) }

/-- The function `GraphicsVK::createBackBuffers` (lines 1648-1667). -/
def GraphicsVK.createBackBuffers (self : GraphicsVK) : Option GraphicsVK :=
  GraphicsVK.createBackBuffersLoop self._backBufferCount 0
    { self with _frameBuffers := vectorResize self._frameBuffers self._backBufferCount }

/-- The fence loop of `createSynchronizationPrimitives` (lines 1683-1684) over
the remaining elements of `_fences`. -/
def GraphicsVK.createFences : List Nat → List Nat × VkWorld → List Nat × VkWorld
  | [], acc => acc
  | _ :: rest, (fences, vk) =>
    GraphicsVK.createFences rest (fences ++ [vk.fresh], vk.create VkCall.vkCreateFence)

/-- The function `GraphicsVK::createSynchronizationPrimitives` (lines 1669-1685). -/
def GraphicsVK.createSynchronizationPrimitives (self : GraphicsVK) : GraphicsVK :=
  let vk1 := self.vk.create VkCall.vkCreateSemaphore
  let vk2 := vk1.create VkCall.vkCreateSemaphore
  let fences := GraphicsVK.createFences
    (vectorResize self._fences self._commandBuffers.length) ([], vk2)
  { self with
    _semaphores := ⟨self.vk.fresh, vk1.fresh⟩
    _fences := fences.1
    vk := fences.2 }

/-- The function `GraphicsVK::onInitialize` (lines 91-116), with the configuration it
reads.  `none` is an abort in one of the steps. -/
def GraphicsVK.onInitialize (drv : Driver) (config : Config) (self : GraphicsVK)
    (window connection : Nat) : Option GraphicsVK :=
  if self._initialized then some self
  else
    let self0 := { self with
      _width := config.width
      _height := config.height
      _fullscreen := config.fullscreen
      _vsync := config.vsync
      _multisampling := config.multisampling
      _validation := config.validation }
    let self1 := GraphicsVK.createInstance self0
    match GraphicsVK.createDevice drv self1 with
    | none => none
    | some self2 =>
      match GraphicsVK.createSurface drv self2 window connection with
      | none => none
      | some self3 =>
        match GraphicsVK.createSwapchain drv self3 with
        | none => none
        | some self4 =>
          let self5 := GraphicsVK.createCommandBuffers self4
          match GraphicsVK.createDepthStencil drv self5 with
          | none => none
          | some self6 =>
            let self7 := GraphicsVK.createFrameBuffer self6
            match GraphicsVK.createBackBuffers self7 with
            | none => none
            | some self8 =>
              let self9 := GraphicsVK.createSynchronizationPrimitives self8
              some { self9 with _initialized := true, _resized := true }

/-- The "Destroy depth/stencil" block of `onResize` (lines 131-146). -/
def GraphicsVK.onResize_destroyDepthStencil (self : GraphicsVK) : GraphicsVK :=
  let self1 :=
    if self._depthStencilImageView ≠ VK_NULL_HANDLE then
      { self with
        _depthStencilImageView := VK_NULL_HANDLE
        vk := self.vk.call (VkCall.vkDestroyImageView self._depthStencilImageView) }
    else self
  let self2 :=
    if self1._depthStencilImage ≠ VK_NULL_HANDLE then
      { self1 with
        _depthStencilImage := VK_NULL_HANDLE
        vk := self1.vk.call (VkCall.vkDestroyImage self1._depthStencilImage) }
    else self1
  if self2._depthStencilMemory ≠ VK_NULL_HANDLE then
    { self2 with
      _depthStencilMemory := VK_NULL_HANDLE
      vk := self2.vk.call (VkCall.vkFreeMemory self2._depthStencilMemory) }
  else self2

/-- The "Destroy framebuffer" loop of `onResize` (lines 150-157) with
`remaining` iterations left at counter `i`.  `none`: the read
`_frameBuffers[i]` is past the end of the vector. -/
def GraphicsVK.onResize_destroyFrameBuffers : Nat → Nat → GraphicsVK → Option GraphicsVK
  | 0, _, self => some self
  | remaining + 1, i, self =>
    match self._frameBuffers[i]? with
    | none => none
    | some frameBuffer =>
      GraphicsVK.onResize_destroyFrameBuffers remaining (i + 1)
        (if frameBuffer ≠ VK_NULL_HANDLE then
          { self with
            _frameBuffers := self._frameBuffers.set i VK_NULL_HANDLE
            vk := self.vk.call (VkCall.vkDestroyFramebuffer frameBuffer) }
        else self)

/-- The view loop of the "Recreate swapchain" block of `onResize` (lines
171-174) with `remaining` iterations left at counter `i`.  `none`: the read
`_backBufferImageViews[i]` is past the end of the vector. -/
def GraphicsVK.onResize_destroyBackBufferViews : Nat → Nat → GraphicsVK → Option GraphicsVK
  | 0, _, self => some self
  | remaining + 1, i, self =>
    match self._backBufferImageViews[i]? with
    | none => none
    | some view =>
      GraphicsVK.onResize_destroyBackBufferViews remaining (i + 1)
        { self with vk := self.vk.call (VkCall.vkDestroyImageView view) }

/-- The "Destroy the render passes" block of `onResize` (lines 158-164):
`_frameBuffers.clear()` and the destruction of the default render pass. -/
def GraphicsVK.onResize_destroyRenderPass (self : GraphicsVK) : GraphicsVK :=
  let self1 := { self with _frameBuffers := [] }
  if self1._renderPass ≠ VK_NULL_HANDLE then
    { self1 with
      _renderPass := VK_NULL_HANDLE
      vk := self1.vk.call (VkCall.vkDestroyRenderPass self1._renderPass) }
  else self1

/-- The destroying half of the "Recreate swapchain" block of `onResize` (lines
169-177). -/
def GraphicsVK.onResize_destroySwapchain (self : GraphicsVK) : Option GraphicsVK :=
  if self._swapchain ≠ VK_NULL_HANDLE then
    match GraphicsVK.onResize_destroyBackBufferViews self._backBufferCount 0 self with
    | none => none
    | some self1 =>
      some { self1 with
        _swapchain := VK_NULL_HANDLE
        vk := self1.vk.call (VkCall.vkDestroySwapchainKHR self1._swapchain) }
  else some self

/-- The "destroy command buffers" block of `onResize` (lines 180-182). -/
def GraphicsVK.onResize_freeCommandBuffers (self : GraphicsVK) : GraphicsVK :=
  { self with
    _commandBuffers := []
    vk := self.vk.call (VkCall.vkFreeCommandBuffers self._commandPool self._commandBuffers) }

set_option linter.unusedVariables false in
/-- The function `GraphicsVK::onResize(width, height)` (lines 123-187).  The parameters
`width` and `height` are `int`s; the body does not read them.  `none` is an
abort in one of the steps. -/
def GraphicsVK.onResize (drv : Driver) (self : GraphicsVK) (width height : Int) :
    Option GraphicsVK :=
  if !self._resized then some self
  else
    let self1 := { self with _resized := false, vk := self.vk.call VkCall.vkDeviceWaitIdle }
    let self2 := GraphicsVK.onResize_destroyDepthStencil self1
    match GraphicsVK.createDepthStencil drv self2 with
    | none => none
    | some self3 =>
      match GraphicsVK.onResize_destroyFrameBuffers self3._backBufferCount 0 self3 with
      | none => none
      | some self4 =>
        let self5 := GraphicsVK.onResize_destroyRenderPass self4
        let self6 := GraphicsVK.createFrameBuffer self5
        match GraphicsVK.createBackBuffers self6 with
        | none => none
        | some self7 =>
          match GraphicsVK.onResize_destroySwapchain self7 with
          | none => none
          | some self8 =>
            match GraphicsVK.createSwapchain drv self8 with
            | none => none
            | some self9 =>
              let self10 := GraphicsVK.onResize_freeCommandBuffers self9
              let self11 := GraphicsVK.createCommandBuffers self10
              some { self11 with
                _resized := true
                vk := self11.vk.call VkCall.vkDeviceWaitIdle }

/-- The fence loop of the destructor (lines 66-67) with `remaining` iterations
left at counter `i`; the bound of the loop is `_frameBuffers.size()`.  `none`:
the read `_fences[i]` is past the end of the vector. -/
def GraphicsVK.destructor_destroyFences : Nat → Nat → GraphicsVK → Option GraphicsVK
  | 0, _, self => some self
  | remaining + 1, i, self =>
    match self._fences[i]? with
    | none => none
    | some fence =>
      GraphicsVK.destructor_destroyFences remaining (i + 1)
        { self with vk := self.vk.call (VkCall.vkDestroyFence fence) }

/-- The framebuffer loop of the destructor (lines 71-72) over the remaining
elements of `_frameBuffers`. -/
def GraphicsVK.destructor_destroyFrameBuffers : List Nat → VkWorld → VkWorld
  | [], vk => vk
  | frameBuffer :: rest, vk =>
    GraphicsVK.destructor_destroyFrameBuffers rest (vk.call (VkCall.vkDestroyFramebuffer frameBuffer))

/-- The destructor `GraphicsVK::~GraphicsVK` (lines 63-89): the Vulkan implementation
after it; the object is gone.  The function pointer `vkDebugReportMessageEXT`
is loaded by `createInstance` in the block that creates the callback, so the
test at line 84 is the one on `_debugMessageCallback`.  `none`: the fence loop
reads past the end of `_fences`. -/
def GraphicsVK.destructor (self : GraphicsVK) : Option VkWorld :=
  let self1 := { self with vk := self.vk.call VkCall.vkDeviceWaitIdle }
  match GraphicsVK.destructor_destroyFences self1._frameBuffers.length 0 self1 with
  | none => none
  | some self2 =>
    let vk3 := self2.vk.call (VkCall.vkFreeCommandBuffers self2._commandPool self2._commandBuffers)
    let vk4 := vk3.call (VkCall.vkDestroyRenderPass self2._renderPass)
    let vk5 := GraphicsVK.destructor_destroyFrameBuffers self2._frameBuffers vk4
    let vk6 := vk5.call (VkCall.vkDestroyImageView self2._depthStencilImageView)
    let vk7 := vk6.call (VkCall.vkDestroyImage self2._depthStencilImage)
    let vk8 := vk7.call (VkCall.vkFreeMemory self2._depthStencilMemory)
    let vk9 := vk8.call (VkCall.vkDestroyPipelineCache self2._pipelineCache)
    let vk10 := vk9.call (VkCall.vkDestroyCommandPool self2._commandPool)
    let vk11 := vk10.call (VkCall.vkDestroySemaphore self2._semaphores.renderComplete)
    let vk12 := vk11.call (VkCall.vkDestroySemaphore self2._semaphores.presentComplete)
    let vk13 := vk12.call (VkCall.vkDestroySwapchainKHR self2._swapchain)
    let vk14 := vk13.call (VkCall.vkDestroyDevice self2._device)
    let vk15 :=
      if self2._debugMessageCallback ≠ VK_NULL_HANDLE then
        vk14.call (VkCall.vkDestroyDebugReportCallbackEXT self2._debugMessageCallback)
      else vk14
    let vk16 := vk15.call (VkCall.vkDestroySurfaceKHR self2._surface)
    some (vk16.call (VkCall.vkDestroyInstance self2._instance))

/-- The object as the constructor leaves it (lines 32-61), talking to a Vulkan
implementation that has handed out no handle yet. -/
def GraphicsVK.new : GraphicsVK :=
  { _initialized := false
    _resized := false
    _width := 0
    _height := 0
    _fullscreen := false
    _vsync := false
    _multisampling := 0
    _validation := false
    _instance := VK_NULL_HANDLE
    _surface := VK_NULL_HANDLE
    _physicalDevice := none
    _physicalDeviceMemoryProperties := ⟨0, []⟩
    _queueFamilyProperties := []
    _queueFamilyIndexGraphics := 0
    _queueFamilyIndexCompute := 0
    _queueIndex := 0
    _device := VK_NULL_HANDLE
    _swapchain := VK_NULL_HANDLE
    _backBufferIndex := 0
    _backBufferCount := 0
    _backBufferImages := []
    _backBufferImageViews := []
    _colorSpace := VkColorSpaceKHR.VK_COLOR_SPACE_SRGB_NONLINEAR_KHR
    _colorFormat := VkFormat.VK_FORMAT_UNDEFINED
    _depthStencilFormat := VkFormat.VK_FORMAT_UNDEFINED
    _depthStencilMemory := VK_NULL_HANDLE
    _depthStencilImage := VK_NULL_HANDLE
    _depthStencilImageView := VK_NULL_HANDLE
    _frameBuffers := []
    _renderPass := VK_NULL_HANDLE
    _pipelineCache := VK_NULL_HANDLE
    _commandPool := VK_NULL_HANDLE
    _commandBuffers := []
    _semaphores := ⟨VK_NULL_HANDLE, VK_NULL_HANDLE⟩
    _fences := []
    _debugMessageCallback := VK_NULL_HANDLE
    vk := ⟨0, []⟩ }

/-- A Vulkan implementation used in the examples: one discrete GPU with a
single device-local memory type and a single graphics queue family that can
present, every format usable for every purpose, 12 mip levels, two to three
swapchain images and as many images as the swapchain create-info asks for. -/
def exampleDriver : Driver :=
  { physicalDevices := [discreteGpu]
    memoryProperties := ⟨1, [⟨VK_MEMORY_PROPERTY_DEVICE_LOCAL_BIT, 0⟩]⟩
    queueProps := [⟨VK_QUEUE_GRAPHICS_BIT ||| VK_QUEUE_COMPUTE_BIT⟩]
    supportsPresent := [true]
    capabilities := ⟨2, 3, VK_SURFACE_TRANSFORM_IDENTITY_BIT_KHR, VK_SURFACE_TRANSFORM_IDENTITY_BIT_KHR⟩
    surfaceFormats := [preferredSurfaceFormat]
    presentModes := [VkPresentModeKHR.VK_PRESENT_MODE_FIFO_KHR]
    formatProperties := fun _ => ⟨0xFFFF, 0xFFFF, 0xFFFF⟩
    maxMipLevels := fun _ _ _ _ _ => some 12
    imageMemoryRequirements := fun info => ⟨info.extent.width * info.extent.height * 4, 256, 1⟩
    bufferMemoryRequirements := fun info => ⟨info.size, 256, 1⟩
    swapchainImageCount := fun info => info.minImageCount }

/-- The object with the memory-type table of `exampleDriver` loaded, as
`createDevice` leaves it. -/
def exampleObject : GraphicsVK :=
  { GraphicsVK.new with _physicalDeviceMemoryProperties := exampleDriver.memoryProperties }

/-- The configuration used in the examples: an 800 x 600 window. -/
def exampleConfig : Config :=
  { width := 800, height := 600, fullscreen := false, vsync := true, multisampling := 0,
    validation := false }

/-- The example implementation after the surface has changed so that three
images are the minimum. -/
def exampleDriverThreeImages : Driver :=
  { exampleDriver with
    capabilities :=
      ⟨3, 3, VK_SURFACE_TRANSFORM_IDENTITY_BIT_KHR, VK_SURFACE_TRANSFORM_IDENTITY_BIT_KHR⟩ }

/-- The extents of the images created by the calls of a log, oldest first. -/
def createdImageExtents : List VkCall → List VkExtent3D
  | [] => []
  | VkCall.vkCreateImage info _ :: rest => info.extent :: createdImageExtents rest
  | _ :: rest => createdImageExtents rest

/-- The extents of the swapchains created by the calls of a log, oldest first. -/
def createdSwapchainExtents : List VkCall → List VkExtent2D
  | [] => []
  | VkCall.vkCreateSwapchainKHR info _ :: rest => info.imageExtent :: createdSwapchainExtents rest
  | _ :: rest => createdSwapchainExtents rest

/-- The sizes of the framebuffers created by the calls of a log, oldest first. -/
def createdFramebufferExtents : List VkCall → List VkExtent2D
  | [] => []
  | VkCall.vkCreateFramebuffer info _ :: rest =>
    ⟨info.width, info.height⟩ :: createdFramebufferExtents rest
  | _ :: rest => createdFramebufferExtents rest

/-- An implementation whose surface declares a minimum of two images and no
maximum, and whose swapchains hold one image more than requested. -/
def exampleDriverExtraImage : Driver :=
  { exampleDriver with
    capabilities :=
      ⟨2, 0, VK_SURFACE_TRANSFORM_IDENTITY_BIT_KHR, VK_SURFACE_TRANSFORM_IDENTITY_BIT_KHR⟩
    swapchainImageCount := fun info => info.minImageCount + 1 }

/-- What a log says about swapchains: a creation with the `oldSwapchain` of
its create-info and the new handle, or a destruction. -/
inductive SwapchainEvent where
  | created (oldSwapchain swapchain : Nat)
  | destroyed (swapchain : Nat)
  deriving DecidableEq, Repr

/-- The swapchain event of one call, if it is one. -/
def swapchainEvent : VkCall → Option SwapchainEvent
  | VkCall.vkCreateSwapchainKHR info swapchain =>
    some (SwapchainEvent.created info.oldSwapchain swapchain)
  | VkCall.vkDestroySwapchainKHR swapchain => some (SwapchainEvent.destroyed swapchain)
  | _ => none

/-- The swapchain creations and destructions of a log, oldest first. -/
def swapchainEvents (calls : List VkCall) : List SwapchainEvent :=
  calls.filterMap swapchainEvent

/-- A Vulkan implementation like `exampleDriver` that reports at most five mip
levels for every image. -/
def exampleDriverFiveMips : Driver :=
  { exampleDriver with maxMipLevels := fun _ _ _ _ _ => some 5 }

/-- A Vulkan implementation like `exampleDriver` that reports `maxMipLevels`
0 for every image. -/
def exampleDriverNoMips : Driver :=
  { exampleDriver with maxMipLevels := fun _ _ _ _ _ => some 0 }

/-- What the multisample loop leaves at index `2 * i`: the members assigned at
lines 832-840 over the zeroed element; `finalLayout` is not assigned. -/
def GraphicsVK.resolveSlotDesc (colorFormat : Format) (sampleCount : Texture.SampleCount) :
    VkAttachmentDescription :=
  { VkAttachmentDescription.zeroed with
    flags := 0
    format := GraphicsVK.toFormat colorFormat
    samples := GraphicsVK.toSamples sampleCount
    loadOp := VkAttachmentLoadOp.VK_ATTACHMENT_LOAD_OP_CLEAR
    storeOp := VkAttachmentStoreOp.VK_ATTACHMENT_STORE_OP_STORE
    stencilLoadOp := VkAttachmentLoadOp.VK_ATTACHMENT_LOAD_OP_CLEAR
    stencilStoreOp := VkAttachmentStoreOp.VK_ATTACHMENT_STORE_OP_STORE
    initialLayout := VkImageLayout.VK_IMAGE_LAYOUT_COLOR_ATTACHMENT_OPTIMAL }

/-- What the multisample loop leaves at index `2 * i + 1` (lines 842-849). -/
def GraphicsVK.multisampleSlotDesc (colorFormat : Format) (sampleCount : Texture.SampleCount) :
    VkAttachmentDescription :=
  { VkAttachmentDescription.zeroed with
    format := GraphicsVK.toFormat colorFormat
    samples := GraphicsVK.toSamples sampleCount
    loadOp := VkAttachmentLoadOp.VK_ATTACHMENT_LOAD_OP_CLEAR
    storeOp := VkAttachmentStoreOp.VK_ATTACHMENT_STORE_OP_STORE
    stencilLoadOp := VkAttachmentLoadOp.VK_ATTACHMENT_LOAD_OP_CLEAR
    stencilStoreOp := VkAttachmentStoreOp.VK_ATTACHMENT_STORE_OP_STORE
    initialLayout := VkImageLayout.VK_IMAGE_LAYOUT_COLOR_ATTACHMENT_OPTIMAL
    finalLayout := VkImageLayout.VK_IMAGE_LAYOUT_COLOR_ATTACHMENT_OPTIMAL }

/-- The state of the scratch arrays after `m` iterations of the multisample
loop; `n` and `c` are the lengths of the description and reference arrays. -/
def MultisampleLoopInv (colorFormat : Format) (sampleCount : Texture.SampleCount)
    (n c m : Nat) (a : AttachmentArrays) : Prop :=
  a.attachmentDescs.length = n ∧ a.colorAttachmentRefs.length = c ∧
  a.resolveAttachmentRefs.length = c ∧
  (∀ k, a.attachmentDescs.getD k VkAttachmentDescription.zeroed =
    if k < 2 * m then
      (if k % 2 = 0 then GraphicsVK.resolveSlotDesc colorFormat sampleCount
       else GraphicsVK.multisampleSlotDesc colorFormat sampleCount)
    else VkAttachmentDescription.zeroed) ∧
  (∀ i, a.colorAttachmentRefs.getD i VkAttachmentReference.zeroed =
    if i < m then ⟨toUInt32 (2 * i + 1), VkImageLayout.VK_IMAGE_LAYOUT_COLOR_ATTACHMENT_OPTIMAL⟩
    else VkAttachmentReference.zeroed) ∧
  (∀ i, a.resolveAttachmentRefs.getD i VkAttachmentReference.zeroed =
    if i < m then ⟨toUInt32 (2 * i), VkImageLayout.VK_IMAGE_LAYOUT_COLOR_ATTACHMENT_OPTIMAL⟩
    else VkAttachmentReference.zeroed)

/-- What the depth-stencil block leaves at its index (lines 860-868). -/
def GraphicsVK.depthStencilSlotDesc (depthStencilFormat : Format)
    (sampleCount : Texture.SampleCount) : VkAttachmentDescription :=
  { VkAttachmentDescription.zeroed with
    flags := 0
    format := GraphicsVK.toFormat depthStencilFormat
    samples := GraphicsVK.toSamples sampleCount
    loadOp := VkAttachmentLoadOp.VK_ATTACHMENT_LOAD_OP_CLEAR
    storeOp := VkAttachmentStoreOp.VK_ATTACHMENT_STORE_OP_STORE
    stencilLoadOp := VkAttachmentLoadOp.VK_ATTACHMENT_LOAD_OP_CLEAR
    stencilStoreOp := VkAttachmentStoreOp.VK_ATTACHMENT_STORE_OP_STORE
    initialLayout := VkImageLayout.VK_IMAGE_LAYOUT_DEPTH_STENCIL_ATTACHMENT_OPTIMAL
    finalLayout := VkImageLayout.VK_IMAGE_LAYOUT_DEPTH_STENCIL_ATTACHMENT_OPTIMAL }

/-- The call log of `w'` extends the call log of `w`. -/
def CallsExtend (w w' : VkWorld) : Prop :=
  ∃ extra, w'.calls = w.calls ++ extra

/-- The state `s'` differs from `s` at most in the Vulkan implementation, whose call log
has only grown. -/
def OnlyCallsAdded (s s' : GraphicsVK) : Prop :=
  ∃ vk', s' = { s with vk := vk' } ∧ CallsExtend s.vk vk'

/-- The step from `s` to `s'` keeps `_swapchain` and makes no swapchain call. -/
def KeepsSwapchain (s s' : GraphicsVK) : Prop :=
  s'._swapchain = s._swapchain ∧ swapchainEvents s'.vk.calls = swapchainEvents s.vk.calls

/-- The mip-level count of each image creation and the level count of each
image-view creation of a log, oldest first. -/
def createdMipLevels (calls : List VkCall) : List Nat :=
  calls.filterMap (fun c => match c with
    | VkCall.vkCreateImage info _ => some info.mipLevels
    | VkCall.vkCreateImageView info _ => some info.levelCount
    | _ => none)

/-- The index `k` is the lowest index of an element of `l` that satisfies `p`. -/
def IsFirstIndex {α : Type} (p : α → Prop) (l : List α) (k : Nat) : Prop :=
  (∃ x, l[k]? = some x ∧ p x) ∧ ∀ j, j < k → ∀ y, l[j]? = some y → ¬ p y

/-- The queue family has one of the capabilities `flags`. -/
def VkQueueFamilyProperties.supports (q : VkQueueFamilyProperties) (flags : Nat) : Prop :=
  q.queueFlags &&& flags ≠ 0

/-- The queue family, given with its `supportsPresent` entry, supports both
graphics and presentation. -/
def SupportsGraphicsAndPresent (f : VkQueueFamilyProperties × Bool) : Prop :=
  f.1.supports VK_QUEUE_GRAPHICS_BIT ∧ f.2 = true

/-- The function `GraphicsVK::createVertexBuffer`. -/
def GraphicsVK.createVertexBuffer (drv : Driver) (self : GraphicsVK) (size vertexStride : Nat)
    (hostVisible : Bool) : Option (BufferVK × GraphicsVK) :=
  GraphicsVK.createBuffer drv self Buffer.Usage.USAGE_VERTEX size vertexStride hostVisible

/-- The function `GraphicsVK::createIndexBuffer`; the parameter says whether `indexFormat` is
`INDEX_FORMAT_UINT` (the enumeration is not declared among the sources), and the
strides are `sizeof(unsigned int)` and `sizeof(unsigned short)`. -/
def GraphicsVK.createIndexBuffer (drv : Driver) (self : GraphicsVK) (size : Nat)
    (indexFormatIsUInt : Bool) (hostVisible : Bool) : Option (BufferVK × GraphicsVK) :=
  let stride := if indexFormatIsUInt then 4 else 2
  GraphicsVK.createBuffer drv self Buffer.Usage.USAGE_INDEX size stride hostVisible

/-- The function `GraphicsVK::destroyBuffer` (lines 424-429): the Vulkan implementation
after it. -/
def GraphicsVK.destroyBuffer (self : GraphicsVK) (buffer : BufferVK) : GraphicsVK :=
  { self with vk := self.vk.call (VkCall.vkDestroyBuffer buffer._buffer) }

/-- The function `GraphicsVK::destroyTexture` (lines 786-797). -/
def GraphicsVK.destroyTexture (self : GraphicsVK) (textureVK : TextureVK) : GraphicsVK :=
  let vk1 :=
    if textureVK._deviceMemory ≠ VK_NULL_HANDLE then
      self.vk.call (VkCall.vkFreeMemory textureVK._deviceMemory)
    else self.vk
  let vk2 :=
    if textureVK._image ≠ VK_NULL_HANDLE then vk1.call (VkCall.vkDestroyImage textureVK._image)
    else vk1
  let vk3 :=
    if textureVK._imageView ≠ VK_NULL_HANDLE then
      vk2.call (VkCall.vkDestroyImageView textureVK._imageView)
    else vk2
  { self with vk := vk3 }

/-- The last device of an enumeration with the given score, if there is one. -/
def lastWithScore (score : Int) (physicalDevices : List VkPhysicalDevice) :
    Option VkPhysicalDevice :=
  physicalDevices.reverse.find? (fun d => decide (GraphicsVK.deviceScore d = score))

/-- The framebuffers created by the calls of a log, oldest first: the handle,
the render pass and the attachments. -/
def createdFramebuffers (calls : List VkCall) : List (Nat × Nat × List Nat) :=
  calls.filterMap (fun c => match c with
    | VkCall.vkCreateFramebuffer info framebuffer =>
      some (framebuffer, info.renderPass, info.pAttachments)
    | _ => none)

/-- The image views destroyed by the calls of a log, oldest first. -/
def destroyedImageViews (calls : List VkCall) : List Nat :=
  calls.filterMap (fun c => match c with
    | VkCall.vkDestroyImageView view => some view
    | _ => none)

/-- The formats of the swapchain creations and of the image-view creations of a
log, oldest first. -/
def createdColorFormats (calls : List VkCall) : List VkFormat :=
  calls.filterMap (fun c => match c with
    | VkCall.vkCreateSwapchainKHR info _ => some info.imageFormat
    | VkCall.vkCreateImageView info _ => some info.format
    | _ => none)

/-- A Vulkan implementation like `exampleDriver` whose surface reports
`R8G8B8A8_UNORM` first and the preferred `B8G8R8A8_UNORM` second. -/
def exampleDriverTwoFormats : Driver :=
  { exampleDriver with
    surfaceFormats :=
      [⟨VkFormat.VK_FORMAT_R8G8B8A8_UNORM, VkColorSpaceKHR.VK_COLOR_SPACE_SRGB_NONLINEAR_KHR⟩,
       preferredSurfaceFormat] }

/-- A Vulkan implementation like `exampleDriver` whose formats support sampled
images only. -/
def exampleDriverSampledOnly : Driver :=
  { exampleDriver with
    formatProperties := fun _ =>
      ⟨VK_FORMAT_FEATURE_SAMPLED_IMAGE_BIT, VK_FORMAT_FEATURE_SAMPLED_IMAGE_BIT,
        VK_FORMAT_FEATURE_SAMPLED_IMAGE_BIT⟩ }

/-- The sample count of the texture of a render pass whose image view is bound
at each slot of a framebuffer, in slot order. -/
def RenderPassVK.slotSampleCounts (renderPass : RenderPassVK) (pAttachments : List Nat) :
    List (Option Texture.SampleCount) :=
  pAttachments.map (fun view =>
    ((renderPass.colorAttachments ++ renderPass.colorMultisampleAttachments ++
      renderPass.depthStencilAttachment.toList).find?
        (fun texture => texture._imageView = view)).map (fun texture => texture.sampleCount))

/-- The attachment list of the last framebuffer creation of a log. -/
def lastFramebufferAttachments (calls : List VkCall) : List Nat :=
  match (createdFramebuffers calls).getLast? with
  | some created => created.2.2
  | none => []

/-- The sample counts declared by the attachment descriptions of the render-pass
creations of a log, oldest first. -/
def createdRenderPassSamples (calls : List VkCall) : List (List VkSampleCountFlagBits) :=
  calls.filterMap (fun c => match c with
    | VkCall.vkCreateRenderPass info _ => some (info.pAttachments.map (fun d => d.samples))
    | _ => none)

/-- The optimal-tiling features the implementation reports for the format
include the depth-stencil attachment feature. -/
def Driver.supportsDepthStencil (drv : Driver) (format : VkFormat) : Prop :=
  (drv.formatProperties format).optimalTilingFeatures &&&
    VK_FORMAT_FEATURE_DEPTH_STENCIL_ATTACHMENT_BIT ≠ 0

/-- The feature set `createTexture` tests: the one reported for linear tiling
for a host-visible texture, the one for optimal tiling otherwise. -/
def Driver.tilingFeatures (drv : Driver) (format : VkFormat) (hostVisible : Bool) : Nat :=
  if hostVisible then (drv.formatProperties format).linearTilingFeatures
  else (drv.formatProperties format).optimalTilingFeatures

/-- What the rating loop maintains: keys ascend strictly, every entry is an
enumerated device stored under its own score, and every enumerated device has
its score among the keys. -/
def RatedInv (seen : List VkPhysicalDevice) (rated : List (Int × VkPhysicalDevice)) : Prop :=
  rated.Pairwise (fun a b => a.1 < b.1) ∧
  (∀ e ∈ rated, e.2 ∈ seen ∧ GraphicsVK.deviceScore e.2 = e.1) ∧
  (∀ d ∈ seen, ∃ e ∈ rated, e.1 = GraphicsVK.deviceScore d)

/-! ## Theorems -/

open GraphicsVK

/-! ### The rated-device map -/

theorem mapAssign_mem {V : Type} (k : Int) (v : V) (m : List (Int × V)) (e : Int × V)
    (he : e ∈ mapAssign k v m) : e = (k, v) ∨ e ∈ m := by
  induction m with
  | nil => simp [mapAssign] at he; exact Or.inl he
  | cons hd tl ih =>
    obtain ⟨k', v'⟩ := hd
    unfold mapAssign at he
    split_ifs at he with h1 h2
    · rcases List.mem_cons.1 he with h | h
      · exact Or.inl h
      · exact Or.inr h
    · rcases List.mem_cons.1 he with h | h
      · exact Or.inl h
      · exact Or.inr (List.mem_cons_of_mem _ h)
    · rcases List.mem_cons.1 he with h | h
      · exact Or.inr (h ▸ List.mem_cons_self _ _)
      · rcases ih h with h' | h'
        · exact Or.inl h'
        · exact Or.inr (List.mem_cons_of_mem _ h')

theorem mapAssign_self_mem {V : Type} (k : Int) (v : V) (m : List (Int × V)) :
    (k, v) ∈ mapAssign k v m := by
  induction m with
  | nil => simp [mapAssign]
  | cons hd tl ih =>
    obtain ⟨k', v'⟩ := hd
    unfold mapAssign
    split_ifs with h1 h2
    · exact List.mem_cons_self _ _
    · exact List.mem_cons_self _ _
    · exact List.mem_cons_of_mem _ ih

theorem mapAssign_key_kept {V : Type} (k : Int) (v : V) (m : List (Int × V)) (e : Int × V)
    (he : e ∈ m) : ∃ e' ∈ mapAssign k v m, e'.1 = e.1 := by
  induction m with
  | nil => cases he
  | cons hd tl ih =>
    obtain ⟨k', v'⟩ := hd
    unfold mapAssign
    split_ifs with h1 h2
    · exact ⟨e, List.mem_cons_of_mem _ he, rfl⟩
    · rcases List.mem_cons.1 he with h | h
      · exact ⟨(k, v), List.mem_cons_self _ _, by rw [h]; exact h2⟩
      · exact ⟨e, List.mem_cons_of_mem _ h, rfl⟩
    · rcases List.mem_cons.1 he with h | h
      · exact ⟨(k', v'), List.mem_cons_self _ _, by rw [h]⟩
      · obtain ⟨e', he', hk⟩ := ih h
        exact ⟨e', List.mem_cons_of_mem _ he', hk⟩

theorem mapAssign_sorted {V : Type} (k : Int) (v : V) (m : List (Int × V))
    (hm : m.Pairwise (fun a b => a.1 < b.1)) :
    (mapAssign k v m).Pairwise (fun a b => a.1 < b.1) := by
  induction m with
  | nil => simp [mapAssign]
  | cons hd tl ih =>
    obtain ⟨k', v'⟩ := hd
    have htl := (List.pairwise_cons.1 hm).2
    have hhd := (List.pairwise_cons.1 hm).1
    unfold mapAssign
    split_ifs with h1 h2
    · refine List.pairwise_cons.2 ⟨?_, hm⟩
      intro b hb
      rcases List.mem_cons.1 hb with h | h
      · rw [h]; exact h1
      · exact lt_trans h1 (hhd b h)
    · refine List.pairwise_cons.2 ⟨?_, htl⟩
      intro b hb
      have := hhd b hb
      simpa [h2] using this
    · refine List.pairwise_cons.2 ⟨?_, ih htl⟩
      intro b hb
      rcases mapAssign_mem k v tl b hb with h | h
      · rw [h]
        show k' < k
        omega
      · exact hhd b h

theorem ratedInv_foldl (l seen : List VkPhysicalDevice) (rated : List (Int × VkPhysicalDevice))
    (h : RatedInv seen rated) :
    RatedInv (seen ++ l) (l.foldl (fun rated d => mapAssign (deviceScore d) d rated) rated) := by
  induction l generalizing seen rated with
  | nil => simpa using h
  | cons d tl ih =>
    have step : RatedInv (seen ++ [d]) (mapAssign (deviceScore d) d rated) := by
      obtain ⟨h1, h2, h3⟩ := h
      refine ⟨mapAssign_sorted _ _ _ h1, ?_, ?_⟩
      · intro e he
        rcases mapAssign_mem _ _ _ _ he with h' | h'
        · rw [h']; simp
        · exact ⟨List.mem_append_left _ (h2 e h').1, (h2 e h').2⟩
      · intro d' hd'
        rcases List.mem_append.1 hd' with h' | h'
        · obtain ⟨e, he, hk⟩ := h3 d' h'
          obtain ⟨e', he', hk'⟩ := mapAssign_key_kept (deviceScore d) d rated e he
          exact ⟨e', he', hk'.trans hk⟩
        · have : d' = d := by simpa using h'
          rw [this]
          exact ⟨_, mapAssign_self_mem _ _ _, rfl⟩
    have := ih (seen ++ [d]) _ step
    simpa using this

theorem ratePhysicalDevices_inv (physicalDevices : List VkPhysicalDevice) :
    RatedInv physicalDevices (ratePhysicalDevices physicalDevices) := by
  have := ratedInv_foldl physicalDevices [] [] ⟨List.Pairwise.nil, by simp, by simp⟩
  simpa [ratePhysicalDevices] using this

/-- The device `createDevice` stores in `_physicalDevice` is an enumerated
device whose score is the lowest of all enumerated devices: the ascending
iteration of the rated map starts at the smallest key. -/
theorem createDevice_physicalDevice_lowest (physicalDevices : List VkPhysicalDevice)
    (init : Option VkPhysicalDevice) (hne : physicalDevices ≠ []) :
    ∃ d, createDevice_physicalDevice physicalDevices init = some d ∧ d ∈ physicalDevices ∧
      ∀ e ∈ physicalDevices, deviceScore d ≤ deviceScore e := by
  obtain ⟨h1, h2, h3⟩ := ratePhysicalDevices_inv physicalDevices
  unfold createDevice_physicalDevice
  cases hr : ratePhysicalDevices physicalDevices with
  | nil =>
    obtain ⟨d, tl, rfl⟩ := List.exists_cons_of_ne_nil hne
    obtain ⟨e, he, _⟩ := h3 d (List.mem_cons_self _ _)
    rw [hr] at he
    cases he
  | cons hd tl =>
    rw [hr] at h1 h2 h3
    refine ⟨hd.2, rfl, (h2 hd (List.mem_cons_self _ _)).1, ?_⟩
    intro e he
    obtain ⟨x, hx, hk⟩ := h3 e he
    rw [(h2 hd (List.mem_cons_self _ _)).2, ← hk]
    rcases List.mem_cons.1 hx with h | h
    · rw [h]
    · exact le_of_lt ((List.pairwise_cons.1 h1).1 x h)

/-- C1 (code defect): with an integrated GPU (score 4096) and a discrete GPU
(score 17384) enumerated, `createDevice` stores the integrated GPU in
`_physicalDevice`, in either enumeration order, although the discrete GPU has
the strictly greater score; the code score agrees with the specified score on
both devices. -/
theorem createDevice_picks_lower_score :
    createDevice_physicalDevice [integratedGpu, discreteGpu] none = some integratedGpu ∧
    createDevice_physicalDevice [discreteGpu, integratedGpu] none = some integratedGpu ∧
    deviceScore integratedGpu = 4096 ∧ deviceScore discreteGpu = 17384 ∧
    specScore integratedGpu = 4096 ∧ specScore discreteGpu = 17384 ∧
    discreteGpu ∈ [integratedGpu, discreteGpu] ∧
    specScore integratedGpu < specScore discreteGpu := by
  decide

/-! ### Memory-type search -/

theorem and_one_eq_one_iff_testBit (typeBits i : Nat) :
    (typeBits >>> i) &&& 1 = 1 ↔ typeBits.testBit i = true := by
  rw [Nat.testBit_to_div_mod, Nat.and_one_is_mod, Nat.shiftRight_eq_div_pow]
  simp

theorem and_eq_mask_iff (flags mask : Nat) :
    flags &&& mask = mask ↔ ∀ k, mask.testBit k = true → flags.testBit k = true := by
  constructor
  · intro h k hk
    have : (flags &&& mask).testBit k = true := by rw [h]; exact hk
    rw [Nat.testBit_and] at this
    simp at this
    exact this.1
  · intro h
    apply Nat.eq_of_testBit_eq
    intro k
    rw [Nat.testBit_and]
    cases hm : mask.testBit k
    · simp
    · simp [h k hm]

/-- The test made by one iteration of the loop, at counter `i`, is the
candidate predicate at `i` (apart from the bound on `i`). -/
theorem loop_test_iff (p : VkPhysicalDeviceMemoryProperties) (typeBits flags i : Nat) :
    ((typeBits >>> i) &&& 1 = 1 ∧
      (p.memoryTypeAt i).propertyFlags &&& flags = flags) ↔
    (typeBits.testBit i = true ∧
      ∀ k, flags.testBit k = true → (p.memoryTypeAt i).propertyFlags.testBit k = true) := by
  rw [and_one_eq_one_iff_testBit, and_eq_mask_iff]

theorem getMemoryTypeLoop_spec (p : VkPhysicalDeviceMemoryProperties)
    (typeBits flags typeIndex : Nat) (remaining i : Nat) :
    let r := getMemoryTypeLoop p flags remaining i (typeBits >>> i) typeIndex
    let C := fun j => typeBits.testBit j = true ∧
      ∀ k, flags.testBit k = true → (p.memoryTypeAt j).propertyFlags.testBit k = true
    (∀ j, r = (true, j) ↔ (i ≤ j ∧ j < i + remaining ∧ C j ∧ ∀ j', i ≤ j' → j' < j → ¬ C j')) ∧
    (r.1 = false ↔ ∀ j, i ≤ j → j < i + remaining → ¬ C j) ∧
    (r.1 = false → r.2 = typeIndex) := by
  induction remaining generalizing i with
  | zero =>
    simp only [getMemoryTypeLoop]
    refine ⟨?_, ?_, ?_⟩
    · intro j
      constructor
      · intro h; cases h
      · rintro ⟨h1, h2, _⟩; omega
    · constructor
      · intro _ j h1 h2; omega
      · intro _; trivial
    · intro _; trivial
  | succ n ih =>
    intro r C
    have hstep := loop_test_iff p typeBits flags i
    have hshift : (typeBits >>> i) >>> 1 = typeBits >>> (i + 1) := by
      rw [Nat.shiftRight_add]
    by_cases hc : C i
    · have hr : r = (true, i) := by
        show getMemoryTypeLoop p flags (n + 1) i (typeBits >>> i) typeIndex = (true, i)
        unfold getMemoryTypeLoop
        rw [if_pos (hstep.2 hc)]
      refine ⟨?_, ?_, ?_⟩
      · intro j
        rw [hr]
        constructor
        · intro h
          have : i = j := by simpa using h
          subst this
          exact ⟨le_refl _, by omega, hc, fun j' h1 h2 => by omega⟩
        · rintro ⟨h1, h2, h3, h4⟩
          by_cases hij : i = j
          · rw [hij]
          · exact absurd hc (h4 i (le_refl _) (by omega))
      · rw [hr]
        constructor
        · intro h; cases h
        · intro h; exact absurd hc (h i (le_refl _) (by omega))
      · rw [hr]; intro h; cases h
    · have hr : r = getMemoryTypeLoop p flags n (i + 1) (typeBits >>> (i + 1)) typeIndex := by
        show getMemoryTypeLoop p flags (n + 1) i (typeBits >>> i) typeIndex = _
        rw [getMemoryTypeLoop, if_neg (fun h => hc (hstep.1 h)), hshift]
      obtain ⟨ih1, ih2, ih3⟩ := ih (i + 1)
      refine ⟨?_, ?_, ?_⟩
      · intro j
        rw [hr, ih1 j]
        constructor
        · rintro ⟨h1, h2, h3, h4⟩
          refine ⟨by omega, by omega, h3, ?_⟩
          intro j' hj1 hj2
          by_cases hji : j' = i
          · rw [hji]; exact hc
          · exact h4 j' (by omega) hj2
        · rintro ⟨h1, h2, h3, h4⟩
          have hne : i ≠ j := fun h => hc (h ▸ h3)
          exact ⟨by omega, by omega, h3, fun j' hj1 hj2 => h4 j' (by omega) hj2⟩
      · rw [hr, ih2]
        constructor
        · intro h j hj1 hj2
          by_cases hji : j = i
          · rw [hji]; exact hc
          · exact h j (by omega) (by omega)
        · intro h j hj1 hj2
          exact h j (by omega) (by omega)
      · rw [hr]; exact ih3

/-- C2: `getMemoryTypeFromProperties` returns found with index `i` exactly when
`i` is the least candidate index (below `memoryTypeCount`, bit `i` of
`typeBits` set, property flags containing every bit of `flags`); it returns
not-found exactly when no candidate exists, and then the output index keeps
its value; whenever it returns found with `i`, bit `i` of `typeBits` is 1. -/
theorem getMemoryTypeFromProperties_least_match (p : VkPhysicalDeviceMemoryProperties)
    (typeBits flags typeIndex : Nat) :
    (∀ i, getMemoryTypeFromProperties p typeBits flags typeIndex = (true, i) ↔
      (MemoryTypeMatches p typeBits flags i ∧
        ∀ j, j < i → ¬ MemoryTypeMatches p typeBits flags j)) ∧
    ((getMemoryTypeFromProperties p typeBits flags typeIndex).1 = false ↔
      ∀ i, ¬ MemoryTypeMatches p typeBits flags i) ∧
    ((getMemoryTypeFromProperties p typeBits flags typeIndex).1 = false →
      (getMemoryTypeFromProperties p typeBits flags typeIndex).2 = typeIndex) ∧
    (∀ i, getMemoryTypeFromProperties p typeBits flags typeIndex = (true, i) →
      typeBits.testBit i = true) := by
  have h := getMemoryTypeLoop_spec p typeBits flags typeIndex p.memoryTypeCount 0
  simp only [Nat.shiftRight_zero, Nat.zero_add, Nat.zero_le, true_and, forall_true_left] at h
  obtain ⟨h1, h2, h3⟩ := h
  have key : ∀ i, getMemoryTypeFromProperties p typeBits flags typeIndex = (true, i) ↔
      (MemoryTypeMatches p typeBits flags i ∧
        ∀ j, j < i → ¬ MemoryTypeMatches p typeBits flags j) := by
    intro i
    unfold getMemoryTypeFromProperties MemoryTypeMatches
    rw [h1 i]
    constructor
    · rintro ⟨hlt, hc, hmin⟩
      exact ⟨⟨hlt, hc⟩, fun j hj hm => hmin j hj hm.2⟩
    · rintro ⟨⟨hlt, hc⟩, hmin⟩
      exact ⟨hlt, hc, fun j hj hm => hmin j hj ⟨by omega, hm⟩⟩
  refine ⟨key, ?_, h3, fun i hi => ((key i).1 hi).1.2.1⟩
  unfold getMemoryTypeFromProperties MemoryTypeMatches
  rw [h2]
  constructor
  · intro h i hm; exact h i hm.1 hm.2
  · intro h i hlt hc; exact h i ⟨hlt, hc⟩

/-! ### Present mode and surface format -/

theorem choosePresentModeLoop_spec (modes : List VkPresentModeKHR) (cur : VkPresentModeKHR)
    (hcur : cur ≠ VkPresentModeKHR.VK_PRESENT_MODE_MAILBOX_KHR) :
    choosePresentModeLoop modes cur =
      if VkPresentModeKHR.VK_PRESENT_MODE_MAILBOX_KHR ∈ modes then
        VkPresentModeKHR.VK_PRESENT_MODE_MAILBOX_KHR
      else if VkPresentModeKHR.VK_PRESENT_MODE_IMMEDIATE_KHR ∈ modes then
        VkPresentModeKHR.VK_PRESENT_MODE_IMMEDIATE_KHR
      else cur := by
  induction modes generalizing cur with
  | nil => simp [choosePresentModeLoop]
  | cons m rest ih =>
    unfold choosePresentModeLoop
    by_cases h1 : m = VkPresentModeKHR.VK_PRESENT_MODE_MAILBOX_KHR
    · simp [h1]
    · by_cases h2 : m = VkPresentModeKHR.VK_PRESENT_MODE_IMMEDIATE_KHR
      · rw [if_neg h1, if_pos ⟨hcur, h2⟩, ih _ (by decide)]
        subst h2
        simp
      · rw [if_neg h1, if_neg (fun h => h2 h.2), ih _ hcur]
        have e1 : (VkPresentModeKHR.VK_PRESENT_MODE_MAILBOX_KHR ∈ m :: rest) ↔
            VkPresentModeKHR.VK_PRESENT_MODE_MAILBOX_KHR ∈ rest := by
          simp [List.mem_cons, Ne.symm h1]
        have e2 : (VkPresentModeKHR.VK_PRESENT_MODE_IMMEDIATE_KHR ∈ m :: rest) ↔
            VkPresentModeKHR.VK_PRESENT_MODE_IMMEDIATE_KHR ∈ rest := by
          simp [List.mem_cons, Ne.symm h2]
        simp only [e1, e2]

/-- C3: with vsync set `choosePresentMode` returns FIFO; without vsync it
returns MAILBOX when MAILBOX is available, otherwise IMMEDIATE when IMMEDIATE
is available, otherwise FIFO; the result is the same for any two lists with
the same members, so it does not depend on the order of the list. -/
theorem choosePresentMode_spec (vsync : Bool) (modes : List VkPresentModeKHR) :
    choosePresentMode vsync modes =
      (if vsync = true then VkPresentModeKHR.VK_PRESENT_MODE_FIFO_KHR
       else if VkPresentModeKHR.VK_PRESENT_MODE_MAILBOX_KHR ∈ modes then
         VkPresentModeKHR.VK_PRESENT_MODE_MAILBOX_KHR
       else if VkPresentModeKHR.VK_PRESENT_MODE_IMMEDIATE_KHR ∈ modes then
         VkPresentModeKHR.VK_PRESENT_MODE_IMMEDIATE_KHR
       else VkPresentModeKHR.VK_PRESENT_MODE_FIFO_KHR) ∧
    ∀ modes' : List VkPresentModeKHR, (∀ m, m ∈ modes' ↔ m ∈ modes) →
      choosePresentMode vsync modes' = choosePresentMode vsync modes := by
  have main : ∀ l : List VkPresentModeKHR, choosePresentMode vsync l =
      (if vsync = true then VkPresentModeKHR.VK_PRESENT_MODE_FIFO_KHR
       else if VkPresentModeKHR.VK_PRESENT_MODE_MAILBOX_KHR ∈ l then
         VkPresentModeKHR.VK_PRESENT_MODE_MAILBOX_KHR
       else if VkPresentModeKHR.VK_PRESENT_MODE_IMMEDIATE_KHR ∈ l then
         VkPresentModeKHR.VK_PRESENT_MODE_IMMEDIATE_KHR
       else VkPresentModeKHR.VK_PRESENT_MODE_FIFO_KHR) := by
    intro l
    unfold choosePresentMode
    cases vsync
    · simpa using choosePresentModeLoop_spec l VkPresentModeKHR.VK_PRESENT_MODE_FIFO_KHR
        (by decide)
    · simp
  refine ⟨main modes, ?_⟩
  intro modes' hmem
  rw [main modes', main modes]
  simp only [hmem]

/-- C4: for a non-empty list of reported surface formats, `chooseSurfaceFormat`
returns (B8G8R8A8_UNORM, SRGB_NONLINEAR) when the list has exactly one entry
and its format is UNDEFINED; otherwise that same pair when some entry is
exactly that pair; otherwise the first entry of the list. -/
theorem chooseSurfaceFormat_spec (availableFormats : List VkSurfaceFormatKHR)
    (hne : availableFormats ≠ []) :
    chooseSurfaceFormat availableFormats = some
      (if availableFormats.length = 1 ∧
          (availableFormats.head hne).format = VkFormat.VK_FORMAT_UNDEFINED then
        preferredSurfaceFormat
       else if preferredSurfaceFormat ∈ availableFormats then preferredSurfaceFormat
       else availableFormats.head hne) := by
  cases availableFormats with
  | nil => exact absurd rfl hne
  | cons first rest =>
    simp only [chooseSurfaceFormat, List.head_cons]
    by_cases h1 : (first :: rest).length = 1 ∧ first.format = VkFormat.VK_FORMAT_UNDEFINED
    · rw [if_pos h1, if_pos h1]; rfl
    · rw [if_neg h1, if_neg h1]
      cases hf : (first :: rest).find? (fun availableFormat =>
          decide (availableFormat.format = VkFormat.VK_FORMAT_B8G8R8A8_UNORM ∧
            availableFormat.colorSpace = VkColorSpaceKHR.VK_COLOR_SPACE_SRGB_NONLINEAR_KHR)) with
      | none =>
        have hnot : preferredSurfaceFormat ∉ first :: rest := by
          intro hmem
          have := List.find?_eq_none.1 hf _ hmem
          simp [preferredSurfaceFormat] at this
        simp only [if_neg hnot]
      | some x =>
        have hx := List.find?_some hf
        have hmem := List.mem_of_find?_eq_some hf
        have hxe : x = preferredSurfaceFormat := by
          obtain ⟨f, c⟩ := x
          simp at hx
          simp [preferredSurfaceFormat, hx.1, hx.2]
        rw [hxe] at hmem ⊢
        simp only [if_pos hmem]

/-- C4 at the reported list `[(UNDEFINED, SRGB_NONLINEAR)]` of scenario 1. -/
theorem chooseSurfaceFormat_spec_witness :
    chooseSurfaceFormat
        [⟨VkFormat.VK_FORMAT_UNDEFINED, VkColorSpaceKHR.VK_COLOR_SPACE_SRGB_NONLINEAR_KHR⟩] =
      some preferredSurfaceFormat := by
  have h := chooseSurfaceFormat_spec
    [⟨VkFormat.VK_FORMAT_UNDEFINED, VkColorSpaceKHR.VK_COLOR_SPACE_SRGB_NONLINEAR_KHR⟩]
    (by simp)
  simpa using h

/-! ### Render-pass construction -/

theorem writeAt_length {α : Type} (a : List α) (i : Nat) (f : α → α) (d : α) :
    (writeAt a i f d).length = a.length := by
  simp [writeAt]

theorem writeAt_getD {α : Type} (a : List α) (i k : Nat) (f : α → α) (d : α) (hi : i < a.length) :
    (writeAt a i f d).getD k d = if k = i then f (a.getD i d) else a.getD k d := by
  unfold writeAt
  simp only [List.getD_eq_getElem?_getD, List.getElem?_set]
  by_cases h : i = k
  · subst h; simp [hi]
  · simp [h, Ne.symm h]

theorem multisampleLoopInv_step (cf : Format) (sc : Texture.SampleCount) (n c m : Nat)
    (a : AttachmentArrays) (h : MultisampleLoopInv cf sc n c m a) (hm : m < c) (hn : 2 * c ≤ n) :
    MultisampleLoopInv cf sc n c (m + 1) (multisampleAttachmentStep cf sc a m) := by
  obtain ⟨h1, h2, h3, h4, h5, h6⟩ := h
  have b0 : 2 * m < a.attachmentDescs.length := by omega
  have b1 : 2 * m + 1 < (writeAt a.attachmentDescs (2 * m) (fun d =>
      { d with
        flags := 0
        format := GraphicsVK.toFormat cf
        samples := GraphicsVK.toSamples sc
        loadOp := VkAttachmentLoadOp.VK_ATTACHMENT_LOAD_OP_CLEAR
        storeOp := VkAttachmentStoreOp.VK_ATTACHMENT_STORE_OP_STORE
        stencilLoadOp := VkAttachmentLoadOp.VK_ATTACHMENT_LOAD_OP_CLEAR
        stencilStoreOp := VkAttachmentStoreOp.VK_ATTACHMENT_STORE_OP_STORE
        initialLayout := VkImageLayout.VK_IMAGE_LAYOUT_COLOR_ATTACHMENT_OPTIMAL })
      VkAttachmentDescription.zeroed).length := by
    rw [writeAt_length]; omega
  have z0 : a.attachmentDescs.getD (2 * m) VkAttachmentDescription.zeroed =
      VkAttachmentDescription.zeroed := by rw [h4]; simp
  have z1 : a.attachmentDescs.getD (2 * m + 1) VkAttachmentDescription.zeroed =
      VkAttachmentDescription.zeroed := by rw [h4]; simp
  have hdesc : ∀ k, (multisampleAttachmentStep cf sc a m).attachmentDescs.getD k
      VkAttachmentDescription.zeroed =
      if k < 2 * (m + 1) then
        (if k % 2 = 0 then GraphicsVK.resolveSlotDesc cf sc
         else GraphicsVK.multisampleSlotDesc cf sc)
      else VkAttachmentDescription.zeroed := by
    intro k
    simp only [multisampleAttachmentStep]
    rw [writeAt_getD _ _ _ _ _ b1]
    by_cases hk1 : k = 2 * m + 1
    · subst hk1
      have e1 : 2 * m + 1 < 2 * (m + 1) := by omega
      have e2 : ¬ (2 * m + 1) % 2 = 0 := by omega
      have e3 : ¬ 2 * m + 1 = 2 * m := by omega
      rw [if_pos rfl, writeAt_getD _ _ _ _ _ b0, if_neg e3, z1, if_pos e1, if_neg e2]
      rfl
    · rw [if_neg hk1, writeAt_getD _ _ _ _ _ b0]
      by_cases hk0 : k = 2 * m
      · subst hk0
        have e1 : 2 * m < 2 * (m + 1) := by omega
        have e2 : (2 * m) % 2 = 0 := by omega
        rw [if_pos rfl, z0, if_pos e1, if_pos e2]
        rfl
      · rw [if_neg hk0, h4]
        by_cases hlt : k < 2 * m
        · have hlt' : k < 2 * (m + 1) := by omega
          rw [if_pos hlt, if_pos hlt']
        · have hlt' : ¬ k < 2 * (m + 1) := by omega
          rw [if_neg hlt, if_neg hlt']
  refine ⟨?_, ?_, ?_, hdesc, ?_, ?_⟩
  · simp only [multisampleAttachmentStep, writeAt_length]; exact h1
  · simp only [multisampleAttachmentStep, writeAt_length]; exact h2
  · simp only [multisampleAttachmentStep, writeAt_length]; exact h3
  · intro i
    have hd := hdesc (2 * m + 1)
    simp only [multisampleAttachmentStep] at hd ⊢
    rw [writeAt_getD _ _ _ _ _ (by omega), hd]
    by_cases hi : i = m
    · subst hi
      have e1 : 2 * i + 1 < 2 * (i + 1) := by omega
      have e2 : ¬ (2 * i + 1) % 2 = 0 := by omega
      have e3 : i < i + 1 := by omega
      rw [if_pos rfl, if_pos e1, if_neg e2, if_pos e3]
      rfl
    · rw [if_neg hi, h5]
      by_cases hlt : i < m
      · have hlt' : i < m + 1 := by omega
        rw [if_pos hlt, if_pos hlt']
      · have hlt' : ¬ i < m + 1 := by omega
        rw [if_neg hlt, if_neg hlt']
  · intro i
    have hd := hdesc (2 * m)
    simp only [multisampleAttachmentStep] at hd ⊢
    rw [writeAt_getD _ _ _ _ _ (by omega), hd]
    by_cases hi : i = m
    · subst hi
      have e1 : 2 * i < 2 * (i + 1) := by omega
      have e2 : (2 * i) % 2 = 0 := by omega
      have e3 : i < i + 1 := by omega
      rw [if_pos rfl, if_pos e1, if_pos e2, if_pos e3]
      rfl
    · rw [if_neg hi, h6]
      by_cases hlt : i < m
      · have hlt' : i < m + 1 := by omega
        rw [if_pos hlt, if_pos hlt']
      · have hlt' : ¬ i < m + 1 := by omega
        rw [if_neg hlt, if_neg hlt']

theorem multisampleLoopInv_foldl (cf : Format) (sc : Texture.SampleCount) (n c m : Nat)
    (a0 : AttachmentArrays) (h0 : MultisampleLoopInv cf sc n c 0 a0) (hm : m ≤ c)
    (hn : 2 * c ≤ n) :
    MultisampleLoopInv cf sc n c m
      ((List.range m).foldl (multisampleAttachmentStep cf sc) a0) := by
  induction m with
  | zero => simpa using h0
  | succ m ih =>
    rw [List.range_succ, List.foldl_append]
    exact multisampleLoopInv_step cf sc n c m _ (ih (by omega)) (by omega) hn

theorem getD_replicate_self {α : Type} (n k : Nat) (d : α) :
    (List.replicate n d).getD k d = d := by
  rw [List.getD_eq_getElem?_getD, List.getElem?_replicate]
  split <;> rfl

theorem multisampleLoopInv_init (cf : Format) (sc : Texture.SampleCount) (n c : Nat) :
    MultisampleLoopInv cf sc n c 0
      { attachmentDescs := List.replicate n VkAttachmentDescription.zeroed
        colorAttachmentRefs := List.replicate c VkAttachmentReference.zeroed
        resolveAttachmentRefs := List.replicate c VkAttachmentReference.zeroed } := by
  refine ⟨by simp, by simp, by simp, ?_, ?_, ?_⟩
  · intro k; simp [getD_replicate_self]
  · intro i; simp [getD_replicate_self]
  · intro i; simp [getD_replicate_self]

theorem getElem?_of_getD {α : Type} (l : List α) (i : Nat) (d : α) (h : i < l.length) :
    l[i]? = some (l.getD i d) := by
  rw [List.getD_eq_getElem?_getD, List.getElem?_eq_getElem h]
  rfl

theorem toUInt32_of_lt (n : Nat) (h : n < 2 ^ 32) : toUInt32 n = n := by
  unfold toUInt32; exact Nat.mod_eq_of_lt h

theorem depthStencilAttachmentCount_le (df : Format) : depthStencilAttachmentCount df ≤ 1 := by
  unfold depthStencilAttachmentCount; split <;> omega

theorem createRenderPass_attachmentCount_multisample (c : Nat) (df : Format)
    (sc : Texture.SampleCount) (hsc : sc > Texture.SAMPLE_COUNT_1X) :
    createRenderPass_attachmentCount c df sc =
      (2 * c + depthStencilAttachmentCount df) % 2 ^ 32 := by
  unfold createRenderPass_attachmentCount
  simp only [hsc, if_true, toUInt32, toSizeT]
  have : (2:ℕ) ^ 64 = 2 ^ 32 * 2 ^ 32 := by norm_num
  rw [this, Nat.mod_mul_right_mod, Nat.mod_add_mod]

theorem createRenderPass_attachmentCount_single (c : Nat) (df : Format)
    (sc : Texture.SampleCount) (hsc : ¬ sc > Texture.SAMPLE_COUNT_1X) :
    createRenderPass_attachmentCount c df sc =
      (c + depthStencilAttachmentCount df) % 2 ^ 32 := by
  unfold createRenderPass_attachmentCount
  simp only [hsc, if_false, toUInt32]
  rw [Nat.mod_add_mod]

theorem renderPassInfo_multisample (c : Nat) (cf df : Format) (sc : Texture.SampleCount)
    (hsc : sc > Texture.SAMPLE_COUNT_1X)
    (hb : 2 * c + depthStencilAttachmentCount df < 2 ^ 32) :
    ∃ info, createRenderPass_renderPassInfo c cf df sc = some info ∧
      info.attachmentCount = 2 * c + depthStencilAttachmentCount df ∧
      info.pAttachments.length = 2 * c + depthStencilAttachmentCount df ∧
      (∀ i, i < c →
        info.pAttachments[2 * i]? = some (resolveSlotDesc cf sc) ∧
        info.pAttachments[2 * i + 1]? = some (multisampleSlotDesc cf sc)) ∧
      (0 < c → ∃ colorRefs resolveRefs,
        info.pSubpasses.pColorAttachments = some colorRefs ∧
        info.pSubpasses.pResolveAttachments = some resolveRefs ∧
        colorRefs.length = c ∧ resolveRefs.length = c ∧
        ∀ i, i < c →
          colorRefs[i]? = some
            ⟨2 * i + 1, VkImageLayout.VK_IMAGE_LAYOUT_COLOR_ATTACHMENT_OPTIMAL⟩ ∧
          resolveRefs[i]? = some
            ⟨2 * i, VkImageLayout.VK_IMAGE_LAYOUT_COLOR_ATTACHMENT_OPTIMAL⟩) ∧
      (df ≠ Format.FORMAT_UNDEFINED →
        info.pSubpasses.pDepthStencilAttachment = some
          ⟨2 * c, VkImageLayout.VK_IMAGE_LAYOUT_DEPTH_STENCIL_ATTACHMENT_OPTIMAL⟩ ∧
        info.pAttachments[2 * c]? = some (depthStencilSlotDesc df sc)) ∧
      (df = Format.FORMAT_UNDEFINED → info.pSubpasses.pDepthStencilAttachment = none) := by
  have hd := depthStencilAttachmentCount_le df
  have hdom : 2 * c + depthStencilAttachmentCount df < 2 ^ 64 := by
    have : (2:ℕ) ^ 32 < 2 ^ 64 := by norm_num
    omega
  have hinv := multisampleLoopInv_foldl cf sc (2 * c + depthStencilAttachmentCount df) c c _
    (multisampleLoopInv_init cf sc (2 * c + depthStencilAttachmentCount df) c) (le_refl _)
    (by omega)
  obtain ⟨h1, h2, h3, h4, h5, h6⟩ := hinv
  have h2c : toUInt32 (2 * c) = 2 * c := toUInt32_of_lt _ (by omega)
  cases hinfo : createRenderPass_renderPassInfo c cf df sc with
  | none => simp only [createRenderPass_renderPassInfo, if_pos hsc, if_pos hdom] at hinfo; cases hinfo
  | some info =>
    simp only [createRenderPass_renderPassInfo, if_pos hsc, if_pos hdom, Option.some.injEq] at hinfo
    subst hinfo
    refine ⟨_, rfl, ?_, ?_, ?_, ?_, ?_, ?_⟩
    · show createRenderPass_attachmentCount c df sc = _
      rw [createRenderPass_attachmentCount_multisample c df sc hsc, Nat.mod_eq_of_lt hb]
    · dsimp only
      split
      · simp only [depthStencilAttachmentStep, writeAt_length]; exact h1
      · exact h1
    · intro i hi
      dsimp only
      have hget : ∀ k, k < 2 * c →
          (if depthStencilAttachmentCount df > 0 then
            (depthStencilAttachmentStep df sc
              ((List.range c).foldl (multisampleAttachmentStep cf sc)
                { attachmentDescs := List.replicate (2 * c + depthStencilAttachmentCount df)
                    VkAttachmentDescription.zeroed
                  colorAttachmentRefs := List.replicate c VkAttachmentReference.zeroed
                  resolveAttachmentRefs :=
                    List.replicate c VkAttachmentReference.zeroed }).attachmentDescs
              (toUInt32 (2 * c))).1
           else ((List.range c).foldl (multisampleAttachmentStep cf sc)
                { attachmentDescs := List.replicate (2 * c + depthStencilAttachmentCount df)
                    VkAttachmentDescription.zeroed
                  colorAttachmentRefs := List.replicate c VkAttachmentReference.zeroed
                  resolveAttachmentRefs :=
                    List.replicate c VkAttachmentReference.zeroed }).attachmentDescs)[k]? =
          some (if k % 2 = 0 then resolveSlotDesc cf sc else multisampleSlotDesc cf sc) := by
        intro k hk
        split
        · rename_i hpos
          rw [getElem?_of_getD _ k VkAttachmentDescription.zeroed
            (by simp only [depthStencilAttachmentStep, writeAt_length]; omega)]
          simp only [depthStencilAttachmentStep]
          have hne : ¬ k = toUInt32 (2 * c) := by rw [h2c]; omega
          rw [writeAt_getD _ _ _ _ _ (by rw [h2c]; omega), if_neg hne, h4, if_pos hk]
        · rw [getElem?_of_getD _ k VkAttachmentDescription.zeroed (by omega), h4, if_pos hk]
      have e0 : (2 * i) % 2 = 0 := by omega
      have e1 : ¬ (2 * i + 1) % 2 = 0 := by omega
      refine ⟨?_, ?_⟩
      · rw [hget (2 * i) (by omega), if_pos e0]
      · rw [hget (2 * i + 1) (by omega), if_neg e1]
    · intro hc
      dsimp only
      rw [if_pos hc, if_pos hc]
      refine ⟨_, _, rfl, rfl, h2, h3, ?_⟩
      intro i hi
      refine ⟨?_, ?_⟩
      · rw [getElem?_of_getD _ i VkAttachmentReference.zeroed (by omega), h5, if_pos hi,
          toUInt32_of_lt _ (by omega)]
      · rw [getElem?_of_getD _ i VkAttachmentReference.zeroed (by omega), h6, if_pos hi,
          toUInt32_of_lt _ (by omega)]
    · intro hdf
      have hcount : depthStencilAttachmentCount df = 1 := by
        simp [depthStencilAttachmentCount, hdf]
      have hpos : depthStencilAttachmentCount df > 0 := by omega
      dsimp only
      rw [if_pos hpos, if_pos hpos]
      have hlt : 2 * c < ((List.range c).foldl (multisampleAttachmentStep cf sc)
                { attachmentDescs := List.replicate (2 * c + depthStencilAttachmentCount df)
                    VkAttachmentDescription.zeroed
                  colorAttachmentRefs := List.replicate c VkAttachmentReference.zeroed
                  resolveAttachmentRefs :=
                    List.replicate c VkAttachmentReference.zeroed }).attachmentDescs.length := by
        omega
      refine ⟨?_, ?_⟩
      · simp only [depthStencilAttachmentStep, h2c]
        rw [writeAt_getD _ _ _ _ _ hlt, if_pos rfl]
      · rw [getElem?_of_getD _ (2 * c) VkAttachmentDescription.zeroed
          (by simp only [depthStencilAttachmentStep, writeAt_length]; omega)]
        simp only [depthStencilAttachmentStep, h2c]
        rw [writeAt_getD _ _ _ _ _ hlt, if_pos rfl]
        rfl
    · intro hdf
      have hcount : ¬ depthStencilAttachmentCount df > 0 := by
        simp [depthStencilAttachmentCount, hdf]
      dsimp only
      rw [if_neg hcount]

/-! ### Texture creation and the framebuffer block -/

theorem callsExtend_refl (w : VkWorld) : CallsExtend w w := ⟨[], by simp⟩

theorem callsExtend_trans {w1 w2 w3 : VkWorld} (h12 : CallsExtend w1 w2)
    (h23 : CallsExtend w2 w3) : CallsExtend w1 w3 := by
  obtain ⟨e2, hc2⟩ := h12
  obtain ⟨e3, hc3⟩ := h23
  exact ⟨e2 ++ e3, by simp only [hc3, hc2, List.append_assoc]⟩

theorem callsExtend_create (w : VkWorld) (c : Nat → VkCall) : CallsExtend w (w.create c) :=
  ⟨[c (w.handles + 1)], rfl⟩

theorem callsExtend_call (w : VkWorld) (c : VkCall) : CallsExtend w (w.call c) :=
  ⟨[c], rfl⟩

theorem callsExtend_mapWhen (w : VkWorld) (b : Bool) (m : Nat) :
    CallsExtend w (w.mapWhen b m) := by
  cases b
  · exact callsExtend_refl w
  · exact callsExtend_call w _

theorem onlyCallsAdded_refl (s : GraphicsVK) : OnlyCallsAdded s s :=
  ⟨s.vk, rfl, callsExtend_refl _⟩

theorem onlyCallsAdded_trans {s1 s2 s3 : GraphicsVK} (h12 : OnlyCallsAdded s1 s2)
    (h23 : OnlyCallsAdded s2 s3) : OnlyCallsAdded s1 s3 := by
  obtain ⟨vk2, rfl, hc2⟩ := h12
  obtain ⟨vk3, rfl, hc3⟩ := h23
  exact ⟨vk3, rfl, callsExtend_trans hc2 hc3⟩

theorem onlyCallsAdded_update (s : GraphicsVK) (w : VkWorld) (h : CallsExtend s.vk w) :
    OnlyCallsAdded s { s with vk := w } :=
  ⟨w, rfl, h⟩

theorem createTexture_allocate_onlyCallsAdded (drv : Driver) (s : GraphicsVK)
    (type : Texture.Type) (width height depth mipLevels : Nat) (pixelFormat : Format)
    (usage : Texture.Usage) (sampleCount : Texture.SampleCount) (hostVisible : Bool)
    (info : VkImageCreateInfo) (t : TextureVK) (s' : GraphicsVK)
    (h : createTexture_allocate drv s type width height depth mipLevels pixelFormat usage
      sampleCount hostVisible info = some (t, s')) :
    OnlyCallsAdded s s' ∧ t.sampleCount = sampleCount ∧ t.pixelFormat = pixelFormat := by
  unfold createTexture_allocate at h
  simp only at h
  split at h
  · cases h
  · simp only [Option.some.injEq, Prod.mk.injEq] at h
    obtain ⟨rfl, rfl⟩ := h
    refine ⟨onlyCallsAdded_update _ _ ?_, rfl, rfl⟩
    exact callsExtend_trans (callsExtend_create _ _)
      (callsExtend_trans (callsExtend_create _ _)
        (callsExtend_trans (callsExtend_call _ _)
          (callsExtend_trans (callsExtend_mapWhen _ _ _) (callsExtend_create _ _))))

theorem createTexture_onlyCallsAdded (drv : Driver) (s : GraphicsVK) (type : Texture.Type)
    (width height depth mipLevels : Nat) (pixelFormat : Format) (usage : Texture.Usage)
    (sampleCount : Texture.SampleCount) (hostVisible : Bool) (t : TextureVK) (s' : GraphicsVK)
    (h : createTexture drv s type width height depth mipLevels pixelFormat usage sampleCount
      hostVisible = some (t, s')) :
    OnlyCallsAdded s s' ∧ t.sampleCount = sampleCount ∧ t.pixelFormat = pixelFormat := by
  unfold createTexture at h
  simp only at h
  split at h
  · cases h
  · split at h
    · cases h
    · exact createTexture_allocate_onlyCallsAdded _ _ _ _ _ _ _ _ _ _ _ _ _ _ h

theorem colorAttachmentStep_spec (drv : Driver) (width height : Nat) (cf : Format)
    (sc : Texture.SampleCount) (st st' : FramebufferScratch)
    (h : colorAttachmentStep drv width height cf sc st = some st') :
    OnlyCallsAdded st.self st'.self ∧
    st'.imageViews.length = st.imageViews.length + (if sc > Texture.SAMPLE_COUNT_1X then 2 else 1) := by
  unfold colorAttachmentStep at h
  split at h
  · cases h
  · rename_i t1 s1 h1
    have a1 := (createTexture_onlyCallsAdded _ _ _ _ _ _ _ _ _ _ _ _ _ h1).1
    simp only at h
    split at h
    · rename_i hsc
      split at h
      · cases h
      · rename_i t2 s2 h2
        have a2 := (createTexture_onlyCallsAdded _ _ _ _ _ _ _ _ _ _ _ _ _ h2).1
        simp only [Option.some.injEq] at h
        subst h
        exact ⟨onlyCallsAdded_trans a1 a2, by simp [hsc]⟩
    · rename_i hsc
      simp only [Option.some.injEq] at h
      subst h
      exact ⟨a1, by simp [hsc]⟩

theorem colorAttachmentLoop_spec (drv : Driver) (width height : Nat) (cf : Format)
    (sc : Texture.SampleCount) (n : Nat) (st st' : FramebufferScratch)
    (h : colorAttachmentLoop drv width height cf sc n st = some st') :
    OnlyCallsAdded st.self st'.self ∧
    st'.imageViews.length =
      st.imageViews.length + n * (if sc > Texture.SAMPLE_COUNT_1X then 2 else 1) := by
  induction n generalizing st with
  | zero =>
    simp only [colorAttachmentLoop, Option.some.injEq] at h
    subst h
    exact ⟨onlyCallsAdded_refl _, by simp⟩
  | succ n ih =>
    unfold colorAttachmentLoop at h
    split at h
    · cases h
    · rename_i st1 h1
      obtain ⟨a1, l1⟩ := colorAttachmentStep_spec _ _ _ _ _ _ _ h1
      obtain ⟨a2, l2⟩ := ih st1 h
      refine ⟨onlyCallsAdded_trans a1 a2, ?_⟩
      rw [l2, l1, Nat.succ_mul]
      omega

theorem depthStencilTextureStep_spec (drv : Driver) (width height : Nat) (df : Format)
    (st : FramebufferScratch) (views : List Nat) (t : Option TextureVK) (s' : GraphicsVK)
    (h : depthStencilTextureStep drv width height df st = some (views, t, s')) :
    OnlyCallsAdded st.self s' ∧
    views.length = st.imageViews.length + depthStencilAttachmentCount df := by
  unfold depthStencilTextureStep at h
  split at h
  · rename_i hdf
    split at h
    · cases h
    · rename_i t1 s1 h1
      have a1 := (createTexture_onlyCallsAdded _ _ _ _ _ _ _ _ _ _ _ _ _ h1).1
      simp only [Option.some.injEq, Prod.mk.injEq] at h
      obtain ⟨rfl, rfl, rfl⟩ := h
      exact ⟨a1, by simp [depthStencilAttachmentCount, hdf]⟩
  · rename_i hdf
    simp only [Option.some.injEq, Prod.mk.injEq] at h
    obtain ⟨rfl, rfl, rfl⟩ := h
    have : df = Format.FORMAT_UNDEFINED := by simpa using hdf
    exact ⟨onlyCallsAdded_refl _, by simp [depthStencilAttachmentCount, this]⟩

/-! ### The render pass and its framebuffer (C6, C7, C8) -/

theorem renderPassInfo_multisample_wrapped (c : Nat) (cf df : Format)
    (sc : Texture.SampleCount) (hsc : sc > Texture.SAMPLE_COUNT_1X)
    (hdom : 2 * c + depthStencilAttachmentCount df < 2 ^ 64) :
    ∃ info, createRenderPass_renderPassInfo c cf df sc = some info ∧
      info.attachmentCount = (2 * c + depthStencilAttachmentCount df) % 2 ^ 32 ∧
      (df ≠ Format.FORMAT_UNDEFINED →
        info.pSubpasses.pDepthStencilAttachment.map (fun r => r.attachment) =
          some ((2 * c) % 2 ^ 32)) := by
  cases hinfo : createRenderPass_renderPassInfo c cf df sc with
  | none =>
    simp only [createRenderPass_renderPassInfo, if_pos hsc, if_pos hdom] at hinfo
    cases hinfo
  | some info =>
    simp only [createRenderPass_renderPassInfo, if_pos hsc, if_pos hdom,
      Option.some.injEq] at hinfo
    subst hinfo
    refine ⟨_, rfl, createRenderPass_attachmentCount_multisample c df sc hsc, ?_⟩
    intro hdf
    have hpos : depthStencilAttachmentCount df > 0 := by
      simp [depthStencilAttachmentCount, hdf]
    dsimp only
    rw [if_pos hpos]
    rfl

/-- C6 (counterexample): with `colorAttachmentCount = 2^31`, no depth-stencil
format and 4X multisampling the render pass is created with `attachmentCount`
0 (the `uint32_t` wraps), not with `2 * 2^31 + 0` attachments. -/
theorem createRenderPass_attachmentCount_wraps :
    ∃ info, createRenderPass_renderPassInfo (2 ^ 31) Format.FORMAT_R8G8B8A8_UNORM
        Format.FORMAT_UNDEFINED Texture.SAMPLE_COUNT_4X = some info ∧
      info.attachmentCount = 0 ∧
      info.attachmentCount ≠ 2 * 2 ^ 31 + depthStencilAttachmentCount Format.FORMAT_UNDEFINED := by
  obtain ⟨info, h1, h2, _⟩ := renderPassInfo_multisample_wrapped (2 ^ 31)
    Format.FORMAT_R8G8B8A8_UNORM Format.FORMAT_UNDEFINED Texture.SAMPLE_COUNT_4X
    (by decide) (by decide)
  refine ⟨info, h1, ?_, ?_⟩
  · rw [h2]; decide
  · rw [h2]; decide

/-- C8 (counterexample): with `colorAttachmentCount = 2^31`, a depth-stencil
format and 4X multisampling the depth-stencil reference points to attachment 0
(the `uint32_t` index wraps), not to index `2 * 2^31`. -/
theorem createRenderPass_depthStencil_reference_wraps :
    ∃ info, createRenderPass_renderPassInfo (2 ^ 31) Format.FORMAT_R8G8B8A8_UNORM
        Format.FORMAT_D32_FLOAT Texture.SAMPLE_COUNT_4X = some info ∧
      info.pSubpasses.pDepthStencilAttachment.map (fun r => r.attachment) = some 0 ∧
      info.pSubpasses.pDepthStencilAttachment.map (fun r => r.attachment) ≠ some (2 * 2 ^ 31) := by
  obtain ⟨info, h1, _, h3⟩ := renderPassInfo_multisample_wrapped (2 ^ 31)
    Format.FORMAT_R8G8B8A8_UNORM Format.FORMAT_D32_FLOAT Texture.SAMPLE_COUNT_4X
    (by decide) (by decide)
  refine ⟨info, h1, ?_, ?_⟩
  · rw [h3 (by decide)]; decide
  · rw [h3 (by decide)]; decide

/-- C7 (code defect): for one colour attachment with 4X multisampling the
attachment description at index 0, the resolve target, is created with
`samples = VK_SAMPLE_COUNT_4_BIT` (not `VK_SAMPLE_COUNT_1_BIT`) and with
`finalLayout = VK_IMAGE_LAYOUT_UNDEFINED` (not COLOR_ATTACHMENT_OPTIMAL); the
description at index 1 has the requested sample count and final layout
COLOR_ATTACHMENT_OPTIMAL. -/
theorem createRenderPass_resolve_target_description :
    ∃ info, createRenderPass_renderPassInfo 1 Format.FORMAT_R8G8B8A8_UNORM
        Format.FORMAT_D32_FLOAT Texture.SAMPLE_COUNT_4X = some info ∧
      info.pAttachments[0]?.map (fun d => d.samples) = some VK_SAMPLE_COUNT_4_BIT ∧
      info.pAttachments[0]?.map (fun d => d.finalLayout) =
        some VkImageLayout.VK_IMAGE_LAYOUT_UNDEFINED ∧
      info.pAttachments[1]?.map (fun d => d.samples) = some VK_SAMPLE_COUNT_4_BIT ∧
      info.pAttachments[1]?.map (fun d => d.finalLayout) =
        some VkImageLayout.VK_IMAGE_LAYOUT_COLOR_ATTACHMENT_OPTIMAL ∧
      VK_SAMPLE_COUNT_4_BIT ≠ VK_SAMPLE_COUNT_1_BIT := by
  refine ⟨_, rfl, ?_⟩
  decide

theorem singleSample_foldl_length (cf : Format) (sc : Texture.SampleCount) (l : List Nat)
    (a : AttachmentArrays) :
    (l.foldl (singleSampleAttachmentStep cf sc) a).attachmentDescs.length =
      a.attachmentDescs.length := by
  induction l generalizing a with
  | nil => rfl
  | cons i tl ih =>
    rw [List.foldl_cons, ih]
    simp only [singleSampleAttachmentStep, writeAt_length]

theorem renderPassInfo_single (c : Nat) (cf df : Format) (sc : Texture.SampleCount)
    (hsc : ¬ sc > Texture.SAMPLE_COUNT_1X)
    (hb : c + depthStencilAttachmentCount df < 2 ^ 32) :
    ∃ info, createRenderPass_renderPassInfo c cf df sc = some info ∧
      info.attachmentCount = c + depthStencilAttachmentCount df ∧
      info.pAttachments.length = c + depthStencilAttachmentCount df := by
  have hc : c < 2 ^ 32 := by omega
  cases hinfo : createRenderPass_renderPassInfo c cf df sc with
  | none =>
    simp only [createRenderPass_renderPassInfo, if_neg hsc, if_pos hc] at hinfo
    cases hinfo
  | some info =>
    simp only [createRenderPass_renderPassInfo, if_neg hsc, if_pos hc,
      Option.some.injEq] at hinfo
    subst hinfo
    refine ⟨_, rfl, ?_, ?_⟩
    · show createRenderPass_attachmentCount c df sc = _
      rw [createRenderPass_attachmentCount_single c df sc hsc, Nat.mod_eq_of_lt hb]
    · dsimp only
      split
      · simp only [depthStencilAttachmentStep, writeAt_length, singleSample_foldl_length,
          List.length_replicate]
      · simp only [singleSample_foldl_length, List.length_replicate]

theorem createRenderPass_attachmentCount_of_bound (c : Nat) (df : Format)
    (sc : Texture.SampleCount)
    (hb : (if sc > Texture.SAMPLE_COUNT_1X then 2 * c else c) +
      depthStencilAttachmentCount df < 2 ^ 32) :
    createRenderPass_attachmentCount c df sc =
      (if sc > Texture.SAMPLE_COUNT_1X then 2 * c else c) + depthStencilAttachmentCount df := by
  by_cases hsc : sc > Texture.SAMPLE_COUNT_1X
  · rw [if_pos hsc] at hb ⊢
    rw [createRenderPass_attachmentCount_multisample c df sc hsc, Nat.mod_eq_of_lt hb]
  · rw [if_neg hsc] at hb ⊢
    rw [createRenderPass_attachmentCount_single c df sc hsc, Nat.mod_eq_of_lt hb]

theorem renderPassInfo_counts (c : Nat) (cf df : Format) (sc : Texture.SampleCount)
    (hb : (if sc > Texture.SAMPLE_COUNT_1X then 2 * c else c) +
      depthStencilAttachmentCount df < 2 ^ 32) :
    ∃ info, createRenderPass_renderPassInfo c cf df sc = some info ∧
      info.attachmentCount = (if sc > Texture.SAMPLE_COUNT_1X then 2 * c else c) +
        depthStencilAttachmentCount df ∧
      info.pAttachments.length = (if sc > Texture.SAMPLE_COUNT_1X then 2 * c else c) +
        depthStencilAttachmentCount df := by
  by_cases hsc : sc > Texture.SAMPLE_COUNT_1X
  · rw [if_pos hsc] at hb ⊢
    obtain ⟨info, h1, h2, h3, _⟩ := renderPassInfo_multisample c cf df sc hsc hb
    exact ⟨info, h1, h2, h3⟩
  · rw [if_neg hsc] at hb ⊢
    exact renderPassInfo_single c cf df sc hsc hb

theorem calls_getElem?_of_extend (w w' : VkWorld) (c : VkCall) (h : CallsExtend (w.call c) w') :
    w'.calls[w.calls.length]? = some c := by
  obtain ⟨extra, he⟩ := h
  rw [he]
  show (w.calls ++ [c] ++ extra)[w.calls.length]? = some c
  rw [List.append_assoc, List.getElem?_append_right (le_refl _)]
  simp

/-- The number of image views `createRenderPass` writes and the create-infos it
passes on, without a bound on `colorAttachmentCount`: the view array holds
`(2 or 1) * colorAttachmentCount + depthStencilAttachmentCount` views, and both
`attachmentCount` members hold that number reduced to `uint32_t`. -/
theorem createRenderPass_calls (drv : Driver) (self : GraphicsVK)
    (width height c : Nat) (cf df : Format) (sc : Texture.SampleCount)
    (rp : RenderPassVK) (self' : GraphicsVK)
    (h : createRenderPass drv self width height c cf df sc = some (rp, self')) :
    ∃ rpInfo fbInfo,
      createRenderPass_renderPassInfo c cf df sc = some rpInfo ∧
      self'.vk.calls[self.vk.calls.length]? =
        some (VkCall.vkCreateRenderPass rpInfo rp._renderPass) ∧
      self'.vk.calls.getLast? = some (VkCall.vkCreateFramebuffer fbInfo rp._framebuffer) ∧
      fbInfo.renderPass = rp._renderPass ∧
      fbInfo.attachmentCount = createRenderPass_attachmentCount c df sc ∧
      fbInfo.pAttachments.length =
        (if sc > Texture.SAMPLE_COUNT_1X then 2 * c else c) +
          depthStencilAttachmentCount df := by
  unfold createRenderPass at h
  split at h
  · cases h
  · rename_i rpInfo hinfo
    simp only at h
    split at h
    · cases h
    · rename_i st hloop
      split at h
      · cases h
      · rename_i views dsa self2 hds
        simp only [Option.some.injEq, Prod.mk.injEq] at h
        obtain ⟨rfl, rfl⟩ := h
        obtain ⟨a1, l1⟩ := colorAttachmentLoop_spec _ _ _ _ _ _ _ _ hloop
        obtain ⟨a2, l2⟩ := depthStencilTextureStep_spec _ _ _ _ _ _ _ _ hds
        obtain ⟨vk2, hvk2, hext⟩ := onlyCallsAdded_trans a1 a2
        refine ⟨rpInfo, _, hinfo, ?_, List.getLast?_concat _, rfl, rfl, ?_⟩
        · have hext' : CallsExtend (self.vk.call (VkCall.vkCreateRenderPass rpInfo self.vk.fresh))
              (self2.vk.create (VkCall.vkCreateFramebuffer
                { renderPass := self.vk.fresh
                  attachmentCount := createRenderPass_attachmentCount c df sc
                  pAttachments := views
                  width := toUInt32 width
                  height := toUInt32 height
                  layers := 1 })) := by
            refine callsExtend_trans ?_ (callsExtend_create _ _)
            rw [hvk2]
            exact hext
          exact calls_getElem?_of_extend _ _ _ hext'
        · dsimp only
          rw [l2, l1]
          simp only [List.length_nil, Nat.zero_add]
          split <;> omega

/-- C6 (amended): when `(2 or 1) * colorAttachmentCount +
depthStencilAttachmentCount` fits a `uint32_t`, a completed `createRenderPass`
has created the render pass with `2*c + d` attachments for a sample count above
1X and `c + d` attachments otherwise (`d = 0` for FORMAT_UNDEFINED, else 1), and
has created the framebuffer for that render pass from exactly that many image
views, with the same `attachmentCount`. -/
theorem createRenderPass_attachment_counts (drv : Driver) (self : GraphicsVK)
    (width height c : Nat) (cf df : Format) (sc : Texture.SampleCount)
    (rp : RenderPassVK) (self' : GraphicsVK)
    (hb : (if sc > Texture.SAMPLE_COUNT_1X then 2 * c else c) +
      depthStencilAttachmentCount df < 2 ^ 32)
    (h : createRenderPass drv self width height c cf df sc = some (rp, self')) :
    ∃ rpInfo fbInfo,
      self'.vk.calls[self.vk.calls.length]? =
        some (VkCall.vkCreateRenderPass rpInfo rp._renderPass) ∧
      self'.vk.calls.getLast? = some (VkCall.vkCreateFramebuffer fbInfo rp._framebuffer) ∧
      rpInfo.attachmentCount =
        (if sc > Texture.SAMPLE_COUNT_1X then 2 * c else c) + depthStencilAttachmentCount df ∧
      rpInfo.pAttachments.length =
        (if sc > Texture.SAMPLE_COUNT_1X then 2 * c else c) + depthStencilAttachmentCount df ∧
      fbInfo.renderPass = rp._renderPass ∧
      fbInfo.attachmentCount =
        (if sc > Texture.SAMPLE_COUNT_1X then 2 * c else c) + depthStencilAttachmentCount df ∧
      fbInfo.pAttachments.length =
        (if sc > Texture.SAMPLE_COUNT_1X then 2 * c else c) + depthStencilAttachmentCount df := by
  obtain ⟨rpInfo, fbInfo, h1, h2, h3, h4, h5, h6⟩ :=
    createRenderPass_calls drv self width height c cf df sc rp self' h
  obtain ⟨info, i1, i2, i3⟩ := renderPassInfo_counts c cf df sc hb
  rw [i1, Option.some.injEq] at h1
  subst h1
  refine ⟨info, fbInfo, h2, h3, i2, i3, h4, ?_, h6⟩
  rw [h5]
  exact createRenderPass_attachmentCount_of_bound c df sc hb


theorem exampleRenderPass_completes :
    (createRenderPass exampleDriver exampleObject 64 64 1 Format.FORMAT_R8G8B8A8_UNORM
      Format.FORMAT_D32_FLOAT Texture.SAMPLE_COUNT_4X).isSome = true := by
  decide

/-- C6 at the scenario of the spec: one colour attachment, 4X, D32_FLOAT, on
the example implementation: `createRenderPass` completes, the render pass has
3 attachments and the framebuffer is built from 3 image views. -/
theorem createRenderPass_attachment_counts_witness :
    ∃ rp self', createRenderPass exampleDriver exampleObject 64 64 1
        Format.FORMAT_R8G8B8A8_UNORM Format.FORMAT_D32_FLOAT Texture.SAMPLE_COUNT_4X =
        some (rp, self') ∧
      ∃ rpInfo fbInfo,
        self'.vk.calls[exampleObject.vk.calls.length]? =
          some (VkCall.vkCreateRenderPass rpInfo rp._renderPass) ∧
        self'.vk.calls.getLast? = some (VkCall.vkCreateFramebuffer fbInfo rp._framebuffer) ∧
        rpInfo.attachmentCount = 3 ∧ rpInfo.pAttachments.length = 3 ∧
        fbInfo.renderPass = rp._renderPass ∧
        fbInfo.attachmentCount = 3 ∧ fbInfo.pAttachments.length = 3 := by
  obtain ⟨⟨rp, self'⟩, hr⟩ := Option.isSome_iff_exists.1 exampleRenderPass_completes
  exact ⟨rp, self', hr,
    createRenderPass_attachment_counts exampleDriver exampleObject 64 64 1
      Format.FORMAT_R8G8B8A8_UNORM Format.FORMAT_D32_FLOAT Texture.SAMPLE_COUNT_4X rp self'
      (by decide) hr⟩

/-- C8 (amended): for a sample count above 1X and `2*c + d` within `uint32_t`,
colour reference `i` points to native attachment `2*i + 1` and resolve
reference `i` to native attachment `2*i` for every `i < c`; all these indices
are below the attachment count and pairwise distinct; and with a depth-stencil
format the depth-stencil reference points to index `2*c`, the last of the
`2*c + 1` attachment slots. -/
theorem createRenderPass_attachment_wiring (c : Nat) (cf df : Format)
    (sc : Texture.SampleCount) (hsc : sc > Texture.SAMPLE_COUNT_1X)
    (hb : 2 * c + depthStencilAttachmentCount df < 2 ^ 32) :
    ∃ info, createRenderPass_renderPassInfo c cf df sc = some info ∧
      (0 < c → ∃ colorRefs resolveRefs,
        info.pSubpasses.pColorAttachments = some colorRefs ∧
        info.pSubpasses.pResolveAttachments = some resolveRefs ∧
        colorRefs.length = c ∧ resolveRefs.length = c ∧
        (∀ i, i < c →
          colorRefs[i]?.map (fun r => r.attachment) = some (2 * i + 1) ∧
          resolveRefs[i]?.map (fun r => r.attachment) = some (2 * i)) ∧
        (∀ r ∈ colorRefs ++ resolveRefs, r.attachment < info.attachmentCount) ∧
        ((colorRefs ++ resolveRefs).map (fun r => r.attachment)).Nodup) ∧
      (df ≠ Format.FORMAT_UNDEFINED →
        info.pSubpasses.pDepthStencilAttachment.map (fun r => r.attachment) = some (2 * c) ∧
        info.attachmentCount = 2 * c + 1) := by
  obtain ⟨info, h1, h2, h3, h4, h5, h6, h7⟩ := renderPassInfo_multisample c cf df sc hsc hb
  refine ⟨info, h1, ?_, ?_⟩
  · intro hc
    obtain ⟨colorRefs, resolveRefs, e1, e2, l1, l2, hrefs⟩ := h5 hc
    have hall : ∀ k, k < 2 * c →
        ((colorRefs ++ resolveRefs).map (fun r => r.attachment))[k]? =
          some (if k < c then 2 * k + 1 else 2 * (k - c)) := by
      intro k hk
      rw [List.getElem?_map, List.getElem?_append]
      by_cases hkc : k < c
      · rw [if_pos (by omega), if_pos hkc, (hrefs k hkc).1]; rfl
      · rw [if_neg (by omega), if_neg hkc, l1, (hrefs (k - c) (by omega)).2]; rfl
    refine ⟨colorRefs, resolveRefs, e1, e2, l1, l2, ?_, ?_, ?_⟩
    · intro i hi
      rw [(hrefs i hi).1, (hrefs i hi).2]
      exact ⟨rfl, rfl⟩
    · intro r hr
      obtain ⟨k, hk, rfl⟩ := List.getElem_of_mem hr
      have hk' : k < 2 * c := by simpa [l1, l2, two_mul] using hk
      have := hall k hk'
      rw [List.getElem?_map, List.getElem?_eq_getElem hk] at this
      simp only [Option.map_some', Option.some.injEq] at this
      rw [this, h2]
      split <;> omega
    · rw [List.nodup_iff_getElem?_ne_getElem?]
      intro i j hij hj
      have hj' : j < 2 * c := by simpa [l1, l2, two_mul] using hj
      rw [hall i (by omega), hall j hj']
      intro heq
      simp only [Option.some.injEq] at heq
      split at heq <;> split at heq <;> omega
  · intro hdf
    have hcount : depthStencilAttachmentCount df = 1 := by
      simp [depthStencilAttachmentCount, hdf]
    refine ⟨?_, ?_⟩
    · rw [(h6 hdf).1]; rfl
    · rw [h2, hcount]

/-- C8 at one colour attachment, 4X and D32_FLOAT: colour reference 0 points
to attachment 1, resolve reference 0 to attachment 0 and the depth-stencil
reference to attachment 2 of 3. -/
theorem createRenderPass_attachment_wiring_witness :
    ∃ info, createRenderPass_renderPassInfo 1 Format.FORMAT_R8G8B8A8_UNORM
        Format.FORMAT_D32_FLOAT Texture.SAMPLE_COUNT_4X = some info ∧
      (0 < 1 → ∃ colorRefs resolveRefs,
        info.pSubpasses.pColorAttachments = some colorRefs ∧
        info.pSubpasses.pResolveAttachments = some resolveRefs ∧
        colorRefs.length = 1 ∧ resolveRefs.length = 1 ∧
        (∀ i, i < 1 →
          colorRefs[i]?.map (fun r => r.attachment) = some (2 * i + 1) ∧
          resolveRefs[i]?.map (fun r => r.attachment) = some (2 * i)) ∧
        (∀ r ∈ colorRefs ++ resolveRefs, r.attachment < info.attachmentCount) ∧
        ((colorRefs ++ resolveRefs).map (fun r => r.attachment)).Nodup) ∧
      (Format.FORMAT_D32_FLOAT ≠ Format.FORMAT_UNDEFINED →
        info.pSubpasses.pDepthStencilAttachment.map (fun r => r.attachment) = some (2 * 1) ∧
        info.attachmentCount = 2 * 1 + 1) :=
  createRenderPass_attachment_wiring 1 Format.FORMAT_R8G8B8A8_UNORM Format.FORMAT_D32_FLOAT
    Texture.SAMPLE_COUNT_4X (by decide) (by decide)

/-! ### Swapchain, bring-up and resize -/

theorem createBackBufferViews_spec (fmt : VkFormat) (images : List Nat) (views : List Nat)
    (vk : VkWorld) :
    (createBackBufferViews fmt images (views, vk)).1.length = views.length + images.length ∧
    CallsExtend vk (createBackBufferViews fmt images (views, vk)).2 := by
  induction images generalizing views vk with
  | nil => exact ⟨by simp [createBackBufferViews], callsExtend_refl _⟩
  | cons image rest ih =>
    unfold createBackBufferViews
    obtain ⟨h1, h2⟩ := ih (views ++ [vk.fresh])
      (vk.create (VkCall.vkCreateImageView (backBufferViewInfo fmt image)))
    refine ⟨?_, callsExtend_trans (callsExtend_create _ _) h2⟩
    rw [h1]
    simp only [List.length_append, List.length_cons, List.length_nil]
    omega

theorem createSwapchain_requestedCount_eq (caps : VkSurfaceCapabilitiesKHR) :
    createSwapchain_requestedCount caps =
      if caps.maxImageCount = 0 then caps.minImageCount
      else min caps.minImageCount caps.maxImageCount := by
  unfold createSwapchain_requestedCount
  simp only
  by_cases h0 : caps.maxImageCount = 0
  · rw [if_pos h0, if_neg (by omega)]
  · rw [if_neg h0]
    by_cases h1 : caps.minImageCount > caps.maxImageCount
    · rw [if_pos ⟨by omega, h1⟩, Nat.min_eq_right (by omega)]
    · rw [if_neg (fun h => h1 h.2), Nat.min_eq_left (by omega)]

theorem vectorResize_length (v : List Nat) (n : Nat) : (vectorResize v n).length = n := by
  unfold vectorResize
  simp only [List.length_append, List.length_take, List.length_replicate]
  omega

theorem createDepthStencil_frame (drv : Driver) (s s' : GraphicsVK)
    (h : createDepthStencil drv s = some s') :
    s'._width = s._width ∧ s'._height = s._height ∧
    s'._backBufferCount = s._backBufferCount ∧ s'._frameBuffers = s._frameBuffers ∧
    s'._backBufferImageViews = s._backBufferImageViews ∧ s'._resized = s._resized ∧
    s'.vk.calls[s.vk.calls.length]? = some (VkCall.vkCreateImage
      { flags := 0
        imageType := VkImageType.VK_IMAGE_TYPE_1D
        format := s'._depthStencilFormat
        extent := ⟨toUInt32 s._width, toUInt32 s._height, 1⟩
        mipLevels := 1
        arrayLayers := 1
        samples := VK_SAMPLE_COUNT_1_BIT
        tiling := VkImageTiling.VK_IMAGE_TILING_OPTIMAL
        usage := VK_IMAGE_USAGE_DEPTH_STENCIL_ATTACHMENT_BIT
        initialLayout := VkImageLayout.VK_IMAGE_LAYOUT_UNDEFINED } s'._depthStencilImage) := by
  unfold createDepthStencil at h
  simp only at h
  split at h
  · cases h
  · split at h
    · cases h
    · simp only [Option.some.injEq] at h
      subst h
      refine ⟨rfl, rfl, rfl, rfl, rfl, rfl, ?_⟩
      dsimp only
      refine calls_getElem?_of_extend s.vk _ _ ?_
      exact callsExtend_trans ⟨[], by simp [VkWorld.call, VkWorld.create, VkWorld.fresh,
        createDepthStencil_imageCreateInfo]⟩
        (callsExtend_trans (callsExtend_create _ _)
          (callsExtend_trans (callsExtend_call _ _) (callsExtend_create _ _)))

theorem createBackBuffersLoop_frame (n i : Nat) (s s' : GraphicsVK)
    (h : createBackBuffersLoop n i s = some s') :
    s'._width = s._width ∧ s'._height = s._height ∧
    s'._backBufferCount = s._backBufferCount ∧
    s'._frameBuffers.length = s._frameBuffers.length ∧
    s'._backBufferImageViews = s._backBufferImageViews ∧ s'._resized = s._resized := by
  induction n generalizing i s with
  | zero =>
    simp only [createBackBuffersLoop, Option.some.injEq] at h
    subst h
    exact ⟨rfl, rfl, rfl, rfl, rfl, rfl⟩
  | succ n ih =>
    unfold createBackBuffersLoop at h
    split at h
    · cases h
    · obtain ⟨h1, h2, h3, h4, h5, h6⟩ := ih _ _ h
      exact ⟨h1, h2, h3, by rw [h4]; simp, h5, h6⟩

theorem createBackBuffers_frame (s s' : GraphicsVK) (h : createBackBuffers s = some s') :
    s'._width = s._width ∧ s'._height = s._height ∧
    s'._backBufferCount = s._backBufferCount ∧
    s'._frameBuffers.length = s._backBufferCount ∧
    s'._backBufferImageViews = s._backBufferImageViews ∧ s'._resized = s._resized := by
  unfold createBackBuffers at h
  obtain ⟨h1, h2, h3, h4, h5, h6⟩ := createBackBuffersLoop_frame _ _ _ _ h
  exact ⟨h1, h2, h3, by rw [h4]; exact vectorResize_length _ _, h5, h6⟩

theorem onResize_destroyFrameBuffers_frame (n i : Nat) (s s' : GraphicsVK)
    (h : onResize_destroyFrameBuffers n i s = some s') :
    s'._width = s._width ∧ s'._height = s._height ∧
    s'._backBufferCount = s._backBufferCount ∧
    s'._backBufferImageViews = s._backBufferImageViews ∧ s'._resized = s._resized := by
  induction n generalizing i s with
  | zero =>
    simp only [onResize_destroyFrameBuffers, Option.some.injEq] at h
    subst h
    exact ⟨rfl, rfl, rfl, rfl, rfl⟩
  | succ n ih =>
    unfold onResize_destroyFrameBuffers at h
    split at h
    · cases h
    · obtain ⟨h1, h2, h3, h4, h5⟩ := ih _ _ h
      rw [h1, h2, h3, h4, h5]
      split <;> exact ⟨rfl, rfl, rfl, rfl, rfl⟩

theorem onResize_destroyBackBufferViews_frame (n i : Nat) (s s' : GraphicsVK)
    (h : onResize_destroyBackBufferViews n i s = some s') :
    s'._width = s._width ∧ s'._height = s._height ∧
    s'._frameBuffers = s._frameBuffers ∧ s'._resized = s._resized := by
  induction n generalizing i s with
  | zero =>
    simp only [onResize_destroyBackBufferViews, Option.some.injEq] at h
    subst h
    exact ⟨rfl, rfl, rfl, rfl⟩
  | succ n ih =>
    unfold onResize_destroyBackBufferViews at h
    split at h
    · cases h
    · have h' := ih _ _ h
      exact h'

theorem createSwapchain_frame (drv : Driver) (s s' : GraphicsVK)
    (h : createSwapchain drv s = some s') :
    s'._width = s._width ∧ s'._height = s._height ∧
    s'._frameBuffers = s._frameBuffers ∧ s'._resized = s._resized := by
  unfold createSwapchain at h
  split at h
  · cases h
  · simp only [Option.some.injEq] at h
    subst h
    exact ⟨rfl, rfl, rfl, rfl⟩

theorem callsExtend_getElem? {w w' : VkWorld} (h : CallsExtend w w') (k : Nat) (c : VkCall)
    (hk : w.calls[k]? = some c) : w'.calls[k]? = some c := by
  obtain ⟨extra, he⟩ := h
  have hlt : k < w.calls.length := by
    by_contra hge
    rw [List.getElem?_eq_none (by omega)] at hk
    cases hk
  rw [he, List.getElem?_append_left hlt]
  exact hk

theorem callsExtend_length {w w' : VkWorld} (h : CallsExtend w w') :
    w.calls.length ≤ w'.calls.length := by
  obtain ⟨extra, he⟩ := h
  rw [he, List.length_append]
  omega

theorem createDepthStencil_calls (drv : Driver) (s s' : GraphicsVK)
    (h : createDepthStencil drv s = some s') : CallsExtend s.vk s'.vk := by
  unfold createDepthStencil at h
  simp only at h
  split at h
  · cases h
  · split at h
    · cases h
    · simp only [Option.some.injEq] at h
      subst h
      exact callsExtend_trans (callsExtend_create _ _)
        (callsExtend_trans (callsExtend_create _ _)
          (callsExtend_trans (callsExtend_call _ _) (callsExtend_create _ _)))

theorem onResize_destroyDepthStencil_frame (s : GraphicsVK) :
    (onResize_destroyDepthStencil s)._width = s._width ∧
    (onResize_destroyDepthStencil s)._height = s._height ∧
    (onResize_destroyDepthStencil s)._backBufferCount = s._backBufferCount ∧
    (onResize_destroyDepthStencil s)._frameBuffers = s._frameBuffers ∧
    (onResize_destroyDepthStencil s)._backBufferImageViews = s._backBufferImageViews ∧
    (onResize_destroyDepthStencil s)._resized = s._resized ∧
    CallsExtend s.vk (onResize_destroyDepthStencil s).vk := by
  unfold onResize_destroyDepthStencil
  simp only
  split <;> split <;> split <;>
    refine ⟨rfl, rfl, rfl, rfl, rfl, rfl, ?_⟩ <;>
    first
      | exact callsExtend_refl _
      | exact callsExtend_call _ _
      | exact callsExtend_trans (callsExtend_call _ _) (callsExtend_call _ _)
      | exact callsExtend_trans (callsExtend_call _ _)
          (callsExtend_trans (callsExtend_call _ _) (callsExtend_call _ _))

theorem createBackBuffersLoop_calls (n i : Nat) (s s' : GraphicsVK)
    (h : createBackBuffersLoop n i s = some s') : CallsExtend s.vk s'.vk := by
  induction n generalizing i s with
  | zero =>
    simp only [createBackBuffersLoop, Option.some.injEq] at h
    subst h
    exact callsExtend_refl _
  | succ n ih =>
    unfold createBackBuffersLoop at h
    split at h
    · cases h
    · have h' := ih _ _ h
      exact callsExtend_trans (callsExtend_create _ _) h'

theorem onResize_destroyFrameBuffers_calls (n i : Nat) (s s' : GraphicsVK)
    (h : onResize_destroyFrameBuffers n i s = some s') : CallsExtend s.vk s'.vk := by
  induction n generalizing i s with
  | zero =>
    simp only [onResize_destroyFrameBuffers, Option.some.injEq] at h
    subst h
    exact callsExtend_refl _
  | succ n ih =>
    unfold onResize_destroyFrameBuffers at h
    split at h
    · cases h
    · have h' := ih _ _ h
      refine callsExtend_trans ?_ h'
      split
      · exact callsExtend_call _ _
      · exact callsExtend_refl _

theorem onResize_destroyBackBufferViews_calls (n i : Nat) (s s' : GraphicsVK)
    (h : onResize_destroyBackBufferViews n i s = some s') : CallsExtend s.vk s'.vk := by
  induction n generalizing i s with
  | zero =>
    simp only [onResize_destroyBackBufferViews, Option.some.injEq] at h
    subst h
    exact callsExtend_refl _
  | succ n ih =>
    unfold onResize_destroyBackBufferViews at h
    split at h
    · cases h
    · have h' := ih _ _ h
      exact callsExtend_trans (callsExtend_call _ _) h'

theorem createSwapchain_calls (drv : Driver) (s s' : GraphicsVK)
    (h : createSwapchain drv s = some s') : CallsExtend s.vk s'.vk := by
  unfold createSwapchain at h
  split at h
  · cases h
  · rename_i surfaceFormat hfmt
    simp only [Option.some.injEq] at h
    subst h
    dsimp only
    have hv := (createBackBufferViews_spec s._colorFormat
      ((s.vk.create (VkCall.vkCreateSwapchainKHR
        (createSwapchain_createInfo drv s surfaceFormat))).freshMany
        (drv.swapchainImageCount (createSwapchain_createInfo drv s surfaceFormat))) []
      { handles := (s.vk.create (VkCall.vkCreateSwapchainKHR
          (createSwapchain_createInfo drv s surfaceFormat))).handles +
            drv.swapchainImageCount (createSwapchain_createInfo drv s surfaceFormat)
        calls := (s.vk.create (VkCall.vkCreateSwapchainKHR
          (createSwapchain_createInfo drv s surfaceFormat))).calls }).2
    exact callsExtend_trans ⟨[VkCall.vkCreateSwapchainKHR
      (createSwapchain_createInfo drv s surfaceFormat) (s.vk.handles + 1)], rfl⟩ hv

theorem createSwapchain_result (drv : Driver) (s s' : GraphicsVK)
    (h : createSwapchain drv s = some s') :
    ∃ createInfo,
      s'.vk.calls[s.vk.calls.length]? =
        some (VkCall.vkCreateSwapchainKHR createInfo s'._swapchain) ∧
      createInfo.minImageCount = createSwapchain_requestedCount drv.capabilities ∧
      createInfo.imageExtent = ⟨s._width, s._height⟩ ∧
      createInfo.oldSwapchain = s._swapchain ∧
      s'._backBufferCount = drv.swapchainImageCount createInfo ∧
      s'._backBufferImages.length = s'._backBufferCount ∧
      s'._backBufferImageViews.length = s'._backBufferCount := by
  unfold createSwapchain at h
  split at h
  · cases h
  · rename_i surfaceFormat hfmt
    simp only [Option.some.injEq] at h
    subst h
    refine ⟨createSwapchain_createInfo drv s surfaceFormat, ?_, rfl, rfl, rfl, rfl, ?_, ?_⟩
    · dsimp only
      refine calls_getElem?_of_extend s.vk _ _ ?_
      refine callsExtend_trans ?_ (createBackBufferViews_spec _ _ _ _).2
      exact ⟨[], by simp [VkWorld.call, VkWorld.create, VkWorld.fresh]⟩
    · simp [VkWorld.freshMany]
    · dsimp only
      rw [(createBackBufferViews_spec _ _ _ _).1]
      simp [VkWorld.freshMany]

theorem onResize_destroyRenderPass_frame (s4 : GraphicsVK) :
    (onResize_destroyRenderPass s4)._width = s4._width ∧
    (onResize_destroyRenderPass s4)._height = s4._height ∧
    (onResize_destroyRenderPass s4)._backBufferCount = s4._backBufferCount ∧
    (onResize_destroyRenderPass s4)._backBufferImageViews = s4._backBufferImageViews ∧
    (onResize_destroyRenderPass s4)._resized = s4._resized ∧
    CallsExtend s4.vk (onResize_destroyRenderPass s4).vk := by
  unfold onResize_destroyRenderPass
  dsimp only
  split
  · exact ⟨rfl, rfl, rfl, rfl, rfl, callsExtend_call _ _⟩
  · exact ⟨rfl, rfl, rfl, rfl, rfl, callsExtend_refl _⟩

theorem onResize_destroySwapchain_frame (s8 s10 : GraphicsVK)
    (h : onResize_destroySwapchain s8 = some s10) :
    s10._width = s8._width ∧ s10._height = s8._height ∧
    s10._frameBuffers = s8._frameBuffers ∧ s10._resized = s8._resized ∧
    s10._swapchain = VK_NULL_HANDLE ∧
    CallsExtend s8.vk s10.vk := by
  unfold onResize_destroySwapchain at h
  split at h
  · split at h
    · cases h
    · rename_i self9 h9
      simp only [Option.some.injEq] at h
      subst h
      obtain ⟨e1, e2, e3, e4⟩ := onResize_destroyBackBufferViews_frame _ _ _ _ h9
      have e5 := onResize_destroyBackBufferViews_calls _ _ _ _ h9
      exact ⟨e1, e2, e3, e4, rfl, callsExtend_trans e5 (callsExtend_call _ _)⟩
  · rename_i hnull
    simp only [Option.some.injEq] at h
    subst h
    exact ⟨rfl, rfl, rfl, rfl, by simpa using hnull, callsExtend_refl _⟩

/-- What a completed resize leaves behind: the stored size is the one from
before the call whatever `width` and `height` are, the depth-stencil image has
been created during the call with that stored size, the new swapchain has been
requested with that stored size, the framebuffer vector has the length of the
back-buffer count from before the call, and the back-buffer count is the
number of images the new swapchain reports. -/
theorem onResize_completed (drv : Driver) (s s' : GraphicsVK) (width height : Int)
    (hflag : s._resized = true) (h : onResize drv s width height = some s') :
    s'._resized = true ∧ s'._width = s._width ∧ s'._height = s._height ∧
    s'._frameBuffers.length = s._backBufferCount ∧
    s'._backBufferImageViews.length = s'._backBufferCount ∧
    (∃ createInfo, createInfo.imageExtent = ⟨s._width, s._height⟩ ∧
      createInfo.oldSwapchain = VK_NULL_HANDLE ∧
      s'._backBufferCount = drv.swapchainImageCount createInfo) ∧
    (∃ k info image, s.vk.calls.length ≤ k ∧
      s'.vk.calls[k]? = some (VkCall.vkCreateImage info image) ∧
      info.usage = VK_IMAGE_USAGE_DEPTH_STENCIL_ATTACHMENT_BIT ∧
      info.extent = ⟨toUInt32 s._width, toUInt32 s._height, 1⟩) := by
  unfold onResize at h
  rw [hflag] at h
  simp only [Bool.not_true, Bool.false_eq_true, if_false] at h
  split at h
  · cases h
  · rename_i s3 hds
    split at h
    · cases h
    · rename_i s4 hdf
      split at h
      · cases h
      · rename_i s8 hbb
        split at h
        · cases h
        · rename_i s10 hdestroyed
          split at h
          · cases h
          · rename_i s11 hsc
            simp only [Option.some.injEq] at h
            subst h
            obtain ⟨d1, d2, d3, d4, d5, d6, d7⟩ := onResize_destroyDepthStencil_frame
              { s with _resized := false, vk := s.vk.call VkCall.vkDeviceWaitIdle }
            obtain ⟨a1, a2, a3, a4, a5, a6, a7⟩ := createDepthStencil_frame _ _ _ hds
            have a8 := createDepthStencil_calls _ _ _ hds
            obtain ⟨b1, b2, b3, b4, b5⟩ := onResize_destroyFrameBuffers_frame _ _ _ _ hdf
            have b6 := onResize_destroyFrameBuffers_calls _ _ _ _ hdf
            obtain ⟨r1, r2, r3, r4, r5, r6⟩ := onResize_destroyRenderPass_frame s4
            obtain ⟨c1, c2, c3, c4, c5, c6⟩ := createBackBuffers_frame _ _ hbb
            have c7 := createBackBuffersLoop_calls _ _ _ _ hbb
            obtain ⟨e1, e2, e3, e4, e5, e6⟩ := onResize_destroySwapchain_frame s8 s10 hdestroyed
            obtain ⟨f1, f2, f3, f4⟩ := createSwapchain_frame _ _ _ hsc
            have f5 := createSwapchain_calls _ _ _ hsc
            obtain ⟨createInfo, g1, g2, g3, g4, g5, g6, g7⟩ := createSwapchain_result _ _ _ hsc
            have hw10 : s10._width = s._width := by
              rw [e1, c1]; show (onResize_destroyRenderPass s4)._width = _
              rw [r1, b1, a1, d1]
            have hh10 : s10._height = s._height := by
              rw [e2, c2]; show (onResize_destroyRenderPass s4)._height = _
              rw [r2, b2, a2, d2]
            refine ⟨rfl, ?_, ?_, ?_, g7, ⟨createInfo, ?_, ?_, g5⟩, ?_⟩
            · show s11._width = s._width
              rw [f1, hw10]
            · show s11._height = s._height
              rw [f2, hh10]
            · show s11._frameBuffers.length = s._backBufferCount
              rw [f3, e3, c4]; show (onResize_destroyRenderPass s4)._backBufferCount = _
              rw [r3, b3, a3, d3]
            · rw [g3, hw10, hh10]
            · rw [g4, e5]
            · refine ⟨_, _, _, ?_, callsExtend_getElem? ?_ _ _ a7, rfl, ?_⟩
              · exact le_trans (callsExtend_length (callsExtend_call s.vk VkCall.vkDeviceWaitIdle))
                  (callsExtend_length d7)
              · refine callsExtend_trans b6 (callsExtend_trans r6 (callsExtend_trans
                  (callsExtend_create _ _) (callsExtend_trans c7
                  (callsExtend_trans e6 (callsExtend_trans f5 ?_)))))
                exact callsExtend_trans (callsExtend_call _ _)
                  (callsExtend_trans ⟨_, rfl⟩ (callsExtend_call _ _))
              · rw [d1, d2]


theorem createInstance_frame (s : GraphicsVK) :
    (createInstance s)._width = s._width ∧ (createInstance s)._height = s._height := by
  unfold createInstance
  dsimp only
  split <;> exact ⟨rfl, rfl⟩

theorem createDevice_frame (drv : Driver) (s s' : GraphicsVK)
    (h : GraphicsVK.createDevice drv s = some s') :
    s'._width = s._width ∧ s'._height = s._height := by
  unfold GraphicsVK.createDevice at h
  split at h
  · cases h
  · split at h
    · cases h
    · simp only [Option.some.injEq] at h
      subst h
      exact ⟨rfl, rfl⟩

theorem createSurface_frame (drv : Driver) (s s' : GraphicsVK) (window connection : Nat)
    (h : createSurface drv s window connection = some s') :
    s'._width = s._width ∧ s'._height = s._height := by
  unfold createSurface at h
  dsimp only at h
  split at h
  · cases h
  · split at h
    · cases h
    · split at h
      · cases h
      · simp only [Option.some.injEq] at h
        subst h
        exact ⟨rfl, rfl⟩

/-- What a completed bring-up leaves behind: both flags set, the configured
size stored, and one framebuffer and one back-buffer view per back buffer. -/
theorem onInitialize_completed (drv : Driver) (config : Config) (s s' : GraphicsVK)
    (window connection : Nat) (hinit : s._initialized = false)
    (h : onInitialize drv config s window connection = some s') :
    s'._initialized = true ∧ s'._resized = true ∧
    s'._width = config.width ∧ s'._height = config.height ∧
    s'._frameBuffers.length = s'._backBufferCount ∧
    s'._backBufferImageViews.length = s'._backBufferCount := by
  unfold onInitialize at h
  rw [if_neg (by rw [hinit]; decide)] at h
  dsimp only at h
  split at h
  · cases h
  · rename_i s2 h2
    split at h
    · cases h
    · rename_i s3 h3
      split at h
      · cases h
      · rename_i s4 h4
        split at h
        · cases h
        · rename_i s6 h6
          split at h
          · cases h
          · rename_i s8 h8
            simp only [Option.some.injEq] at h
            subst h
            obtain ⟨i1, i2⟩ := createInstance_frame
              { s with
                _width := config.width
                _height := config.height
                _fullscreen := config.fullscreen
                _vsync := config.vsync
                _multisampling := config.multisampling
                _validation := config.validation }
            obtain ⟨j1, j2⟩ := createDevice_frame _ _ _ h2
            obtain ⟨k1, k2⟩ := createSurface_frame _ _ _ _ _ h3
            obtain ⟨f1, f2, f3, f4⟩ := createSwapchain_frame _ _ _ h4
            obtain ⟨createInfo, g1, g2, g3, g4, g5, g6, g7⟩ := createSwapchain_result _ _ _ h4
            obtain ⟨a1, a2, a3, a4, a5, a6, a7⟩ := createDepthStencil_frame _ _ _ h6
            obtain ⟨c1, c2, c3, c4, c5, c6⟩ := createBackBuffers_frame _ _ h8
            refine ⟨rfl, rfl, ?_, ?_, ?_, ?_⟩
            · show s8._width = config.width
              rw [c1]; show s6._width = _
              rw [a1]; show s4._width = _
              rw [f1, k1, j1, i1]
            · show s8._height = config.height
              rw [c2]; show s6._height = _
              rw [a2]; show s4._height = _
              rw [f2, k2, j2, i2]
            · show s8._frameBuffers.length = s8._backBufferCount
              rw [c4, c3]
            · show s8._backBufferImageViews.length = s8._backBufferCount
              rw [c5, c3]; show s6._backBufferImageViews.length = s6._backBufferCount
              rw [a5, a3]; exact g7

/-! ### Back-buffer count, framebuffer count and extents (C5, C9, C10) -/

/-- C5 (amended): a completed `createSwapchain` has requested from the new
swapchain `minImageCount` images when `maxImageCount` is 0 and
`min(minImageCount, maxImageCount)` images otherwise; `_backBufferCount`
afterwards is the number of images the new swapchain reports, both back-buffer
vectors have that length, and it equals the requested count whenever the
swapchain holds exactly the requested number of images. -/
theorem createSwapchain_backBufferCount (drv : Driver) (self self' : GraphicsVK)
    (h : createSwapchain drv self = some self') :
    ∃ createInfo,
      self'.vk.calls[self.vk.calls.length]? =
        some (VkCall.vkCreateSwapchainKHR createInfo self'._swapchain) ∧
      createInfo.minImageCount =
        (if drv.capabilities.maxImageCount = 0 then drv.capabilities.minImageCount
         else min drv.capabilities.minImageCount drv.capabilities.maxImageCount) ∧
      self'._backBufferCount = drv.swapchainImageCount createInfo ∧
      self'._backBufferImages.length = self'._backBufferCount ∧
      self'._backBufferImageViews.length = self'._backBufferCount ∧
      (drv.swapchainImageCount createInfo = createInfo.minImageCount →
        self'._backBufferCount =
          (if drv.capabilities.maxImageCount = 0 then drv.capabilities.minImageCount
           else min drv.capabilities.minImageCount drv.capabilities.maxImageCount)) := by
  obtain ⟨createInfo, g1, g2, _, _, g5, g6, g7⟩ := createSwapchain_result drv self self' h
  have hreq := createSwapchain_requestedCount_eq drv.capabilities
  refine ⟨createInfo, g1, by rw [g2, hreq], g5, g6, g7, ?_⟩
  intro hsame
  rw [g5, hsame, g2, hreq]

theorem exampleSwapchain_completes :
    (createSwapchain exampleDriver exampleObject).isSome = true := by
  decide

/-- C5 on the example implementation (minimum 2, maximum 3, swapchains hold the
requested number of images): the back-buffer count is 2. -/
theorem createSwapchain_backBufferCount_witness :
    ∃ self', createSwapchain exampleDriver exampleObject = some self' ∧
      self'._backBufferCount = 2 := by
  obtain ⟨self', hs⟩ := Option.isSome_iff_exists.1 exampleSwapchain_completes
  obtain ⟨createInfo, _, h2, h3, _, _, h6⟩ :=
    createSwapchain_backBufferCount exampleDriver exampleObject self' hs
  refine ⟨self', hs, ?_⟩
  have hcount : exampleDriver.swapchainImageCount createInfo = createInfo.minImageCount := rfl
  rw [h6 hcount]
  decide

/-- C5 (counterexample): the surface declares `minImageCount = 2` and no
maximum, the new swapchain holds 3 images, and `_backBufferCount` after
`createSwapchain` is 3, not 2. -/
theorem createSwapchain_backBufferCount_driver_decides :
    exampleDriverExtraImage.capabilities.minImageCount = 2 ∧
    exampleDriverExtraImage.capabilities.maxImageCount = 0 ∧
    (createSwapchain exampleDriverExtraImage exampleObject).map (fun s => s._backBufferCount) =
      some 3 := by
  decide

/-- C9 (code defect): bring-up on the example implementation completes with 2
framebuffers for 2 back buffers; a resize during which the recreated swapchain
reports 3 images completes with the resize flag set again, still 2
framebuffers, and a back-buffer count of 3. -/
theorem onResize_framebuffer_count_mismatch :
    (onInitialize exampleDriver exampleConfig GraphicsVK.new 1 2).map
        (fun s => (s._resized, s._frameBuffers.length, s._backBufferCount)) =
      some (true, 2, 2) ∧
    ((onInitialize exampleDriver exampleConfig GraphicsVK.new 1 2).bind
        (fun s => onResize exampleDriverThreeImages s 1024 768)).map
        (fun s => (s._resized, s._frameBuffers.length, s._backBufferCount)) =
      some (true, 2, 3) := by
  decide

/-- The result of `onResize` does not depend on its `width` and `height`
arguments. -/
theorem onResize_ignores_size (drv : Driver) (self : GraphicsVK)
    (width height width' height' : Int) :
    onResize drv self width height = onResize drv self width' height' := rfl

/-- C10 (code defect): after bring-up with an 800 x 600 configuration, the
completed call `onResize(1024, 768)` (resize flag set on entry and on return)
creates one image, the depth-stencil image, with extent 800 x 600, and creates
the swapchain and both framebuffers with 800 x 600 as well: not with
1024 x 768. -/
theorem onResize_keeps_old_extent :
    ((onInitialize exampleDriver exampleConfig GraphicsVK.new 1 2).bind
        (fun s0 => (onResize exampleDriver s0 1024 768).map
          (fun s1 => (s0._resized, s1._resized,
            createdImageExtents (s1.vk.calls.drop s0.vk.calls.length),
            createdSwapchainExtents (s1.vk.calls.drop s0.vk.calls.length),
            createdFramebufferExtents (s1.vk.calls.drop s0.vk.calls.length))))) =
      some (true, true, [⟨800, 600, 1⟩], [⟨800, 600⟩], [⟨800, 600⟩, ⟨800, 600⟩]) := by
  decide

/-! ### Swapchain recreation (C11) -/

theorem swapchainEvents_call (w : VkWorld) (c : VkCall) :
    swapchainEvents (w.call c).calls = swapchainEvents w.calls ++ (swapchainEvent c).toList := by
  unfold swapchainEvents VkWorld.call
  rw [List.filterMap_append]
  cases hc : swapchainEvent c <;> simp [List.filterMap_cons, hc]

theorem swapchainEvents_create (w : VkWorld) (f : Nat → VkCall) :
    swapchainEvents (w.create f).calls =
      swapchainEvents w.calls ++ (swapchainEvent (f w.fresh)).toList := by
  unfold swapchainEvents VkWorld.create VkWorld.fresh
  rw [List.filterMap_append]
  cases hc : swapchainEvent (f (w.handles + 1)) <;> simp [List.filterMap_cons, hc]

theorem keepsSwapchain_refl (s : GraphicsVK) : KeepsSwapchain s s := ⟨rfl, rfl⟩

theorem keepsSwapchain_trans {a b c : GraphicsVK} (h1 : KeepsSwapchain a b)
    (h2 : KeepsSwapchain b c) : KeepsSwapchain a c :=
  ⟨h2.1.trans h1.1, h2.2.trans h1.2⟩

theorem createDepthStencil_keepsSwapchain (drv : Driver) (s s' : GraphicsVK)
    (h : createDepthStencil drv s = some s') : KeepsSwapchain s s' := by
  unfold createDepthStencil at h
  simp only at h
  split at h
  · cases h
  · split at h
    · cases h
    · simp only [Option.some.injEq] at h
      subst h
      refine ⟨rfl, ?_⟩
      simp [swapchainEvents_call, swapchainEvents_create, swapchainEvent]

theorem onResize_destroyDepthStencil_keepsSwapchain (s : GraphicsVK) :
    KeepsSwapchain s (onResize_destroyDepthStencil s) := by
  unfold onResize_destroyDepthStencil
  simp only
  split <;> split <;> split <;> refine ⟨rfl, ?_⟩ <;>
    simp [swapchainEvents_call, swapchainEvent]

theorem onResize_destroyFrameBuffers_keepsSwapchain (n i : Nat) (s s' : GraphicsVK)
    (h : onResize_destroyFrameBuffers n i s = some s') : KeepsSwapchain s s' := by
  induction n generalizing i s with
  | zero =>
    simp only [onResize_destroyFrameBuffers, Option.some.injEq] at h
    subst h
    exact keepsSwapchain_refl _
  | succ n ih =>
    unfold onResize_destroyFrameBuffers at h
    split at h
    · cases h
    · have h' := ih _ _ h
      refine keepsSwapchain_trans ?_ h'
      split
      · exact ⟨rfl, by simp [swapchainEvents_call, swapchainEvent]⟩
      · exact keepsSwapchain_refl _

theorem onResize_destroyRenderPass_keepsSwapchain (s : GraphicsVK) :
    KeepsSwapchain s (onResize_destroyRenderPass s) := by
  unfold onResize_destroyRenderPass
  dsimp only
  split
  · exact ⟨rfl, by simp [swapchainEvents_call, swapchainEvent]⟩
  · exact ⟨rfl, rfl⟩

theorem createFrameBuffer_keepsSwapchain (s : GraphicsVK) :
    KeepsSwapchain s (createFrameBuffer s) := by
  unfold createFrameBuffer
  exact ⟨rfl, by simp [swapchainEvents_create, swapchainEvent]⟩

theorem createBackBuffersLoop_keepsSwapchain (n i : Nat) (s s' : GraphicsVK)
    (h : createBackBuffersLoop n i s = some s') : KeepsSwapchain s s' := by
  induction n generalizing i s with
  | zero =>
    simp only [createBackBuffersLoop, Option.some.injEq] at h
    subst h
    exact keepsSwapchain_refl _
  | succ n ih =>
    unfold createBackBuffersLoop at h
    split at h
    · cases h
    · have h' := ih _ _ h
      refine keepsSwapchain_trans ?_ h'
      exact ⟨rfl, by simp [swapchainEvents_create, swapchainEvent]⟩

theorem createBackBuffers_keepsSwapchain (s s' : GraphicsVK)
    (h : createBackBuffers s = some s') : KeepsSwapchain s s' := by
  unfold createBackBuffers at h
  have h' := createBackBuffersLoop_keepsSwapchain _ _ _ _ h
  exact h'

theorem onResize_destroyBackBufferViews_keepsSwapchain (n i : Nat) (s s' : GraphicsVK)
    (h : onResize_destroyBackBufferViews n i s = some s') : KeepsSwapchain s s' := by
  induction n generalizing i s with
  | zero =>
    simp only [onResize_destroyBackBufferViews, Option.some.injEq] at h
    subst h
    exact keepsSwapchain_refl _
  | succ n ih =>
    unfold onResize_destroyBackBufferViews at h
    split at h
    · cases h
    · have h' := ih _ _ h
      refine keepsSwapchain_trans ?_ h'
      exact ⟨rfl, by simp [swapchainEvents_call, swapchainEvent]⟩

theorem createBackBufferViews_swapchainEvents (fmt : VkFormat) (images views : List Nat)
    (vk : VkWorld) :
    swapchainEvents (createBackBufferViews fmt images (views, vk)).2.calls =
      swapchainEvents vk.calls := by
  induction images generalizing views vk with
  | nil => rfl
  | cons image rest ih =>
    unfold createBackBufferViews
    rw [ih]
    simp [swapchainEvents_create, swapchainEvent]

theorem onResize_destroySwapchain_events (s s' : GraphicsVK)
    (h : onResize_destroySwapchain s = some s') :
    swapchainEvents s'.vk.calls = swapchainEvents s.vk.calls ++
      (if s._swapchain ≠ VK_NULL_HANDLE then [SwapchainEvent.destroyed s._swapchain]
        else []) := by
  unfold onResize_destroySwapchain at h
  split at h
  · rename_i hprev
    rw [if_pos hprev]
    split at h
    · cases h
    · rename_i self1 h1
      simp only [Option.some.injEq] at h
      subst h
      obtain ⟨k1, k2⟩ := onResize_destroyBackBufferViews_keepsSwapchain _ _ _ _ h1
      simp [swapchainEvents_call, swapchainEvent, k1, k2]
  · rename_i hprev
    rw [if_neg hprev]
    simp only [Option.some.injEq] at h
    subst h
    simp

theorem createSwapchain_events (drv : Driver) (s s' : GraphicsVK)
    (h : createSwapchain drv s = some s') :
    swapchainEvents s'.vk.calls =
      swapchainEvents s.vk.calls ++ [SwapchainEvent.created s._swapchain s'._swapchain] := by
  unfold createSwapchain at h
  split at h
  · cases h
  · simp only [Option.some.injEq] at h
    subst h
    dsimp only
    rw [createBackBufferViews_swapchainEvents]
    show swapchainEvents (s.vk.create _).calls = _
    simp [swapchainEvents_create, swapchainEvent, createSwapchain_createInfo, VkWorld.fresh]

theorem onResize_freeCommandBuffers_keepsSwapchain (s : GraphicsVK) :
    KeepsSwapchain s (onResize_freeCommandBuffers s) := by
  unfold onResize_freeCommandBuffers
  exact ⟨rfl, by simp [swapchainEvents_call, swapchainEvent]⟩

theorem createCommandBuffers_keepsSwapchain (s : GraphicsVK) :
    KeepsSwapchain s (createCommandBuffers s) := by
  unfold createCommandBuffers
  exact ⟨rfl, by simp [swapchainEvents, List.filterMap_append, swapchainEvent]⟩

theorem createSwapchain_handle (drv : Driver) (s s' : GraphicsVK)
    (h : createSwapchain drv s = some s') : s'._swapchain ≠ VK_NULL_HANDLE := by
  unfold createSwapchain at h
  split at h
  · cases h
  · simp only [Option.some.injEq] at h
    subst h
    simp [VkWorld.fresh, VK_NULL_HANDLE]

/-- The swapchain calls of a completed `onResize` entered with the resize flag
set: the destruction of the previous swapchain, if there is one, and then one
creation with a null `oldSwapchain`. -/
theorem onResize_swapchainEvents (drv : Driver) (s s' : GraphicsVK) (width height : Int)
    (hflag : s._resized = true) (h : onResize drv s width height = some s') :
    swapchainEvents s'.vk.calls = swapchainEvents s.vk.calls ++
      ((if s._swapchain ≠ VK_NULL_HANDLE then [SwapchainEvent.destroyed s._swapchain]
        else []) ++ [SwapchainEvent.created VK_NULL_HANDLE s'._swapchain]) ∧
    s'._swapchain ≠ VK_NULL_HANDLE := by
  unfold onResize at h
  rw [hflag] at h
  simp only [Bool.not_true, Bool.false_eq_true, if_false] at h
  split at h
  · cases h
  · rename_i s3 hds
    split at h
    · cases h
    · rename_i s4 hdf
      split at h
      · cases h
      · rename_i s8 hbb
        split at h
        · cases h
        · rename_i s10 hdestroyed
          split at h
          · cases h
          · rename_i s11 hsc
            simp only [Option.some.injEq] at h
            subst h
            have k0 : KeepsSwapchain s
                { s with _resized := false, vk := s.vk.call VkCall.vkDeviceWaitIdle } :=
              ⟨rfl, by simp [swapchainEvents_call, swapchainEvent]⟩
            have k8 : KeepsSwapchain s s8 :=
              keepsSwapchain_trans k0 (keepsSwapchain_trans
                (onResize_destroyDepthStencil_keepsSwapchain _) (keepsSwapchain_trans
                (createDepthStencil_keepsSwapchain _ _ _ hds) (keepsSwapchain_trans
                (onResize_destroyFrameBuffers_keepsSwapchain _ _ _ _ hdf) (keepsSwapchain_trans
                (onResize_destroyRenderPass_keepsSwapchain _) (keepsSwapchain_trans
                (createFrameBuffer_keepsSwapchain _)
                (createBackBuffers_keepsSwapchain _ _ hbb))))))
            have e10 := onResize_destroySwapchain_events s8 s10 hdestroyed
            have hnull := (onResize_destroySwapchain_frame s8 s10 hdestroyed).2.2.2.2.1
            have e11 := createSwapchain_events drv s10 s11 hsc
            have k12 : KeepsSwapchain s11 (createCommandBuffers (onResize_freeCommandBuffers s11)) :=
              keepsSwapchain_trans (onResize_freeCommandBuffers_keepsSwapchain _)
                (createCommandBuffers_keepsSwapchain _)
            refine ⟨?_, ?_⟩
            · show swapchainEvents (((createCommandBuffers
                (onResize_freeCommandBuffers s11)).vk.call VkCall.vkDeviceWaitIdle).calls) =
                  _ ++ (_ ++ [SwapchainEvent.created VK_NULL_HANDLE
                    (createCommandBuffers (onResize_freeCommandBuffers s11))._swapchain])
              rw [swapchainEvents_call, k12.2, k12.1, e11, e10, hnull, k8.2, k8.1]
              simp [swapchainEvent]
            · show (createCommandBuffers (onResize_freeCommandBuffers s11))._swapchain ≠ _
              rw [k12.1]
              exact createSwapchain_handle _ _ _ hsc

/-- What the code does in general: a completed `onResize` entered with the
resize flag set and a previous swapchain makes exactly two swapchain calls, in
this order: it destroys the previous swapchain, and then creates the new one
with a create-info whose `oldSwapchain` is `VK_NULL_HANDLE`, so the previous
handle prepared by `createSwapchain` as the hint is never passed. -/
theorem onResize_swapchain_recreation (drv : Driver) (s s' : GraphicsVK) (width height : Int)
    (hflag : s._resized = true) (hprev : s._swapchain ≠ VK_NULL_HANDLE)
    (h : onResize drv s width height = some s') :
    swapchainEvents s'.vk.calls = swapchainEvents s.vk.calls ++
      [SwapchainEvent.destroyed s._swapchain,
       SwapchainEvent.created VK_NULL_HANDLE s'._swapchain] ∧
    s'._swapchain ≠ VK_NULL_HANDLE := by
  obtain ⟨h1, h2⟩ := onResize_swapchainEvents drv s s' width height hflag h
  rw [if_pos hprev] at h1
  exact ⟨h1, h2⟩

/-- The resize after the bring-up on the example implementation is such a
completed call. -/
theorem onResize_swapchain_recreation_witness :
    ∃ s s', onInitialize exampleDriver exampleConfig GraphicsVK.new 1 2 = some s ∧
      onResize exampleDriver s 1024 768 = some s' ∧
      swapchainEvents s'.vk.calls = swapchainEvents s.vk.calls ++
        [SwapchainEvent.destroyed s._swapchain,
         SwapchainEvent.created VK_NULL_HANDLE s'._swapchain] ∧
      s'._swapchain ≠ VK_NULL_HANDLE := by
  have h0 : (onInitialize exampleDriver exampleConfig GraphicsVK.new 1 2).isSome = true := by
    decide
  obtain ⟨s, hs⟩ := Option.isSome_iff_exists.mp h0
  have h1 : ((onInitialize exampleDriver exampleConfig GraphicsVK.new 1 2).bind
      (fun s => onResize exampleDriver s 1024 768)).isSome = true := by decide
  rw [hs] at h1
  obtain ⟨s', hs'⟩ := Option.isSome_iff_exists.mp h1
  have hflag : s._resized = true := by
    have : ((onInitialize exampleDriver exampleConfig GraphicsVK.new 1 2).map
      (fun s => s._resized)) = some true := by decide
    rw [hs] at this
    simpa using this
  have hprev : s._swapchain ≠ VK_NULL_HANDLE := by
    have : ((onInitialize exampleDriver exampleConfig GraphicsVK.new 1 2).map
      (fun s => s._swapchain)) = some 5 := by decide
    rw [hs] at this
    simp only [Option.map_some', Option.some.injEq] at this
    rw [this]; decide
  exact ⟨s, s', hs, hs', onResize_swapchain_recreation exampleDriver s s' 1024 768 hflag hprev hs'⟩

/-- C11 (code defect): bring-up on the example implementation leaves the
swapchain 5; the following resize first destroys swapchain 5 and then creates
swapchain 28 with `oldSwapchain` null, not 5: the hint `createSwapchain` reads
from `_swapchain` has been reset by `onResize` before the call, and the previous
swapchain is destroyed before, not after, the new one is created. -/
theorem onResize_destroys_swapchain_before_creation :
    (onInitialize exampleDriver exampleConfig GraphicsVK.new 1 2).map (fun s => s._swapchain) =
      some 5 ∧
    (onInitialize exampleDriver exampleConfig GraphicsVK.new 1 2).bind
        (fun s => (onResize exampleDriver s 1024 768).map
          (fun s' => swapchainEvents (s'.vk.calls.drop s.vk.calls.length))) =
      some [SwapchainEvent.destroyed 5, SwapchainEvent.created VK_NULL_HANDLE 28] := by
  decide

/-! ### Teardown order (C12) -/

/-- The fence loop of the destructor destroys the elements `i`, ..., `i + n - 1` of
`_fences`, in this order, and changes nothing else. -/
theorem destructor_destroyFences_calls (n i : Nat) (s s' : GraphicsVK)
    (h : destructor_destroyFences n i s = some s') :
    s' = { s with vk := { s.vk with
      calls := s.vk.calls ++ ((s._fences.drop i).take n).map VkCall.vkDestroyFence } } := by
  induction n generalizing i s with
  | zero =>
    simp only [destructor_destroyFences, Option.some.injEq] at h
    subst h
    simp
  | succ n ih =>
    unfold destructor_destroyFences at h
    split at h
    · cases h
    · rename_i fence hf
      have hlt : i < s._fences.length := by
        by_contra hge
        rw [List.getElem?_eq_none (by omega)] at hf
        cases hf
      have hfence : s._fences[i] = fence := by
        rw [List.getElem?_eq_getElem hlt] at hf
        exact Option.some.inj hf
      rw [ih _ _ h, List.drop_eq_getElem_cons hlt, hfence]
      simp [VkWorld.call]

theorem destructor_destroyFrameBuffers_calls (frameBuffers : List Nat) (vk : VkWorld) :
    (destructor_destroyFrameBuffers frameBuffers vk).calls =
      vk.calls ++ frameBuffers.map VkCall.vkDestroyFramebuffer := by
  induction frameBuffers generalizing vk with
  | nil => simp [destructor_destroyFrameBuffers]
  | cons f rest ih =>
    unfold destructor_destroyFrameBuffers
    rw [ih]
    simp [VkWorld.call]

/-- The calls of a completed destructor, in order: one fence per framebuffer,
the command buffers, the render pass, then the framebuffers, the depth-stencil
view, image and memory, the pipeline cache, the command pool, the two
semaphores, the swapchain, the device, the debug callback if there is one, the
surface and the instance.  No call destroys a back-buffer image view. -/
theorem destructor_calls (self : GraphicsVK) (w : VkWorld) (h : destructor self = some w) :
    w.calls = self.vk.calls ++ (VkCall.vkDeviceWaitIdle ::
      ((self._fences.take self._frameBuffers.length).map VkCall.vkDestroyFence ++
      (VkCall.vkFreeCommandBuffers self._commandPool self._commandBuffers ::
       VkCall.vkDestroyRenderPass self._renderPass ::
      (self._frameBuffers.map VkCall.vkDestroyFramebuffer ++
      ([VkCall.vkDestroyImageView self._depthStencilImageView,
        VkCall.vkDestroyImage self._depthStencilImage,
        VkCall.vkFreeMemory self._depthStencilMemory,
        VkCall.vkDestroyPipelineCache self._pipelineCache,
        VkCall.vkDestroyCommandPool self._commandPool,
        VkCall.vkDestroySemaphore self._semaphores.renderComplete,
        VkCall.vkDestroySemaphore self._semaphores.presentComplete,
        VkCall.vkDestroySwapchainKHR self._swapchain,
        VkCall.vkDestroyDevice self._device] ++
      ((if self._debugMessageCallback ≠ VK_NULL_HANDLE then
          [VkCall.vkDestroyDebugReportCallbackEXT self._debugMessageCallback] else []) ++
       [VkCall.vkDestroySurfaceKHR self._surface,
        VkCall.vkDestroyInstance self._instance])))))) := by
  unfold destructor at h
  dsimp only at h
  split at h
  · cases h
  · rename_i self2 h2
    have hf := destructor_destroyFences_calls _ _ _ _ h2
    simp only [Option.some.injEq] at h
    subst h
    subst hf
    dsimp only
    split <;>
      simp [VkWorld.call, destructor_destroyFrameBuffers_calls, List.append_assoc]

/-- C12 (code defect): after the bring-up on the example implementation
(render pass 15, framebuffers 16 and 17, back-buffer views 8 and 9, semaphores
18 and 19, fences 20 and 21) the destructor destroys the fences, then render
pass 15 before its framebuffers 16 and 17, then the depth-stencil target, then
the semaphores, and the only image view it destroys is the depth-stencil view
14: the back-buffer views 8 and 9 are never destroyed. -/
theorem destructor_destroys_render_pass_first :
    (onInitialize exampleDriver exampleConfig GraphicsVK.new 1 2).map
        (fun s => (s._renderPass, s._frameBuffers, s._backBufferImageViews)) =
      some (15, [16, 17], [8, 9]) ∧
    (onInitialize exampleDriver exampleConfig GraphicsVK.new 1 2).map
        (fun s => (s._depthStencilImageView, s._semaphores, s._fences)) =
      some (14, ⟨18, 19⟩, [20, 21]) ∧
    (onInitialize exampleDriver exampleConfig GraphicsVK.new 1 2).bind
        (fun s => (destructor s).map (fun w => w.calls.drop s.vk.calls.length)) =
      some [VkCall.vkDeviceWaitIdle, VkCall.vkDestroyFence 20, VkCall.vkDestroyFence 21,
        VkCall.vkFreeCommandBuffers 4 [10, 11], VkCall.vkDestroyRenderPass 15,
        VkCall.vkDestroyFramebuffer 16, VkCall.vkDestroyFramebuffer 17,
        VkCall.vkDestroyImageView 14, VkCall.vkDestroyImage 12, VkCall.vkFreeMemory 13,
        VkCall.vkDestroyPipelineCache 0, VkCall.vkDestroyCommandPool 4,
        VkCall.vkDestroySemaphore 19, VkCall.vkDestroySemaphore 18,
        VkCall.vkDestroySwapchainKHR 5, VkCall.vkDestroyDevice 2,
        VkCall.vkDestroySurfaceKHR 3, VkCall.vkDestroyInstance 1] ∧
    (onInitialize exampleDriver exampleConfig GraphicsVK.new 1 2).bind
        (fun s => (destructor s).map
          (fun w => destroyedImageViews (w.calls.drop s.vk.calls.length))) =
      some [14] := by
  refine ⟨by decide, by decide, by decide, by decide⟩

/-! ### Format and sample-count tables (C13, C14) -/

/-- C13: the function `toFormat` sends every portable format other than
`FORMAT_UNDEFINED` to a native format other than `VK_FORMAT_UNDEFINED`, sends
distinct portable formats to distinct native formats, and sends
`FORMAT_UNDEFINED` to `VK_FORMAT_UNDEFINED`. -/
theorem toFormat_total_injective :
    (∀ pixelFormat : Format, pixelFormat ≠ Format.FORMAT_UNDEFINED →
      toFormat pixelFormat ≠ VkFormat.VK_FORMAT_UNDEFINED) ∧
    (∀ a b : Format, a ≠ b → toFormat a ≠ toFormat b) ∧
    toFormat Format.FORMAT_UNDEFINED = VkFormat.VK_FORMAT_UNDEFINED := by
  refine ⟨?_, ?_, rfl⟩
  · intro f hf
    cases f <;> first | exact absurd rfl hf | (intro h; cases h)
  · intro a b hab
    cases a <;> cases b <;> first | exact absurd rfl hab | (intro h; cases h)

/-- C14: the function `toSamples` sends `SAMPLE_COUNT_nX` to `VK_SAMPLE_COUNT_n_BIT` for n
in 1, 2, 4, 8, 16, the numeric value of that flag is n, and every other
sample count is sent to `VK_SAMPLE_COUNT_1_BIT`. -/
theorem toSamples_spec :
    toSamples Texture.SAMPLE_COUNT_1X = VK_SAMPLE_COUNT_1_BIT ∧
    toSamples Texture.SAMPLE_COUNT_2X = VK_SAMPLE_COUNT_2_BIT ∧
    toSamples Texture.SAMPLE_COUNT_4X = VK_SAMPLE_COUNT_4_BIT ∧
    toSamples Texture.SAMPLE_COUNT_8X = VK_SAMPLE_COUNT_8_BIT ∧
    toSamples Texture.SAMPLE_COUNT_16X = VK_SAMPLE_COUNT_16_BIT ∧
    VK_SAMPLE_COUNT_1_BIT = 1 ∧ VK_SAMPLE_COUNT_2_BIT = 2 ∧ VK_SAMPLE_COUNT_4_BIT = 4 ∧
    VK_SAMPLE_COUNT_8_BIT = 8 ∧ VK_SAMPLE_COUNT_16_BIT = 16 ∧
    (∀ sampleCount : Texture.SampleCount,
      sampleCount ≠ Texture.SAMPLE_COUNT_1X → sampleCount ≠ Texture.SAMPLE_COUNT_2X →
      sampleCount ≠ Texture.SAMPLE_COUNT_4X → sampleCount ≠ Texture.SAMPLE_COUNT_8X →
      sampleCount ≠ Texture.SAMPLE_COUNT_16X →
      toSamples sampleCount = VK_SAMPLE_COUNT_1_BIT) := by
  refine ⟨rfl, rfl, rfl, rfl, rfl, rfl, rfl, rfl, rfl, rfl, ?_⟩
  intro n h1 h2 h4 h8 h16
  unfold toSamples
  rw [if_neg h1, if_neg h2, if_neg h4, if_neg h8, if_neg h16]

/-! ### Buffer sizes (C15) -/

theorem GP_MATH_ROUNDUP_256 (x : Nat) :
    256 ∣ GP_MATH_ROUNDUP x 256 ∧ x ≤ GP_MATH_ROUNDUP x 256 ∧ GP_MATH_ROUNDUP x 256 < x + 256 ∧
    ∀ m, 256 ∣ m → x ≤ m → GP_MATH_ROUNDUP x 256 ≤ m := by
  unfold GP_MATH_ROUNDUP
  refine ⟨Nat.dvd_mul_left _ _, by omega, by omega, ?_⟩
  intro m hm hx
  obtain ⟨k, rfl⟩ := hm
  omega

theorem createBuffer_result (drv : Driver) (self : GraphicsVK) (usage : Buffer.Usage)
    (size stride : Nat) (hostVisible : Bool) (buffer : BufferVK) (self' : GraphicsVK)
    (h : createBuffer drv self usage size stride hostVisible = some (buffer, self')) :
    buffer.size = createBuffer_size usage size ∧
    buffer.stride = stride ∧ buffer.hostVisible = hostVisible ∧
    self'.vk.calls[self.vk.calls.length]? = some (VkCall.vkCreateBuffer
      (createBuffer_bufferCreateInfo usage (createBuffer_size usage size)) buffer._buffer) := by
  unfold createBuffer at h
  dsimp only at h
  split at h
  · cases h
  · simp only [Option.some.injEq, Prod.mk.injEq] at h
    obtain ⟨hb, hs⟩ := h
    subst hb hs
    refine ⟨rfl, rfl, rfl, ?_⟩
    dsimp only
    refine calls_getElem?_of_extend self.vk _ _ ?_
    exact callsExtend_trans ⟨[], by simp [VkWorld.call, VkWorld.create, VkWorld.fresh]⟩
      (callsExtend_trans (callsExtend_create _ _)
        (callsExtend_trans (callsExtend_call _ _) (callsExtend_mapWhen _ _ _)))

/-- C15 (amended): for a requested size of at most 2^64 - 256, a completed
`createBuffer` passes to `vkCreateBuffer` the size it records on the returned
buffer; with `USAGE_UNIFORM` that size is the least multiple of 256 that is at
least the requested size, and with any other usage it is the requested size. -/
theorem createBuffer_size_rounding (drv : Driver) (self : GraphicsVK) (usage : Buffer.Usage)
    (size stride : Nat) (hostVisible : Bool) (buffer : BufferVK) (self' : GraphicsVK)
    (hsize : size ≤ 2 ^ 64 - 256)
    (h : createBuffer drv self usage size stride hostVisible = some (buffer, self')) :
    (∃ info, self'.vk.calls[self.vk.calls.length]? =
        some (VkCall.vkCreateBuffer info buffer._buffer) ∧ info.size = buffer.size) ∧
    (usage = Buffer.Usage.USAGE_UNIFORM →
      256 ∣ buffer.size ∧ size ≤ buffer.size ∧ ∀ m, 256 ∣ m → size ≤ m → buffer.size ≤ m) ∧
    (usage ≠ Buffer.Usage.USAGE_UNIFORM → buffer.size = size) := by
  obtain ⟨h1, _, _, h4⟩ := createBuffer_result drv self usage size stride hostVisible buffer self' h
  refine ⟨⟨_, h4, ?_⟩, ?_, ?_⟩
  · rw [h1]; rfl
  · intro hu
    obtain ⟨r1, r2, r3, r4⟩ := GP_MATH_ROUNDUP_256 size
    have hlt : GP_MATH_ROUNDUP size 256 < 2 ^ 64 := by omega
    have hsz : buffer.size = GP_MATH_ROUNDUP size 256 := by
      rw [h1]
      unfold createBuffer_size toSizeT
      rw [if_pos hu, Nat.mod_eq_of_lt hlt]
    rw [hsz]
    exact ⟨r1, r2, r4⟩
  · intro hu
    rw [h1]
    unfold createBuffer_size
    rw [if_neg hu]

/-- A uniform buffer of 100 bytes on the example implementation gets 256
bytes. -/
theorem createBuffer_size_rounding_witness :
    ∃ buffer self', createUniformBuffer exampleDriver exampleObject 100 false =
        some (buffer, self') ∧ buffer.size = 256 ∧
      ((∃ info, self'.vk.calls[exampleObject.vk.calls.length]? =
          some (VkCall.vkCreateBuffer info buffer._buffer) ∧ info.size = buffer.size) ∧
      (Buffer.Usage.USAGE_UNIFORM = Buffer.Usage.USAGE_UNIFORM →
        256 ∣ buffer.size ∧ 100 ≤ buffer.size ∧
          ∀ m, 256 ∣ m → 100 ≤ m → buffer.size ≤ m) ∧
      (Buffer.Usage.USAGE_UNIFORM ≠ Buffer.Usage.USAGE_UNIFORM → buffer.size = 100)) := by
  have h0 : (createUniformBuffer exampleDriver exampleObject 100 false).isSome = true := by
    decide
  obtain ⟨⟨buffer, self'⟩, hs⟩ := Option.isSome_iff_exists.mp h0
  have hsz : buffer.size = 256 := by
    have : (createUniformBuffer exampleDriver exampleObject 100 false).map
      (fun r => r.1.size) = some 256 := by decide
    rw [hs] at this
    simpa using this
  exact ⟨buffer, self', hs, hsz,
    createBuffer_size_rounding exampleDriver exampleObject Buffer.Usage.USAGE_UNIFORM 100 100
      false buffer self' (by decide) hs⟩

/-- C15 (counterexample): a uniform buffer of 2^64 - 1 bytes is created and
recorded with size 0, which is not at least the requested size. -/
theorem createBuffer_size_wraps :
    (createBuffer exampleDriver exampleObject Buffer.Usage.USAGE_UNIFORM (2 ^ 64 - 1) 16
        false).map (fun r => (r.1.size, r.2.vk.calls.head?)) =
      some (0, some (VkCall.vkCreateBuffer ⟨0, 0, VK_BUFFER_USAGE_UNIFORM_BUFFER_BIT⟩ 1)) := by
  decide

/-! ### Mip-level clamp (C16) -/

theorem createTexture_allocate_result (drv : Driver) (s : GraphicsVK)
    (type : Texture.Type) (width height depth mipLevels : Nat) (pixelFormat : Format)
    (usage : Texture.Usage) (sampleCount : Texture.SampleCount) (hostVisible : Bool)
    (info : VkImageCreateInfo) (t : TextureVK) (s' : GraphicsVK)
    (h : createTexture_allocate drv s type width height depth mipLevels pixelFormat usage
      sampleCount hostVisible info = some (t, s')) :
    s'.vk.calls[s.vk.calls.length]? = some (VkCall.vkCreateImage info t._image) ∧
    s'.vk.calls.getLast? = some (VkCall.vkCreateImageView
      (createTexture_imageViewCreateInfo type pixelFormat mipLevels t._image) t._imageView) ∧
    t.mipLevels = mipLevels := by
  unfold createTexture_allocate at h
  simp only at h
  split at h
  · cases h
  · simp only [Option.some.injEq, Prod.mk.injEq] at h
    obtain ⟨rfl, rfl⟩ := h
    refine ⟨?_, ?_, rfl⟩
    · dsimp only
      refine calls_getElem?_of_extend s.vk _ _ ?_
      exact callsExtend_trans ⟨[], by simp [VkWorld.call, VkWorld.create, VkWorld.fresh]⟩
        (callsExtend_trans (callsExtend_create _ _)
          (callsExtend_trans (callsExtend_call _ _)
            (callsExtend_trans (callsExtend_mapWhen _ _ _) (callsExtend_create _ _))))
    · simp [VkWorld.create, VkWorld.fresh]

/-- C16 (amended): for a requested mip-level count `m` below 2^32 and a reported
maximum `M` of at least 1, a completed `createTexture` creates the image with
`min m M` mip levels, creates the view of that image with level count
`min m M`, and records `min m M` on the returned texture. -/
theorem createTexture_mipLevels_clamped (drv : Driver) (s : GraphicsVK) (type : Texture.Type)
    (width height depth mipLevels : Nat) (pixelFormat : Format) (usage : Texture.Usage)
    (sampleCount : Texture.SampleCount) (hostVisible : Bool) (maxMipLevels : Nat)
    (t : TextureVK) (s' : GraphicsVK)
    (hm : mipLevels < 2 ^ 32) (hM : 1 ≤ maxMipLevels)
    (hdrv : drv.maxMipLevels
      (createTexture_imageCreateInfo type width height depth mipLevels pixelFormat usage
        sampleCount hostVisible).format
      (createTexture_imageCreateInfo type width height depth mipLevels pixelFormat usage
        sampleCount hostVisible).imageType
      (createTexture_imageCreateInfo type width height depth mipLevels pixelFormat usage
        sampleCount hostVisible).tiling
      (createTexture_imageCreateInfo type width height depth mipLevels pixelFormat usage
        sampleCount hostVisible).usage
      (createTexture_imageCreateInfo type width height depth mipLevels pixelFormat usage
        sampleCount hostVisible).flags = some maxMipLevels)
    (h : createTexture drv s type width height depth mipLevels pixelFormat usage sampleCount
      hostVisible = some (t, s')) :
    ∃ imageInfo viewInfo,
      s'.vk.calls[s.vk.calls.length]? = some (VkCall.vkCreateImage imageInfo t._image) ∧
      imageInfo.mipLevels = min mipLevels maxMipLevels ∧
      s'.vk.calls.getLast? = some (VkCall.vkCreateImageView viewInfo t._imageView) ∧
      viewInfo.image = t._image ∧
      viewInfo.levelCount = min mipLevels maxMipLevels ∧
      t.mipLevels = min mipLevels maxMipLevels := by
  unfold createTexture at h
  simp only at h
  split at h
  · cases h
  · rw [hdrv] at h
    simp only at h
    obtain ⟨h1, h2, h3⟩ := createTexture_allocate_result _ _ _ _ _ _ _ _ _ _ _ _ _ _ h
    have hinfo : (createTexture_imageCreateInfo type width height depth mipLevels pixelFormat
        usage sampleCount hostVisible).mipLevels = mipLevels := by
      simp only [createTexture_imageCreateInfo]
      exact toUInt32_of_lt _ hm
    have hmin : GP_MATH_MIN mipLevels maxMipLevels = min mipLevels maxMipLevels := by
      unfold GP_MATH_MIN
      split <;> omega
    have hclamp : createTexture_mipLevels (createTexture_imageCreateInfo type width height
        depth mipLevels pixelFormat usage sampleCount hostVisible) mipLevels maxMipLevels =
        min mipLevels maxMipLevels := by
      unfold createTexture_mipLevels
      rw [hinfo]
      split
      · exact hmin
      · omega
    have hlt : min mipLevels maxMipLevels < 2 ^ 32 := by omega
    refine ⟨_, _, h1, ?_, h2, rfl, ?_, ?_⟩
    · unfold createTexture_clampedCreateInfo
      rw [hinfo]
      split
      · show toUInt32 _ = _
        rw [hmin, toUInt32_of_lt _ hlt]
      · rw [hinfo]; omega
    · show toUInt32 _ = _
      rw [hclamp, toUInt32_of_lt _ hlt]
    · rw [h3, hclamp]
/-- Ten requested mip levels against a reported maximum of five give five. -/
theorem createTexture_mipLevels_clamped_witness :
    ∃ t s', createTexture exampleDriverFiveMips exampleObject Texture.Type.TYPE_2D 64 64 1 10
        Format.FORMAT_R8G8B8A8_UNORM Texture.USAGE_SAMPLED_IMAGE Texture.SAMPLE_COUNT_1X false =
          some (t, s') ∧
      t.mipLevels = 5 ∧
      ∃ imageInfo viewInfo,
        s'.vk.calls[exampleObject.vk.calls.length]? =
          some (VkCall.vkCreateImage imageInfo t._image) ∧
        imageInfo.mipLevels = min 10 5 ∧
        s'.vk.calls.getLast? = some (VkCall.vkCreateImageView viewInfo t._imageView) ∧
        viewInfo.image = t._image ∧
        viewInfo.levelCount = min 10 5 ∧
        t.mipLevels = min 10 5 := by
  have h0 : (createTexture exampleDriverFiveMips exampleObject Texture.Type.TYPE_2D 64 64 1 10
      Format.FORMAT_R8G8B8A8_UNORM Texture.USAGE_SAMPLED_IMAGE Texture.SAMPLE_COUNT_1X
      false).isSome = true := by decide
  obtain ⟨⟨t, s'⟩, hs⟩ := Option.isSome_iff_exists.mp h0
  have hres := createTexture_mipLevels_clamped exampleDriverFiveMips exampleObject
    Texture.Type.TYPE_2D 64 64 1 10 Format.FORMAT_R8G8B8A8_UNORM Texture.USAGE_SAMPLED_IMAGE
    Texture.SAMPLE_COUNT_1X false 5 t s' (by decide) (by decide) rfl hs
  exact ⟨t, s', hs, by obtain ⟨_, _, _, _, _, _, _, h6⟩ := hres; rw [h6]; rfl, hres⟩

/-- C16 (counterexample): with one requested mip level and a reported maximum
of 0 the image, the view and the texture have 1 mip level, not `min 1 0 = 0`;
with 2^32 + 1 requested and a reported maximum of 5 the image and the view have
1 and the texture records 2^32 + 1, not 5. -/
theorem createTexture_mipLevels_not_clamped :
    (createTexture exampleDriverNoMips exampleObject Texture.Type.TYPE_2D 64 64 1 1
        Format.FORMAT_R8G8B8A8_UNORM Texture.USAGE_SAMPLED_IMAGE Texture.SAMPLE_COUNT_1X
        false).map (fun r => (r.1.mipLevels,
          createdMipLevels r.2.vk.calls)) =
      some (1, [1, 1]) ∧
    (createTexture exampleDriverFiveMips exampleObject Texture.Type.TYPE_2D 64 64 1 (2 ^ 32 + 1)
        Format.FORMAT_R8G8B8A8_UNORM Texture.USAGE_SAMPLED_IMAGE Texture.SAMPLE_COUNT_1X
        false).map (fun r => (r.1.mipLevels,
          createdMipLevels r.2.vk.calls)) =
      some (2 ^ 32 + 1, [1, 1]) := by
  decide

/-! ### Queue families (C17, C18) -/

theorem isFirstIndex_cons_succ {α : Type} (p : α → Prop) (x : α) (l : List α) (k : Nat)
    (hx : ¬ p x) (h : IsFirstIndex p l k) : IsFirstIndex p (x :: l) (k + 1) := by
  obtain ⟨⟨y, hy, hpy⟩, hmin⟩ := h
  refine ⟨⟨y, by simpa using hy, hpy⟩, ?_⟩
  intro j hj z hz
  cases j with
  | zero =>
    simp only [List.getElem?_cons_zero, Option.some.injEq] at hz
    subst hz
    exact hx
  | succ j =>
    simp only [List.getElem?_cons_succ] at hz
    exact hmin j (by omega) z hz

theorem firstIndexFrom_spec {α : Type} (p : α → Bool) (l : List α) (i : Nat) :
    (∀ k, firstIndexFrom p l i = some k →
      i ≤ k ∧ IsFirstIndex (fun x => p x = true) l (k - i)) ∧
    (firstIndexFrom p l i = none → ∀ x ∈ l, ¬ p x = true) := by
  induction l generalizing i with
  | nil =>
    refine ⟨?_, ?_⟩
    · intro k hk
      simp [firstIndexFrom] at hk
    · intro _ x hx
      cases hx
  | cons a rest ih =>
    unfold firstIndexFrom
    by_cases hp : p a = true
    · rw [if_pos hp]
      refine ⟨?_, ?_⟩
      · intro k hk
        simp only [Option.some.injEq] at hk
        subst hk
        refine ⟨le_refl _, ?_⟩
        rw [Nat.sub_self]
        exact ⟨⟨a, by simp, hp⟩, fun j hj => absurd hj (Nat.not_lt_zero j)⟩
      · intro h
        cases h
    · rw [if_neg hp]
      obtain ⟨ih1, ih2⟩ := ih (i + 1)
      refine ⟨?_, ?_⟩
      · intro k hk
        obtain ⟨hle, hfirst⟩ := ih1 k hk
        refine ⟨by omega, ?_⟩
        have hk' : k - i = (k - (i + 1)) + 1 := by omega
        rw [hk']
        exact isFirstIndex_cons_succ _ a rest _ hp hfirst
      · intro h x hx
        rcases List.mem_cons.mp hx with rfl | hx
        · exact hp
        · exact ih2 h x hx

theorem firstIndexFrom_zero {α : Type} (p : α → Bool) (l : List α) :
    (∀ k, firstIndexFrom p l 0 = some k → IsFirstIndex (fun x => p x = true) l k) ∧
    (firstIndexFrom p l 0 = none → ∀ x ∈ l, ¬ p x = true) := by
  obtain ⟨h1, h2⟩ := firstIndexFrom_spec p l 0
  refine ⟨?_, h2⟩
  intro k hk
  have := (h1 k hk).2
  simpa using this

theorem isFirstIndex_congr {α : Type} {p q : α → Prop} (hpq : ∀ x, p x ↔ q x) (l : List α)
    (k : Nat) (h : IsFirstIndex p l k) : IsFirstIndex q l k := by
  obtain ⟨⟨x, hx, hpx⟩, hmin⟩ := h
  exact ⟨⟨x, hx, (hpq x).mp hpx⟩, fun j hj y hy hq => hmin j hj y hy ((hpq y).mpr hq)⟩

/-- C17 (amended): for every queue-family list, a compute request returns the
lowest index of a family that supports compute and not graphics if there is
one, otherwise the lowest index of a family that supports compute if there is
one, and otherwise 0; a graphics request returns the lowest index of a family
that supports graphics if there is one, and otherwise 0. -/
theorem getQueueFamiliyIndex_spec (families : List VkQueueFamilyProperties) :
    ((∃ q ∈ families, q.supports VK_QUEUE_COMPUTE_BIT ∧ ¬ q.supports VK_QUEUE_GRAPHICS_BIT) →
      IsFirstIndex (fun q => q.supports VK_QUEUE_COMPUTE_BIT ∧ ¬ q.supports VK_QUEUE_GRAPHICS_BIT)
        families (getQueueFamiliyIndex families VK_QUEUE_COMPUTE_BIT)) ∧
    ((¬ ∃ q ∈ families, q.supports VK_QUEUE_COMPUTE_BIT ∧ ¬ q.supports VK_QUEUE_GRAPHICS_BIT) →
      (∃ q ∈ families, q.supports VK_QUEUE_COMPUTE_BIT) →
      IsFirstIndex (fun q => q.supports VK_QUEUE_COMPUTE_BIT) families
        (getQueueFamiliyIndex families VK_QUEUE_COMPUTE_BIT)) ∧
    ((¬ ∃ q ∈ families, q.supports VK_QUEUE_COMPUTE_BIT) →
      getQueueFamiliyIndex families VK_QUEUE_COMPUTE_BIT = 0) ∧
    ((∃ q ∈ families, q.supports VK_QUEUE_GRAPHICS_BIT) →
      IsFirstIndex (fun q => q.supports VK_QUEUE_GRAPHICS_BIT) families
        (getQueueFamiliyIndex families VK_QUEUE_GRAPHICS_BIT)) ∧
    ((¬ ∃ q ∈ families, q.supports VK_QUEUE_GRAPHICS_BIT) →
      getQueueFamiliyIndex families VK_QUEUE_GRAPHICS_BIT = 0) := by
  have hc : (VK_QUEUE_COMPUTE_BIT &&& VK_QUEUE_COMPUTE_BIT ≠ 0) := by decide
  have hg : ¬ (VK_QUEUE_GRAPHICS_BIT &&& VK_QUEUE_COMPUTE_BIT ≠ 0) := by decide
  obtain ⟨d1, d2⟩ := firstIndexFrom_zero (fun q : VkQueueFamilyProperties =>
    decide (q.queueFlags &&& VK_QUEUE_COMPUTE_BIT ≠ 0 ∧
      q.queueFlags &&& VK_QUEUE_GRAPHICS_BIT = 0)) families
  obtain ⟨c1, c2⟩ := firstIndexFrom_zero (fun q : VkQueueFamilyProperties =>
    decide (q.queueFlags &&& VK_QUEUE_COMPUTE_BIT ≠ 0)) families
  obtain ⟨g1, g2⟩ := firstIndexFrom_zero (fun q : VkQueueFamilyProperties =>
    decide (q.queueFlags &&& VK_QUEUE_GRAPHICS_BIT ≠ 0)) families
  have hded : ∀ q : VkQueueFamilyProperties,
      (decide (q.queueFlags &&& VK_QUEUE_COMPUTE_BIT ≠ 0 ∧
        q.queueFlags &&& VK_QUEUE_GRAPHICS_BIT = 0) = true) ↔
      (q.supports VK_QUEUE_COMPUTE_BIT ∧ ¬ q.supports VK_QUEUE_GRAPHICS_BIT) := by
    intro q
    simp [VkQueueFamilyProperties.supports]
  have hsup : ∀ (flag : Nat) (q : VkQueueFamilyProperties),
      (decide (q.queueFlags &&& flag ≠ 0) = true) ↔ q.supports flag := by
    intro flag q
    simp [VkQueueFamilyProperties.supports]
  refine ⟨?_, ?_, ?_, ?_, ?_⟩
  · intro hex
    unfold getQueueFamiliyIndex
    simp only [if_pos hc]
    cases hd : firstIndexFrom (fun q : VkQueueFamilyProperties =>
      decide (q.queueFlags &&& VK_QUEUE_COMPUTE_BIT ≠ 0 ∧
        q.queueFlags &&& VK_QUEUE_GRAPHICS_BIT = 0)) families 0 with
    | some k => exact isFirstIndex_congr hded _ _ (d1 k hd)
    | none =>
      obtain ⟨q, hq, hqd⟩ := hex
      exact absurd ((hded q).mpr hqd) (d2 hd q hq)
  · intro hno hex
    unfold getQueueFamiliyIndex
    simp only [if_pos hc]
    cases hd : firstIndexFrom (fun q : VkQueueFamilyProperties =>
      decide (q.queueFlags &&& VK_QUEUE_COMPUTE_BIT ≠ 0 ∧
        q.queueFlags &&& VK_QUEUE_GRAPHICS_BIT = 0)) families 0 with
    | some k =>
      obtain ⟨⟨x, hx, hpx⟩, _⟩ := d1 k hd
      exact absurd ⟨x, List.getElem?_mem hx, (hded x).mp hpx⟩ hno
    | none =>
      simp only
      cases hf : firstIndexFrom (fun q : VkQueueFamilyProperties =>
        decide (q.queueFlags &&& VK_QUEUE_COMPUTE_BIT ≠ 0)) families 0 with
      | some k => exact isFirstIndex_congr (hsup _) _ _ (c1 k hf)
      | none =>
        obtain ⟨q, hq, hqd⟩ := hex
        exact absurd ((hsup _ q).mpr hqd) (c2 hf q hq)
  · intro hno
    unfold getQueueFamiliyIndex
    simp only [if_pos hc]
    cases hd : firstIndexFrom (fun q : VkQueueFamilyProperties =>
      decide (q.queueFlags &&& VK_QUEUE_COMPUTE_BIT ≠ 0 ∧
        q.queueFlags &&& VK_QUEUE_GRAPHICS_BIT = 0)) families 0 with
    | some k =>
      obtain ⟨⟨x, hx, hpx⟩, _⟩ := d1 k hd
      exact absurd ⟨x, List.getElem?_mem hx, ((hded x).mp hpx).1⟩ hno
    | none =>
      simp only
      cases hf : firstIndexFrom (fun q : VkQueueFamilyProperties =>
        decide (q.queueFlags &&& VK_QUEUE_COMPUTE_BIT ≠ 0)) families 0 with
      | some k =>
        obtain ⟨⟨x, hx, hpx⟩, _⟩ := c1 k hf
        exact absurd ⟨x, List.getElem?_mem hx, (hsup _ x).mp hpx⟩ hno
      | none => rfl
  · intro hex
    unfold getQueueFamiliyIndex
    simp only [if_neg hg]
    cases hf : firstIndexFrom (fun q : VkQueueFamilyProperties =>
      decide (q.queueFlags &&& VK_QUEUE_GRAPHICS_BIT ≠ 0)) families 0 with
    | some k => exact isFirstIndex_congr (hsup _) _ _ (g1 k hf)
    | none =>
      obtain ⟨q, hq, hqd⟩ := hex
      exact absurd ((hsup _ q).mpr hqd) (g2 hf q hq)
  · intro hno
    unfold getQueueFamiliyIndex
    simp only [if_neg hg]
    cases hf : firstIndexFrom (fun q : VkQueueFamilyProperties =>
      decide (q.queueFlags &&& VK_QUEUE_GRAPHICS_BIT ≠ 0)) families 0 with
    | some k =>
      obtain ⟨⟨x, hx, hpx⟩, _⟩ := g1 k hf
      exact absurd ⟨x, List.getElem?_mem hx, (hsup _ x).mp hpx⟩ hno
    | none => rfl

/-- C17 (counterexample): a graphics request over a single compute-only family
returns 0, the index of a family that does not support graphics, and a compute
request over a single graphics-only family returns 0 likewise. -/
theorem getQueueFamiliyIndex_without_match :
    getQueueFamiliyIndex [⟨VK_QUEUE_COMPUTE_BIT⟩] VK_QUEUE_GRAPHICS_BIT = 0 ∧
    ¬ (⟨VK_QUEUE_COMPUTE_BIT⟩ : VkQueueFamilyProperties).supports VK_QUEUE_GRAPHICS_BIT ∧
    getQueueFamiliyIndex [⟨VK_QUEUE_GRAPHICS_BIT⟩] VK_QUEUE_COMPUTE_BIT = 0 ∧
    ¬ (⟨VK_QUEUE_GRAPHICS_BIT⟩ : VkQueueFamilyProperties).supports VK_QUEUE_COMPUTE_BIT := by
  refine ⟨by decide, ?_, by decide, ?_⟩ <;>
    simp [VkQueueFamilyProperties.supports, VK_QUEUE_COMPUTE_BIT, VK_QUEUE_GRAPHICS_BIT]
/-- With a graphics-and-compute family, a compute-only family and a graphics-only
family, compute gets the dedicated family 1 and graphics gets family 0. -/
theorem getQueueFamiliyIndex_example :
    getQueueFamiliyIndex [⟨VK_QUEUE_GRAPHICS_BIT ||| VK_QUEUE_COMPUTE_BIT⟩,
      ⟨VK_QUEUE_COMPUTE_BIT⟩, ⟨VK_QUEUE_GRAPHICS_BIT⟩] VK_QUEUE_COMPUTE_BIT = 1 ∧
    getQueueFamiliyIndex [⟨VK_QUEUE_GRAPHICS_BIT ||| VK_QUEUE_COMPUTE_BIT⟩,
      ⟨VK_QUEUE_COMPUTE_BIT⟩, ⟨VK_QUEUE_GRAPHICS_BIT⟩] VK_QUEUE_GRAPHICS_BIT = 0 := by
  decide

theorem isFirstIndex_head {α : Type} (p : α → Prop) (x : α) (l : List α) (k : Nat)
    (hx : p x) (h : IsFirstIndex p (x :: l) k) : k = 0 := by
  by_contra hk
  exact h.2 0 (Nat.pos_of_ne_zero hk) x (by simp) hx

theorem isFirstIndex_tail {α : Type} (p : α → Prop) (x : α) (l : List α) (k : Nat)
    (hx : ¬ p x) (h : IsFirstIndex p (x :: l) k) :
    ∃ k', k = k' + 1 ∧ IsFirstIndex p l k' := by
  obtain ⟨⟨y, hy, hpy⟩, hmin⟩ := h
  cases k with
  | zero =>
    simp only [List.getElem?_cons_zero, Option.some.injEq] at hy
    subst hy
    exact absurd hpy hx
  | succ k' =>
    refine ⟨k', rfl, ⟨y, by simpa using hy, hpy⟩, ?_⟩
    intro j hj z hz
    exact hmin (j + 1) (by omega) z (by simpa using hz)

theorem isFirstIndex_lt {α : Type} (p : α → Prop) (l : List α) (k : Nat)
    (h : IsFirstIndex p l k) : k < l.length := by
  obtain ⟨⟨y, hy, _⟩, _⟩ := h
  by_contra hge
  rw [List.getElem?_eq_none (by omega)] at hy
  cases hy

theorem isFirstIndex_unique {α : Type} (p : α → Prop) (l : List α) (k k' : Nat)
    (h : IsFirstIndex p l k) (h' : IsFirstIndex p l k') : k = k' := by
  obtain ⟨⟨y, hy, hpy⟩, hmin⟩ := h
  obtain ⟨⟨y', hy', hpy'⟩, hmin'⟩ := h'
  rcases Nat.lt_trichotomy k k' with hlt | heq | hgt
  · exact absurd hpy (hmin' k hlt y hy)
  · exact heq
  · exact absurd hpy' (hmin k' hgt y' hy')

theorem isFirstIndex_exists {α : Type} (p : α → Prop) (l : List α)
    (h : ∃ x ∈ l, p x) : ∃ k, IsFirstIndex p l k := by
  classical
  obtain ⟨h1, h2⟩ := firstIndexFrom_zero (fun x => decide (p x)) l
  cases hf : firstIndexFrom (fun x => decide (p x)) l 0 with
  | some k => exact ⟨k, isFirstIndex_congr (fun x => by simp) _ _ (h1 k hf)⟩
  | none =>
    obtain ⟨x, hx, hpx⟩ := h
    exact absurd (by simpa using hpx) (h2 hf x hx)

theorem findGraphicsPresentQueue_found (families : List (VkQueueFamilyProperties × Bool))
    (i : Nat) (idx : QueueNodeIndices) (k : Nat)
    (h : IsFirstIndex SupportsGraphicsAndPresent families k) :
    findGraphicsPresentQueue families i idx = ⟨i + k, i + k⟩ := by
  induction families generalizing i idx k with
  | nil => exact absurd (isFirstIndex_lt _ _ _ h) (Nat.not_lt_zero _)
  | cons f rest ih =>
    obtain ⟨q, sp⟩ := f
    unfold findGraphicsPresentQueue
    by_cases hg : q.queueFlags &&& VK_QUEUE_GRAPHICS_BIT ≠ 0
    · rw [if_pos hg]
      by_cases hsp : sp = true
      · have hk := isFirstIndex_head _ _ _ _ (show SupportsGraphicsAndPresent (q, sp) from
          ⟨hg, hsp⟩) h
        subst hk
        simp [hsp]
      · have hnot : ¬ SupportsGraphicsAndPresent (q, sp) := fun hp => hsp hp.2
        obtain ⟨k', rfl, hk'⟩ := isFirstIndex_tail _ _ _ _ hnot h
        simp only [hsp, Bool.false_eq_true, if_false]
        rw [ih _ _ _ hk']
        simp only [QueueNodeIndices.mk.injEq]
        omega
    · rw [if_neg hg]
      have hnot : ¬ SupportsGraphicsAndPresent (q, sp) := fun hp => hg hp.1
      obtain ⟨k', rfl, hk'⟩ := isFirstIndex_tail _ _ _ _ hnot h
      rw [ih _ _ _ hk']
      simp only [QueueNodeIndices.mk.injEq]
      omega

theorem findGraphicsPresentQueue_skip (q : VkQueueFamilyProperties) (sp : Bool)
    (rest : List (VkQueueFamilyProperties × Bool)) (i : Nat) (idx : QueueNodeIndices)
    (h : ¬ SupportsGraphicsAndPresent (q, sp)) :
    findGraphicsPresentQueue ((q, sp) :: rest) i idx =
      findGraphicsPresentQueue rest (i + 1)
        (if q.queueFlags &&& VK_QUEUE_GRAPHICS_BIT ≠ 0 ∧
            idx.graphicsQueueNodeIndex = UINT32_MAX then
          { idx with graphicsQueueNodeIndex := i } else idx) := by
  rw [findGraphicsPresentQueue]
  by_cases hg : q.queueFlags &&& VK_QUEUE_GRAPHICS_BIT ≠ 0
  · rw [if_pos hg]
    cases sp with
    | true => exact absurd ⟨hg, rfl⟩ h
    | false =>
      simp only [Bool.false_eq_true, if_false]
      by_cases hmax : idx.graphicsQueueNodeIndex = UINT32_MAX
      · rw [if_pos hmax, if_pos ⟨hg, hmax⟩]
      · rw [if_neg hmax, if_neg (fun hc => hmax hc.2)]
  · rw [if_neg hg, if_neg (fun hc => hg hc.1)]

theorem findGraphicsPresentQueue_not_found (families : List (VkQueueFamilyProperties × Bool))
    (i : Nat) (idx : QueueNodeIndices)
    (h : ∀ f ∈ families, ¬ SupportsGraphicsAndPresent f) :
    (findGraphicsPresentQueue families i idx).presentQueueNodeIndex =
      idx.presentQueueNodeIndex ∧
    ((findGraphicsPresentQueue families i idx).graphicsQueueNodeIndex =
        idx.graphicsQueueNodeIndex ∨
      (i ≤ (findGraphicsPresentQueue families i idx).graphicsQueueNodeIndex ∧
        ∃ f, families[(findGraphicsPresentQueue families i idx).graphicsQueueNodeIndex - i]? =
          some f ∧ f.1.supports VK_QUEUE_GRAPHICS_BIT)) := by
  induction families generalizing i idx with
  | nil => exact ⟨rfl, Or.inl rfl⟩
  | cons f rest ih =>
    obtain ⟨q, sp⟩ := f
    have hrest : ∀ f ∈ rest, ¬ SupportsGraphicsAndPresent f :=
      fun f hf => h f (List.mem_cons_of_mem _ hf)
    have hhead := h (q, sp) (List.mem_cons_self _ _)
    rw [findGraphicsPresentQueue_skip q sp rest i idx hhead]
    by_cases hc : q.queueFlags &&& VK_QUEUE_GRAPHICS_BIT ≠ 0 ∧
        idx.graphicsQueueNodeIndex = UINT32_MAX
    · rw [if_pos hc]
      obtain ⟨r1, r2⟩ := ih (i + 1) { idx with graphicsQueueNodeIndex := i } hrest
      refine ⟨r1, Or.inr ?_⟩
      rcases r2 with r2 | ⟨r2, f, hf, hfg⟩
      · rw [r2]
        exact ⟨le_refl _, (q, sp), by simp, hc.1⟩
      · refine ⟨by omega, f, ?_, hfg⟩
        rw [show ∀ n, i + 1 ≤ n → n - i = (n - (i + 1)) + 1 from fun n hn => by omega,
          List.getElem?_cons_succ]
        · exact hf
        · exact r2
    · rw [if_neg hc]
      obtain ⟨r1, r2⟩ := ih (i + 1) idx hrest
      refine ⟨r1, ?_⟩
      rcases r2 with r2 | ⟨r2, f, hf, hfg⟩
      · exact Or.inl r2
      · refine Or.inr ⟨by omega, f, ?_, hfg⟩
        rw [show ∀ n, i + 1 ≤ n → n - i = (n - (i + 1)) + 1 from fun n hn => by omega,
          List.getElem?_cons_succ]
        · exact hf
        · exact r2

theorem createSurface_queueIndex_found (queueProps : List VkQueueFamilyProperties)
    (supportsPresent : List Bool) (k : Nat) (hcount : queueProps.length ≤ UINT32_MAX)
    (h : IsFirstIndex SupportsGraphicsAndPresent (queueProps.zip supportsPresent) k) :
    createSurface_queueIndex queueProps supportsPresent = some k := by
  have hlt := isFirstIndex_lt _ _ _ h
  have hk : k ≠ UINT32_MAX := by
    rw [List.length_zip] at hlt
    omega
  unfold createSurface_queueIndex
  simp only
  rw [findGraphicsPresentQueue_found _ 0 _ k h]
  simp [hk]

theorem createSurface_queueIndex_not_found (queueProps : List VkQueueFamilyProperties)
    (supportsPresent : List Bool)
    (h : ∀ f ∈ queueProps.zip supportsPresent, ¬ SupportsGraphicsAndPresent f) :
    createSurface_queueIndex queueProps supportsPresent = none := by
  obtain ⟨r1, r2⟩ := findGraphicsPresentQueue_not_found _ 0 ⟨UINT32_MAX, UINT32_MAX⟩ h
  obtain ⟨p1, p2⟩ := firstIndexFrom_zero (fun f : VkQueueFamilyProperties × Bool => f.2)
    (queueProps.zip supportsPresent)
  unfold createSurface_queueIndex
  simp only
  generalize findGraphicsPresentQueue (queueProps.zip supportsPresent) 0
    ⟨UINT32_MAX, UINT32_MAX⟩ = idx at r1 r2
  simp only at r1 r2
  rw [if_pos r1]
  rcases r2 with r2 | ⟨_, f, hf, hfg⟩
  · rw [if_pos (Or.inl r2)]
  · cases hfi : firstIndexFrom (fun f : VkQueueFamilyProperties × Bool => f.2)
      (queueProps.zip supportsPresent) 0 with
    | none =>
      dsimp only
      rw [if_pos (Or.inr rfl)]
    | some p =>
      dsimp only
      split
      · rfl
      · obtain ⟨⟨y, hy, hpy⟩, _⟩ := p1 p hfi
        have hne : idx.graphicsQueueNodeIndex ≠ p := by
          intro heq
          rw [Nat.sub_zero, heq, hy] at hf
          simp only [Option.some.injEq] at hf
          subst hf
          exact h y (List.getElem?_mem hy) ⟨hfg, hpy⟩
        rw [if_pos hne]

/-- C18: for queue families counted by a `uint32_t`, the present-queue
discovery of `createSurface` raises the fatal error if and only if no family
supports both graphics and presentation, `createSurface` fails whenever the
discovery does, and after a completed `createSurface` the member `_queueIndex`
is the lowest index of a family that supports both. -/
theorem createSurface_present_queue (drv : Driver)
    (hcount : drv.queueProps.length ≤ UINT32_MAX) :
    (createSurface_queueIndex drv.queueProps drv.supportsPresent = none ↔
      ¬ ∃ f ∈ drv.queueProps.zip drv.supportsPresent, SupportsGraphicsAndPresent f) ∧
    (∀ self window connection,
      createSurface_queueIndex drv.queueProps drv.supportsPresent = none →
      createSurface drv self window connection = none) ∧
    (∀ self window connection self',
      createSurface drv self window connection = some self' →
      IsFirstIndex SupportsGraphicsAndPresent (drv.queueProps.zip drv.supportsPresent)
        self'._queueIndex) := by
  have hchar : ∀ k, createSurface_queueIndex drv.queueProps drv.supportsPresent = some k →
      IsFirstIndex SupportsGraphicsAndPresent (drv.queueProps.zip drv.supportsPresent) k := by
    intro k hk
    by_cases hex : ∃ f ∈ drv.queueProps.zip drv.supportsPresent, SupportsGraphicsAndPresent f
    · obtain ⟨k', hk'⟩ := isFirstIndex_exists _ _ hex
      have := createSurface_queueIndex_found _ _ k' hcount hk'
      rw [this] at hk
      simp only [Option.some.injEq] at hk
      subst hk
      exact hk'
    · have := createSurface_queueIndex_not_found drv.queueProps drv.supportsPresent
        (fun f hf hp => hex ⟨f, hf, hp⟩)
      rw [this] at hk
      cases hk
  refine ⟨⟨?_, ?_⟩, ?_, ?_⟩
  · intro hnone hex
    obtain ⟨k', hk'⟩ := isFirstIndex_exists _ _ hex
    rw [createSurface_queueIndex_found _ _ k' hcount hk'] at hnone
    cases hnone
  · intro hex
    exact createSurface_queueIndex_not_found _ _ (fun f hf hp => hex ⟨f, hf, hp⟩)
  · intro self window connection hnone
    unfold createSurface
    dsimp only
    split
    · rfl
    · rw [hnone]
  · intro self window connection self' h
    unfold createSurface at h
    dsimp only at h
    split at h
    · cases h
    · split at h
      · cases h
      · rename_i queueIndex hq
        split at h
        · cases h
        · simp only [Option.some.injEq] at h
          subst h
          exact hchar _ hq

/-- The example implementation has one queue family. -/
theorem createSurface_present_queue_witness :
    exampleDriver.queueProps.length ≤ UINT32_MAX ∧
    ((createSurface_queueIndex exampleDriver.queueProps exampleDriver.supportsPresent = none ↔
      ¬ ∃ f ∈ exampleDriver.queueProps.zip exampleDriver.supportsPresent,
        SupportsGraphicsAndPresent f) ∧
    (∀ self window connection,
      createSurface_queueIndex exampleDriver.queueProps exampleDriver.supportsPresent = none →
      createSurface exampleDriver self window connection = none) ∧
    (∀ self window connection self',
      createSurface exampleDriver self window connection = some self' →
      IsFirstIndex SupportsGraphicsAndPresent
        (exampleDriver.queueProps.zip exampleDriver.supportsPresent) self'._queueIndex)) :=
  ⟨by decide, createSurface_present_queue exampleDriver (by decide)⟩

/-- With present support on families 0 and 2 and graphics on families 1 and 2
the discovery returns 2; with no family supporting both it fails; on the
example implementation `createSurface` stores 0. -/
theorem createSurface_queueIndex_examples :
    createSurface_queueIndex [⟨VK_QUEUE_COMPUTE_BIT⟩, ⟨VK_QUEUE_GRAPHICS_BIT⟩,
      ⟨VK_QUEUE_GRAPHICS_BIT ||| VK_QUEUE_COMPUTE_BIT⟩] [true, false, true] = some 2 ∧
    createSurface_queueIndex [⟨VK_QUEUE_COMPUTE_BIT⟩, ⟨VK_QUEUE_GRAPHICS_BIT⟩]
      [true, false] = none ∧
    (createSurface exampleDriver GraphicsVK.new 1 2).map (fun s => s._queueIndex) = some 0 := by
  decide

/-! ### The resize guard (C19, C20) -/

/-- The calls of a completed `onResize` entered with the resize flag set start
and end with `vkDeviceWaitIdle`. -/
theorem onResize_brackets (drv : Driver) (s s' : GraphicsVK) (width height : Int)
    (hflag : s._resized = true) (h : onResize drv s width height = some s') :
    ∃ middle, s'.vk.calls =
      s.vk.calls ++ [VkCall.vkDeviceWaitIdle] ++ middle ++ [VkCall.vkDeviceWaitIdle] := by
  unfold onResize at h
  rw [hflag] at h
  simp only [Bool.not_true, Bool.false_eq_true, if_false] at h
  split at h
  · cases h
  · rename_i s3 hds
    split at h
    · cases h
    · rename_i s4 hdf
      split at h
      · cases h
      · rename_i s8 hbb
        split at h
        · cases h
        · rename_i s10 hdestroyed
          split at h
          · cases h
          · rename_i s11 hsc
            simp only [Option.some.injEq] at h
            subst h
            have d7 := (onResize_destroyDepthStencil_frame
              { s with _resized := false, vk := s.vk.call VkCall.vkDeviceWaitIdle }).2.2.2.2.2.2
            have a8 := createDepthStencil_calls _ _ _ hds
            have b6 := onResize_destroyFrameBuffers_calls _ _ _ _ hdf
            have r6 := (onResize_destroyRenderPass_frame s4).2.2.2.2.2
            have c7 := createBackBuffersLoop_calls _ _ _ _ hbb
            have e6 := (onResize_destroySwapchain_frame s8 s10 hdestroyed).2.2.2.2.2
            have f5 := createSwapchain_calls _ _ _ hsc
            have hall : CallsExtend (s.vk.call VkCall.vkDeviceWaitIdle)
                (createCommandBuffers (onResize_freeCommandBuffers s11)).vk :=
              callsExtend_trans d7 (callsExtend_trans a8 (callsExtend_trans b6
                (callsExtend_trans r6 (callsExtend_trans (callsExtend_create _ _)
                (callsExtend_trans c7 (callsExtend_trans e6 (callsExtend_trans f5
                (callsExtend_trans (callsExtend_call _ _) ⟨_, rfl⟩))))))))
            obtain ⟨middle, hm⟩ := hall
            refine ⟨middle, ?_⟩
            show ((createCommandBuffers (onResize_freeCommandBuffers s11)).vk.call
              VkCall.vkDeviceWaitIdle).calls = _
            simp only [VkWorld.call]
            rw [hm]
            rfl

/-- C19: with the resize flag not set, `onResize` returns the state unchanged,
call log included, whatever `width` and `height` are; with the flag set, a
completed `onResize` has run the resize protocol (a wait for the device, a new
depth-stencil image, the destruction of the previous swapchain if there is
one, one new swapchain, a final wait) and leaves the flag set. -/
theorem onResize_guard (drv : Driver) (s : GraphicsVK) (width height : Int) :
    (s._resized = false → onResize drv s width height = some s) ∧
    (s._resized = true → ∀ s', onResize drv s width height = some s' →
      s'._resized = true ∧
      (∃ middle, s'.vk.calls =
        s.vk.calls ++ [VkCall.vkDeviceWaitIdle] ++ middle ++ [VkCall.vkDeviceWaitIdle]) ∧
      (∃ k info image, s.vk.calls.length ≤ k ∧
        s'.vk.calls[k]? = some (VkCall.vkCreateImage info image) ∧
        info.usage = VK_IMAGE_USAGE_DEPTH_STENCIL_ATTACHMENT_BIT) ∧
      swapchainEvents s'.vk.calls = swapchainEvents s.vk.calls ++
        ((if s._swapchain ≠ VK_NULL_HANDLE then [SwapchainEvent.destroyed s._swapchain]
          else []) ++ [SwapchainEvent.created VK_NULL_HANDLE s'._swapchain])) := by
  refine ⟨?_, ?_⟩
  · intro hflag
    unfold onResize
    rw [hflag]
    rfl
  · intro hflag s' h
    obtain ⟨c1, _, _, _, _, _, ⟨k, info, image, c7, c8, c9, _⟩⟩ :=
      onResize_completed drv s s' width height hflag h
    exact ⟨c1, onResize_brackets drv s s' width height hflag h, ⟨k, info, image, c7, c8, c9⟩,
      (onResize_swapchainEvents drv s s' width height hflag h).1⟩

/-- Before the bring-up the flag is not set and `onResize` does nothing; after
the bring-up on the example implementation the flag is set and `onResize`
completes with 23 calls and the flag set again. -/
theorem onResize_guard_example :
    onResize exampleDriver GraphicsVK.new 1024 768 = some GraphicsVK.new ∧
    ((onInitialize exampleDriver exampleConfig GraphicsVK.new 1 2).bind
        (fun s => (onResize exampleDriver s 1024 768).map
          (fun s' => (s._resized, s'._resized, s'.vk.calls.length - s.vk.calls.length)))) =
      some (true, true, 23) := by
  decide

theorem onResize_changes_state (drv : Driver) (s s' : GraphicsVK) (width height : Int)
    (hflag : s._resized = true) (h : onResize drv s width height = some s') : s' ≠ s := by
  obtain ⟨middle, hm⟩ := onResize_brackets drv s s' width height hflag h
  intro heq
  rw [heq] at hm
  have := congrArg List.length hm
  simp only [List.length_append, List.length_cons, List.length_nil] at this
  omega

/-- C20 (amended): in every state reached right after a bring-up by
`onInitialize`, or right after a completed `onResize` that was entered with the
resize flag set, the flag is set, so a further `onResize` never returns the
state unchanged: when it completes it has run the resize protocol again
(a wait for the device, a new depth-stencil image, the destruction of the
previous swapchain if there is one, one new swapchain, a final wait). -/
theorem onResize_runs_again (drv : Driver) (s : GraphicsVK) (width height : Int)
    (hreach : (∃ drv0 config s0 window connection, s0._initialized = false ∧
        onInitialize drv0 config s0 window connection = some s) ∨
      (∃ drv0 s0 width0 height0, s0._resized = true ∧
        onResize drv0 s0 width0 height0 = some s)) :
    s._resized = true ∧
    onResize drv s width height ≠ some s ∧
    (∀ s', onResize drv s width height = some s' →
      s'._resized = true ∧
      (∃ middle, s'.vk.calls =
        s.vk.calls ++ [VkCall.vkDeviceWaitIdle] ++ middle ++ [VkCall.vkDeviceWaitIdle]) ∧
      (∃ k info image, s.vk.calls.length ≤ k ∧
        s'.vk.calls[k]? = some (VkCall.vkCreateImage info image) ∧
        info.usage = VK_IMAGE_USAGE_DEPTH_STENCIL_ATTACHMENT_BIT) ∧
      swapchainEvents s'.vk.calls = swapchainEvents s.vk.calls ++
        ((if s._swapchain ≠ VK_NULL_HANDLE then [SwapchainEvent.destroyed s._swapchain]
          else []) ++ [SwapchainEvent.created VK_NULL_HANDLE s'._swapchain])) := by
  have hflag : s._resized = true := by
    rcases hreach with ⟨drv0, config, s0, window, connection, hinit, h0⟩ |
      ⟨drv0, s0, width0, height0, hflag0, h0⟩
    · exact (onInitialize_completed drv0 config s0 s window connection hinit h0).2.1
    · exact (onResize_completed drv0 s0 s width0 height0 hflag0 h0).1
  refine ⟨hflag, ?_, ?_⟩
  · intro h
    exact onResize_changes_state drv s s width height hflag h rfl
  · intro s' h
    obtain ⟨c1, _, _, _, _, _, ⟨k, info, image, c7, c8, c9, _⟩⟩ :=
      onResize_completed drv s s' width height hflag h
    exact ⟨c1, onResize_brackets drv s s' width height hflag h, ⟨k, info, image, c7, c8, c9⟩,
      (onResize_swapchainEvents drv s s' width height hflag h).1⟩

/-- The state after the bring-up on the example implementation is such a
state, and the further `onResize` completes. -/
theorem onResize_runs_again_witness :
    ∃ s, onInitialize exampleDriver exampleConfig GraphicsVK.new 1 2 = some s ∧
      (onResize exampleDriver s 800 600).isSome = true ∧
      s._resized = true ∧
      onResize exampleDriver s 800 600 ≠ some s ∧
      (∀ s', onResize exampleDriver s 800 600 = some s' →
        s'._resized = true ∧
        (∃ middle, s'.vk.calls =
          s.vk.calls ++ [VkCall.vkDeviceWaitIdle] ++ middle ++ [VkCall.vkDeviceWaitIdle]) ∧
        (∃ k info image, s.vk.calls.length ≤ k ∧
          s'.vk.calls[k]? = some (VkCall.vkCreateImage info image) ∧
          info.usage = VK_IMAGE_USAGE_DEPTH_STENCIL_ATTACHMENT_BIT) ∧
        swapchainEvents s'.vk.calls = swapchainEvents s.vk.calls ++
          ((if s._swapchain ≠ VK_NULL_HANDLE then [SwapchainEvent.destroyed s._swapchain]
            else []) ++ [SwapchainEvent.created VK_NULL_HANDLE s'._swapchain])) := by
  have h0 : (onInitialize exampleDriver exampleConfig GraphicsVK.new 1 2).isSome = true := by
    decide
  obtain ⟨s, hs⟩ := Option.isSome_iff_exists.mp h0
  have h1 : ((onInitialize exampleDriver exampleConfig GraphicsVK.new 1 2).bind
      (fun s => onResize exampleDriver s 800 600)).isSome = true := by decide
  rw [hs] at h1
  exact ⟨s, hs, h1, onResize_runs_again exampleDriver s 800 600
    (Or.inl ⟨exampleDriver, exampleConfig, GraphicsVK.new, 1, 2, rfl, hs⟩)⟩

/-- C20 (counterexample): right after the bring-up on the example
implementation the flag is set and `onResize` makes 23 calls, replacing
swapchain 5 by 28 and depth-stencil image 12 by 22; right after that completed
`onResize` a further one makes 23 calls again, replacing swapchain 28 by 41 and
depth-stencil image 22 by 35. -/
theorem onResize_not_idempotent :
    (onInitialize exampleDriver exampleConfig GraphicsVK.new 1 2).bind
        (fun s => (onResize exampleDriver s 800 600).map
          (fun s' => (s._resized, s'.vk.calls.length - s.vk.calls.length,
            [s._swapchain, s'._swapchain, s._depthStencilImage, s'._depthStencilImage]))) =
      some (true, 23, [5, 28, 12, 22]) ∧
    (onInitialize exampleDriver exampleConfig GraphicsVK.new 1 2).bind
        (fun s => (onResize exampleDriver s 800 600).bind (fun s1 =>
          (onResize exampleDriver s1 800 600).map
            (fun s' => (s1._resized, s'.vk.calls.length - s1.vk.calls.length,
              [s1._swapchain, s'._swapchain, s1._depthStencilImage, s'._depthStencilImage])))) =
      some (true, 23, [28, 41, 22, 35]) := by
  decide

/-! ### Depth-stencil format (C21) -/

theorem find?_isFirstIndex {α : Type} (p : α → Bool) (l : List α) :
    (∀ x, l.find? p = some x →
      ∃ k, IsFirstIndex (fun y => p y = true) l k ∧ l[k]? = some x) ∧
    (l.find? p = none → ∀ x ∈ l, ¬ p x = true) := by
  induction l with
  | nil =>
    refine ⟨?_, ?_⟩
    · intro x hx
      simp at hx
    · intro _ x hx
      cases hx
  | cons a rest ih =>
    obtain ⟨ih1, ih2⟩ := ih
    by_cases hp : p a = true
    · refine ⟨?_, ?_⟩
      · intro x hx
        rw [List.find?_cons_of_pos _ hp] at hx
        simp only [Option.some.injEq] at hx
        subst hx
        exact ⟨0, ⟨⟨a, by simp, hp⟩, fun j hj => absurd hj (Nat.not_lt_zero j)⟩, by simp⟩
      · intro h
        rw [List.find?_cons_of_pos _ hp] at h
        cases h
    · refine ⟨?_, ?_⟩
      · intro x hx
        rw [List.find?_cons_of_neg _ hp] at hx
        obtain ⟨k, hk, hkx⟩ := ih1 x hx
        exact ⟨k + 1, isFirstIndex_cons_succ _ a rest k hp hk, by simpa using hkx⟩
      · intro h x hx
        rw [List.find?_cons_of_neg _ hp] at h
        rcases List.mem_cons.mp hx with rfl | hx
        · exact hp
        · exact ih2 h x hx

/-- C21: the function `getDepthStencilFormat` goes through the preference list
D32_SFLOAT_S8_UINT, D32_SFLOAT, D24_UNORM_S8_UINT, D16_UNORM_S8_UINT, D16_UNORM;
if a format of the list is supported as depth-stencil attachment with optimal
tiling it returns true with the first such format, it returns false exactly
when none is, then the output format keeps its value, and `createDepthStencil`
aborts. -/
theorem getDepthStencilFormat_spec (drv : Driver) (depthStencilFormat : VkFormat) :
    depthStencilFormats =
      [VkFormat.VK_FORMAT_D32_SFLOAT_S8_UINT, VkFormat.VK_FORMAT_D32_SFLOAT,
       VkFormat.VK_FORMAT_D24_UNORM_S8_UINT, VkFormat.VK_FORMAT_D16_UNORM_S8_UINT,
       VkFormat.VK_FORMAT_D16_UNORM] ∧
    ((∃ format ∈ depthStencilFormats, drv.supportsDepthStencil format) →
      ∃ k format, IsFirstIndex drv.supportsDepthStencil depthStencilFormats k ∧
        depthStencilFormats[k]? = some format ∧
        getDepthStencilFormat drv depthStencilFormat = (true, format)) ∧
    ((getDepthStencilFormat drv depthStencilFormat).1 = false ↔
      ∀ format ∈ depthStencilFormats, ¬ drv.supportsDepthStencil format) ∧
    ((getDepthStencilFormat drv depthStencilFormat).1 = false →
      (getDepthStencilFormat drv depthStencilFormat).2 = depthStencilFormat) ∧
    (∀ self : GraphicsVK, (getDepthStencilFormat drv self._depthStencilFormat).1 = false →
      createDepthStencil drv self = none) := by
  obtain ⟨f1, f2⟩ := find?_isFirstIndex (fun format =>
    decide ((drv.formatProperties format).optimalTilingFeatures &&&
      VK_FORMAT_FEATURE_DEPTH_STENCIL_ATTACHMENT_BIT ≠ 0)) depthStencilFormats
  have hiff : ∀ format : VkFormat,
      (decide ((drv.formatProperties format).optimalTilingFeatures &&&
        VK_FORMAT_FEATURE_DEPTH_STENCIL_ATTACHMENT_BIT ≠ 0) = true) ↔
      drv.supportsDepthStencil format := by
    intro format
    simp [Driver.supportsDepthStencil]
  refine ⟨rfl, ?_, ?_, ?_, ?_⟩
  · intro hex
    unfold getDepthStencilFormat
    cases hf : depthStencilFormats.find? (fun format =>
      decide ((drv.formatProperties format).optimalTilingFeatures &&&
        VK_FORMAT_FEATURE_DEPTH_STENCIL_ATTACHMENT_BIT ≠ 0)) with
    | some format =>
      obtain ⟨k, hk, hkx⟩ := f1 format hf
      exact ⟨k, format, isFirstIndex_congr hiff _ _ hk, hkx, rfl⟩
    | none =>
      obtain ⟨format, hmem, hsup⟩ := hex
      exact absurd ((hiff format).mpr hsup) (f2 hf format hmem)
  · unfold getDepthStencilFormat
    cases hf : depthStencilFormats.find? (fun format =>
      decide ((drv.formatProperties format).optimalTilingFeatures &&&
        VK_FORMAT_FEATURE_DEPTH_STENCIL_ATTACHMENT_BIT ≠ 0)) with
    | some format =>
      obtain ⟨k, ⟨⟨x, hx, hpx⟩, _⟩, _⟩ := f1 format hf
      constructor
      · intro h
        cases h
      · intro h
        exact absurd ((hiff x).mp hpx) (h x (List.getElem?_mem hx))
    | none =>
      constructor
      · intro _ format hmem hsup
        exact f2 hf format hmem ((hiff format).mpr hsup)
      · intro _
        rfl
  · unfold getDepthStencilFormat
    cases hf : depthStencilFormats.find? (fun format =>
      decide ((drv.formatProperties format).optimalTilingFeatures &&&
        VK_FORMAT_FEATURE_DEPTH_STENCIL_ATTACHMENT_BIT ≠ 0)) with
    | some format =>
      intro h
      cases h
    | none =>
      intro _
      rfl
  · intro self h
    unfold createDepthStencil
    simp only
    rw [if_pos h]

/-- With D24_UNORM_S8_UINT and D16_UNORM supported the first of the two is chosen;
with nothing supported the result is false and the format is unchanged. -/
theorem getDepthStencilFormat_example :
    getDepthStencilFormat { exampleDriver with
      formatProperties := fun format =>
        if format = VkFormat.VK_FORMAT_D24_UNORM_S8_UINT ∨ format = VkFormat.VK_FORMAT_D16_UNORM
        then ⟨0, VK_FORMAT_FEATURE_DEPTH_STENCIL_ATTACHMENT_BIT, 0⟩ else ⟨0, 0, 0⟩ }
      VkFormat.VK_FORMAT_UNDEFINED = (true, VkFormat.VK_FORMAT_D24_UNORM_S8_UINT) ∧
    getDepthStencilFormat { exampleDriver with formatProperties := fun _ => ⟨0, 0, 0⟩ }
      VkFormat.VK_FORMAT_UNDEFINED = (false, VkFormat.VK_FORMAT_UNDEFINED) := by
  decide

/-! ### Texture aspect and format check (C22, C23, C30) -/

theorem createTexture_view (drv : Driver) (s : GraphicsVK) (type : Texture.Type)
    (width height depth mipLevels : Nat) (pixelFormat : Format) (usage : Texture.Usage)
    (sampleCount : Texture.SampleCount) (hostVisible : Bool) (t : TextureVK) (s' : GraphicsVK)
    (h : createTexture drv s type width height depth mipLevels pixelFormat usage sampleCount
      hostVisible = some (t, s')) :
    ∃ viewInfo, s'.vk.calls.getLast? = some (VkCall.vkCreateImageView viewInfo t._imageView) ∧
      viewInfo.image = t._image ∧
      viewInfo.aspectMask = toImageAspectFlags (toFormat pixelFormat) ∧
      t._imageAspectFlags = toImageAspectFlags (toFormat pixelFormat) ∧
      createTexture_supportFlags drv (createTexture_imageCreateInfo type width height depth
        mipLevels pixelFormat usage sampleCount hostVisible) hostVisible ≠ 0 := by
  unfold createTexture at h
  simp only at h
  split at h
  · cases h
  · rename_i hflags
    split at h
    · cases h
    · obtain ⟨_, h2, _⟩ := createTexture_allocate_result _ _ _ _ _ _ _ _ _ _ _ _ _ _ h
      refine ⟨_, h2, rfl, rfl, ?_, hflags⟩
      unfold createTexture_allocate at h
      simp only at h
      split at h
      · cases h
      · simp only [Option.some.injEq, Prod.mk.injEq] at h
        obtain ⟨rfl, _⟩ := h
        rfl

/-- C22: for every portable format the aspect mask `toImageAspectFlags (toFormat f)`
is DEPTH for D16_UNORM, X8_D24_UNORM_PACK32 and D32_FLOAT, STENCIL for S8_UINT,
DEPTH or-ed with STENCIL for D16_UNORM_S8_UINT, D24_UNORM_S8_UINT and
D32_FLOAT_S8_UINT, and COLOR for every other format; and it is the aspect mask
of the view a completed `createTexture` creates for its image. -/
theorem createTexture_aspectMask :
    (∀ f : Format, toImageAspectFlags (toFormat f) =
      if f = Format.FORMAT_D16_UNORM ∨ f = Format.FORMAT_X8_D24_UNORM_PACK32 ∨
          f = Format.FORMAT_D32_FLOAT then VK_IMAGE_ASPECT_DEPTH_BIT
      else if f = Format.FORMAT_S8_UINT then VK_IMAGE_ASPECT_STENCIL_BIT
      else if f = Format.FORMAT_D16_UNORM_S8_UINT ∨ f = Format.FORMAT_D24_UNORM_S8_UINT ∨
          f = Format.FORMAT_D32_FLOAT_S8_UINT then
        VK_IMAGE_ASPECT_DEPTH_BIT ||| VK_IMAGE_ASPECT_STENCIL_BIT
      else VK_IMAGE_ASPECT_COLOR_BIT) ∧
    (∀ (drv : Driver) (s : GraphicsVK) (type : Texture.Type)
      (width height depth mipLevels : Nat) (pixelFormat : Format) (usage : Texture.Usage)
      (sampleCount : Texture.SampleCount) (hostVisible : Bool) (t : TextureVK)
      (s' : GraphicsVK),
      createTexture drv s type width height depth mipLevels pixelFormat usage sampleCount
        hostVisible = some (t, s') →
      ∃ viewInfo,
        s'.vk.calls.getLast? = some (VkCall.vkCreateImageView viewInfo t._imageView) ∧
        viewInfo.image = t._image ∧
        viewInfo.aspectMask = toImageAspectFlags (toFormat pixelFormat)) := by
  refine ⟨?_, ?_⟩
  · intro f
    cases f <;> decide
  · intro drv s type width height depth mipLevels pixelFormat usage sampleCount hostVisible
      t s' h
    obtain ⟨viewInfo, h1, h2, h3, _⟩ := createTexture_view drv s type width height depth mipLevels
      pixelFormat usage sampleCount hostVisible t s' h
    exact ⟨viewInfo, h1, h2, h3⟩

/-- A D24_UNORM_S8_UINT texture on the example implementation gets the depth and
stencil aspects. -/
theorem createTexture_aspectMask_example :
    (createTexture2d exampleDriver exampleObject 64 64 1 Format.FORMAT_D24_UNORM_S8_UINT
        Texture.USAGE_DEPTH_STENCIL_ATTACHMENT Texture.SAMPLE_COUNT_1X false).map
        (fun r => r.1._imageAspectFlags) =
      some (VK_IMAGE_ASPECT_DEPTH_BIT ||| VK_IMAGE_ASPECT_STENCIL_BIT) := by
  decide

/-- C23 (amended): when the feature set reported for the selected tiling (linear
for a host-visible texture, optimal otherwise) has none of the format features
required by the image usage, `createTexture` aborts; so a created texture has at
least one required feature supported. -/
theorem createTexture_format_check (drv : Driver) (s : GraphicsVK) (type : Texture.Type)
    (width height depth mipLevels : Nat) (pixelFormat : Format) (usage : Texture.Usage)
    (sampleCount : Texture.SampleCount) (hostVisible : Bool) :
    (drv.tilingFeatures (toFormat pixelFormat) hostVisible &&&
        toFormatFeatureFlags (createTexture_imageCreateInfo type width height depth mipLevels
          pixelFormat usage sampleCount hostVisible).usage = 0 →
      createTexture drv s type width height depth mipLevels pixelFormat usage sampleCount
        hostVisible = none) ∧
    (∀ t s', createTexture drv s type width height depth mipLevels pixelFormat usage
        sampleCount hostVisible = some (t, s') →
      drv.tilingFeatures (toFormat pixelFormat) hostVisible &&&
        toFormatFeatureFlags (createTexture_imageCreateInfo type width height depth mipLevels
          pixelFormat usage sampleCount hostVisible).usage ≠ 0) := by
  have hflags : createTexture_supportFlags drv (createTexture_imageCreateInfo type width height
      depth mipLevels pixelFormat usage sampleCount hostVisible) hostVisible =
      drv.tilingFeatures (toFormat pixelFormat) hostVisible &&&
        toFormatFeatureFlags (createTexture_imageCreateInfo type width height depth mipLevels
          pixelFormat usage sampleCount hostVisible).usage := by
    unfold createTexture_supportFlags Driver.tilingFeatures
    cases hostVisible <;> rfl
  refine ⟨?_, ?_⟩
  · intro h0
    unfold createTexture
    simp only
    rw [if_pos (by rw [hflags]; exact h0)]
  · intro t s' h
    rw [← hflags]
    exact (createTexture_view drv s type width height depth mipLevels pixelFormat usage
      sampleCount hostVisible t s' h).choose_spec.2.2.2.2

/-- C23 (counterexample): on an implementation whose formats support sampled
images only, a texture with the usage sampled plus colour attachment requires
the features sampled-image and colour-attachment, the colour-attachment feature
is not reported, and the texture is created all the same. -/
theorem createTexture_partial_support :
    (exampleDriverSampledOnly.tilingFeatures (toFormat Format.FORMAT_R8G8B8A8_UNORM) false &&&
      VK_FORMAT_FEATURE_COLOR_ATTACHMENT_BIT = 0) ∧
    (toFormatFeatureFlags (createTexture_imageCreateInfo Texture.Type.TYPE_2D 64 64 1 1
      Format.FORMAT_R8G8B8A8_UNORM (Texture.USAGE_SAMPLED_IMAGE ||| Texture.USAGE_COLOR_ATTACHMENT)
      Texture.SAMPLE_COUNT_1X false).usage =
        VK_FORMAT_FEATURE_SAMPLED_IMAGE_BIT ||| VK_FORMAT_FEATURE_COLOR_ATTACHMENT_BIT) ∧
    (createTexture exampleDriverSampledOnly exampleObject Texture.Type.TYPE_2D 64 64 1 1
      Format.FORMAT_R8G8B8A8_UNORM (Texture.USAGE_SAMPLED_IMAGE ||| Texture.USAGE_COLOR_ATTACHMENT)
      Texture.SAMPLE_COUNT_1X false).isSome = true := by
  decide

/-- A usage with none of sampled, storage, colour attachment and depth-stencil
attachment requires no format feature. -/
theorem toFormatFeatureFlags_transfer_only (usage : Texture.Usage)
    (hsampled : Texture.USAGE_SAMPLED_IMAGE ≠ usage &&& Texture.USAGE_SAMPLED_IMAGE)
    (hstorage : Texture.USAGE_STORAGE ≠ usage &&& Texture.USAGE_STORAGE)
    (hcolor : Texture.USAGE_COLOR_ATTACHMENT ≠ usage &&& Texture.USAGE_COLOR_ATTACHMENT)
    (hds : Texture.USAGE_DEPTH_STENCIL_ATTACHMENT ≠
      usage &&& Texture.USAGE_DEPTH_STENCIL_ATTACHMENT)
    (type : Texture.Type) (width height depth mipLevels : Nat) (pixelFormat : Format)
    (sampleCount : Texture.SampleCount) (hostVisible : Bool) :
    toFormatFeatureFlags (createTexture_imageCreateInfo type width height depth mipLevels
      pixelFormat usage sampleCount hostVisible).usage = 0 := by
  have hu : toImageUsageFlags usage = 0 ∨ toImageUsageFlags usage = 1 ∨
      toImageUsageFlags usage = 2 ∨ toImageUsageFlags usage = 3 := by
    unfold toImageUsageFlags
    simp only [if_neg hsampled, if_neg hstorage, if_neg hcolor, if_neg hds]
    split <;> split <;> decide
  simp only [createTexture_imageCreateInfo]
  rcases hu with hu | hu | hu | hu <;> rw [hu] <;> decide

/-- C30: for every texture usage that contains none of sampled, storage,
colour attachment and depth-stencil attachment the required format-feature mask
is 0, so the value tested by the format-support assertion is 0 for every
format-feature table and both tilings, and `createTexture` aborts. -/
theorem createTexture_transfer_only_rejected (drv : Driver) (s : GraphicsVK)
    (type : Texture.Type) (width height depth mipLevels : Nat) (pixelFormat : Format)
    (usage : Texture.Usage) (sampleCount : Texture.SampleCount) (hostVisible : Bool)
    (hsampled : Texture.USAGE_SAMPLED_IMAGE ≠ usage &&& Texture.USAGE_SAMPLED_IMAGE)
    (hstorage : Texture.USAGE_STORAGE ≠ usage &&& Texture.USAGE_STORAGE)
    (hcolor : Texture.USAGE_COLOR_ATTACHMENT ≠ usage &&& Texture.USAGE_COLOR_ATTACHMENT)
    (hds : Texture.USAGE_DEPTH_STENCIL_ATTACHMENT ≠
      usage &&& Texture.USAGE_DEPTH_STENCIL_ATTACHMENT) :
    toFormatFeatureFlags (createTexture_imageCreateInfo type width height depth mipLevels
      pixelFormat usage sampleCount hostVisible).usage = 0 ∧
    createTexture_supportFlags drv (createTexture_imageCreateInfo type width height depth
      mipLevels pixelFormat usage sampleCount hostVisible) hostVisible = 0 ∧
    createTexture drv s type width height depth mipLevels pixelFormat usage sampleCount
      hostVisible = none := by
  have h0 := toFormatFeatureFlags_transfer_only usage hsampled hstorage hcolor hds type width
    height depth mipLevels pixelFormat sampleCount hostVisible
  have hflags : createTexture_supportFlags drv (createTexture_imageCreateInfo type width height
      depth mipLevels pixelFormat usage sampleCount hostVisible) hostVisible = 0 := by
    unfold createTexture_supportFlags
    simp only
    rw [h0]
    split <;> exact Nat.and_zero _
  refine ⟨h0, hflags, ?_⟩
  unfold createTexture
  simp only
  rw [if_pos hflags]

/-- A texture used as transfer source and destination only is rejected on the
example implementation. -/
theorem createTexture_transfer_only_rejected_witness :
    toFormatFeatureFlags (createTexture_imageCreateInfo Texture.Type.TYPE_2D 64 64 1 1
      Format.FORMAT_R8G8B8A8_UNORM (Texture.USAGE_TRANSFER_SRC ||| Texture.USAGE_TRANSFER_DST)
      Texture.SAMPLE_COUNT_1X false).usage = 0 ∧
    createTexture_supportFlags exampleDriver (createTexture_imageCreateInfo Texture.Type.TYPE_2D
      64 64 1 1 Format.FORMAT_R8G8B8A8_UNORM
      (Texture.USAGE_TRANSFER_SRC ||| Texture.USAGE_TRANSFER_DST)
      Texture.SAMPLE_COUNT_1X false) false = 0 ∧
    createTexture exampleDriver exampleObject Texture.Type.TYPE_2D 64 64 1 1
      Format.FORMAT_R8G8B8A8_UNORM (Texture.USAGE_TRANSFER_SRC ||| Texture.USAGE_TRANSFER_DST)
      Texture.SAMPLE_COUNT_1X false = none :=
  createTexture_transfer_only_rejected exampleDriver exampleObject Texture.Type.TYPE_2D 64 64 1 1
    Format.FORMAT_R8G8B8A8_UNORM (Texture.USAGE_TRANSFER_SRC ||| Texture.USAGE_TRANSFER_DST)
    Texture.SAMPLE_COUNT_1X false (by decide) (by decide) (by decide) (by decide)

/-! ### Resource destruction, buffer usage, framebuffers, formats, samples (C24, C26-C29) -/

/-- The function `destroyBuffer` makes one call, `vkDestroyBuffer`. -/
theorem destroyBuffer_calls (self : GraphicsVK) (buffer : BufferVK) :
    (destroyBuffer self buffer).vk.calls =
      self.vk.calls ++ [VkCall.vkDestroyBuffer buffer._buffer] := rfl

/-- The function `destroyTexture` frees the memory, destroys the image and destroys the
view, in this order, when the three handles are not null. -/
theorem destroyTexture_calls (self : GraphicsVK) (texture : TextureVK)
    (hmem : texture._deviceMemory ≠ VK_NULL_HANDLE) (himage : texture._image ≠ VK_NULL_HANDLE)
    (hview : texture._imageView ≠ VK_NULL_HANDLE) :
    (destroyTexture self texture).vk.calls = self.vk.calls ++
      [VkCall.vkFreeMemory texture._deviceMemory, VkCall.vkDestroyImage texture._image,
       VkCall.vkDestroyImageView texture._imageView] := by
  unfold destroyTexture
  simp only [if_pos hmem, if_pos himage, if_pos hview, VkWorld.call, List.append_assoc,
    List.cons_append, List.nil_append]

/-- C24 (code defect): for a buffer created on the example implementation (buffer
1, memory 2) `destroyBuffer` only calls `vkDestroyBuffer` and never frees memory
2; for a texture (image 1, memory 2, view 3) `destroyTexture` frees the memory,
then destroys the image, then the view. -/
theorem destroyBuffer_skips_memory :
    (createBuffer exampleDriver exampleObject Buffer.Usage.USAGE_VERTEX 64 16 false).map
        (fun r => (r.1._buffer, r.1._deviceMemory,
          (destroyBuffer r.2 r.1).vk.calls.drop r.2.vk.calls.length)) =
      some (1, 2, [VkCall.vkDestroyBuffer 1]) ∧
    (createTexture2d exampleDriver exampleObject 64 64 1 Format.FORMAT_R8G8B8A8_UNORM
        Texture.USAGE_SAMPLED_IMAGE Texture.SAMPLE_COUNT_1X false).map
        (fun r => (r.1._image, r.1._deviceMemory, r.1._imageView,
          (destroyTexture r.2 r.1).vk.calls.drop r.2.vk.calls.length)) =
      some (1, 2, 3, [VkCall.vkFreeMemory 2, VkCall.vkDestroyImage 1,
        VkCall.vkDestroyImageView 3]) := by
  decide

/-- Every buffer returned by `createBuffer` records `USAGE_VERTEX`. -/
theorem createBuffer_usage_vertex (drv : Driver) (self : GraphicsVK) (usage : Buffer.Usage)
    (size stride : Nat) (hostVisible : Bool) (buffer : BufferVK) (self' : GraphicsVK)
    (h : createBuffer drv self usage size stride hostVisible = some (buffer, self')) :
    buffer.usage = Buffer.Usage.USAGE_VERTEX := by
  unfold createBuffer at h
  dsimp only at h
  split at h
  · cases h
  · simp only [Option.some.injEq, Prod.mk.injEq] at h
    obtain ⟨hb, _⟩ := h
    subst hb
    rfl

/-- C27 (code defect): the uniform buffer and the index buffer created on the
example implementation are created with the uniform and the index usage flag
and both record `USAGE_VERTEX`; only the vertex buffer records its own usage. -/
theorem createBuffer_records_vertex_usage :
    (createUniformBuffer exampleDriver exampleObject 100 false).map
        (fun r => (r.1.usage, r.2.vk.calls.head?)) =
      some (Buffer.Usage.USAGE_VERTEX,
        some (VkCall.vkCreateBuffer ⟨0, 256, VK_BUFFER_USAGE_UNIFORM_BUFFER_BIT⟩ 1)) ∧
    (createIndexBuffer exampleDriver exampleObject 96 true false).map
        (fun r => (r.1.usage, r.2.vk.calls.head?)) =
      some (Buffer.Usage.USAGE_VERTEX,
        some (VkCall.vkCreateBuffer ⟨0, 96, VK_BUFFER_USAGE_INDEX_BUFFER_BIT⟩ 1)) ∧
    (createVertexBuffer exampleDriver exampleObject 96 24 false).map
        (fun r => (r.1.usage, r.2.vk.calls.head?)) =
      some (Buffer.Usage.USAGE_VERTEX,
        some (VkCall.vkCreateBuffer ⟨0, 96, VK_BUFFER_USAGE_VERTEX_BUFFER_BIT⟩ 1)) := by
  decide

/-- C26 (code defect): after the bring-up on the example implementation the
framebuffers 16 and 17 bind the back-buffer views 8 and 9, the depth-stencil
view 14 and the render pass 15, all current; after the following completed
resize the framebuffers 26 and 27 bind the current depth-stencil view 24 and
render pass 25 but still the views 8 and 9, which that resize destroyed, while
the current back-buffer views are 31 and 32. -/
theorem onResize_framebuffers_keep_old_views :
    (onInitialize exampleDriver exampleConfig GraphicsVK.new 1 2).map
        (fun s => (createdFramebuffers s.vk.calls, s._frameBuffers)) =
      some ([(16, 15, [8, 14]), (17, 15, [9, 14])], [16, 17]) ∧
    (onInitialize exampleDriver exampleConfig GraphicsVK.new 1 2).map
        (fun s => (s._backBufferImageViews, s._depthStencilImageView, s._renderPass)) =
      some ([8, 9], 14, 15) ∧
    (onInitialize exampleDriver exampleConfig GraphicsVK.new 1 2).bind
        (fun s => (onResize exampleDriver s 800 600).map
          (fun s' => (createdFramebuffers (s'.vk.calls.drop s.vk.calls.length),
            s'._frameBuffers))) =
      some ([(26, 25, [8, 24]), (27, 25, [9, 24])], [26, 27]) ∧
    (onInitialize exampleDriver exampleConfig GraphicsVK.new 1 2).bind
        (fun s => (onResize exampleDriver s 800 600).map
          (fun s' => (s'._backBufferImageViews, s'._depthStencilImageView, s'._renderPass))) =
      some ([31, 32], 24, 25) ∧
    (onInitialize exampleDriver exampleConfig GraphicsVK.new 1 2).bind
        (fun s => (onResize exampleDriver s 800 600).map
          (fun s' => destroyedImageViews (s'.vk.calls.drop s.vk.calls.length))) =
      some [14, 8, 9] := by
  refine ⟨by decide, by decide, by decide, by decide, by decide⟩

/-- C28 (code defect): for a surface that reports R8G8B8A8_UNORM first and the
preferred B8G8R8A8_UNORM second, `chooseSurfaceFormat` picks the second and
`createSurface` stores the first: the swapchain of the bring-up is created with
B8G8R8A8_UNORM while the two back-buffer views and the colour attachment of the
default render pass use R8G8B8A8_UNORM. -/
theorem createSurface_colorFormat_differs :
    chooseSurfaceFormat exampleDriverTwoFormats.surfaceFormats = some preferredSurfaceFormat ∧
    (createSurface exampleDriverTwoFormats GraphicsVK.new 1 2).map (fun s => s._colorFormat) =
      some VkFormat.VK_FORMAT_R8G8B8A8_UNORM ∧
    (onInitialize exampleDriverTwoFormats exampleConfig GraphicsVK.new 1 2).map
        (fun s => (s._colorFormat, createdColorFormats s.vk.calls,
          (createFrameBuffer_renderPassInfo s).pAttachments.head?.map (fun d => d.format))) =
      some (VkFormat.VK_FORMAT_R8G8B8A8_UNORM,
        [VkFormat.VK_FORMAT_B8G8R8A8_UNORM, VkFormat.VK_FORMAT_R8G8B8A8_UNORM,
         VkFormat.VK_FORMAT_R8G8B8A8_UNORM, VkFormat.VK_FORMAT_D32_SFLOAT_S8_UINT],
        some VkFormat.VK_FORMAT_R8G8B8A8_UNORM) := by
  decide

/-- C29 (code defect): for one colour attachment, a depth-stencil attachment and
4X multisampling the three attachment descriptions declare 4 samples while the
textures bound at slots 0 and 2 of the framebuffer have 1 sample (slot 1 has
4); with 1X the descriptions and the textures agree. -/
theorem createRenderPass_sample_counts_disagree :
    (createRenderPass exampleDriver exampleObject 64 64 1 Format.FORMAT_R8G8B8A8_UNORM
        Format.FORMAT_D32_FLOAT Texture.SAMPLE_COUNT_4X).map
        (fun r => (createdRenderPassSamples r.2.vk.calls,
          r.1.slotSampleCounts (lastFramebufferAttachments r.2.vk.calls))) =
      some ([[VK_SAMPLE_COUNT_4_BIT, VK_SAMPLE_COUNT_4_BIT, VK_SAMPLE_COUNT_4_BIT]],
        [some Texture.SAMPLE_COUNT_1X, some Texture.SAMPLE_COUNT_4X,
         some Texture.SAMPLE_COUNT_1X]) ∧
    (createRenderPass exampleDriver exampleObject 64 64 1 Format.FORMAT_R8G8B8A8_UNORM
        Format.FORMAT_D32_FLOAT Texture.SAMPLE_COUNT_1X).map
        (fun r => (createdRenderPassSamples r.2.vk.calls,
          r.1.slotSampleCounts (lastFramebufferAttachments r.2.vk.calls))) =
      some ([[VK_SAMPLE_COUNT_1_BIT, VK_SAMPLE_COUNT_1_BIT]],
        [some Texture.SAMPLE_COUNT_1X, some Texture.SAMPLE_COUNT_1X]) := by
  decide

/-! ### Score ties (C25) -/

theorem pairwise_key_unique {V : Type} (l : List (Int × V))
    (hl : l.Pairwise (fun a b => a.1 < b.1)) (a b : Int × V) (ha : a ∈ l) (hb : b ∈ l)
    (hk : a.1 = b.1) : a = b := by
  induction l with
  | nil => cases ha
  | cons x rest ih =>
    obtain ⟨hx, hrest⟩ := List.pairwise_cons.1 hl
    rcases List.mem_cons.1 ha with rfl | ha' <;> rcases List.mem_cons.1 hb with rfl | hb'
    · rfl
    · have := hx b hb'
      omega
    · have := hx a ha'
      omega
    · exact ih hrest ha' hb'

theorem lastWithScore_append_singleton (score : Int) (seen : List VkPhysicalDevice)
    (d : VkPhysicalDevice) :
    lastWithScore score (seen ++ [d]) =
      if deviceScore d = score then some d else lastWithScore score seen := by
  unfold lastWithScore
  rw [List.reverse_append, List.reverse_singleton, List.singleton_append]
  by_cases h : deviceScore d = score
  · rw [if_pos h, List.find?_cons_of_pos _ (by simpa using h)]
  · rw [if_neg h, List.find?_cons_of_neg _ (by simpa using h)]

theorem ratedLast_foldl (l seen : List VkPhysicalDevice) (rated : List (Int × VkPhysicalDevice))
    (hinv : RatedInv seen rated) (h : ∀ e ∈ rated, lastWithScore e.1 seen = some e.2) :
    ∀ e ∈ l.foldl (fun rated d => mapAssign (deviceScore d) d rated) rated,
      lastWithScore e.1 (seen ++ l) = some e.2 := by
  induction l generalizing seen rated with
  | nil => simpa using h
  | cons d tl ih =>
    have hstep : RatedInv (seen ++ [d]) (mapAssign (deviceScore d) d rated) := by
      have := ratedInv_foldl [d] seen rated hinv
      simpa using this
    have hlast : ∀ e ∈ mapAssign (deviceScore d) d rated,
        lastWithScore e.1 (seen ++ [d]) = some e.2 := by
      intro e he
      rw [lastWithScore_append_singleton]
      by_cases hk : deviceScore d = e.1
      · rw [if_pos hk]
        have := pairwise_key_unique _ hstep.1 e (deviceScore d, d) he
          (mapAssign_self_mem _ _ _) hk.symm
        rw [this]
      · rw [if_neg hk]
        rcases mapAssign_mem _ _ _ _ he with rfl | hold
        · exact absurd rfl hk
        · exact h e hold
    have := ih (seen ++ [d]) (mapAssign (deviceScore d) d rated) hstep hlast
    simpa [List.foldl_cons, List.append_assoc] using this

/-- C25: for every enumerated device list the number of rated candidates is the
number of distinct scores, every rated candidate is the last enumerated device
with its score, and every score of an enumerated device is a key of the rated
map. -/
theorem ratePhysicalDevices_ties (physicalDevices : List VkPhysicalDevice) :
    (ratePhysicalDevices physicalDevices).length =
      (physicalDevices.map deviceScore).dedup.length ∧
    (∀ e ∈ ratePhysicalDevices physicalDevices,
      lastWithScore e.1 physicalDevices = some e.2) ∧
    (∀ d ∈ physicalDevices, ∃ e ∈ ratePhysicalDevices physicalDevices,
      e.1 = deviceScore d ∧ lastWithScore (deviceScore d) physicalDevices = some e.2) := by
  obtain ⟨h1, h2, h3⟩ := ratePhysicalDevices_inv physicalDevices
  have hlast : ∀ e ∈ ratePhysicalDevices physicalDevices,
      lastWithScore e.1 physicalDevices = some e.2 := by
    have := ratedLast_foldl physicalDevices [] [] ⟨List.Pairwise.nil, by simp, by simp⟩
      (by simp)
    simpa [ratePhysicalDevices] using this
  refine ⟨?_, hlast, ?_⟩
  · have hnodup : ((ratePhysicalDevices physicalDevices).map Prod.fst).Nodup := by
      rw [List.Nodup, List.pairwise_map]
      exact h1.imp (fun hab => ne_of_lt hab)
    have hperm : ((ratePhysicalDevices physicalDevices).map Prod.fst).Perm
        (physicalDevices.map deviceScore).dedup := by
      rw [List.perm_ext_iff_of_nodup hnodup (List.nodup_dedup _)]
      intro k
      simp only [List.mem_map, List.mem_dedup]
      constructor
      · rintro ⟨e, he, rfl⟩
        exact ⟨e.2, (h2 e he).1, (h2 e he).2⟩
      · rintro ⟨d, hd, rfl⟩
        obtain ⟨e, he, hk⟩ := h3 d hd
        exact ⟨e, he, hk⟩
    have := hperm.length_eq
    simpa using this
  · intro d hd
    obtain ⟨e, he, hk⟩ := h3 d hd
    refine ⟨e, he, hk, ?_⟩
    rw [← hk]
    exact hlast e he

/-- Of two devices with score 4096 the later one is kept. -/
theorem ratePhysicalDevices_ties_example :
    ratePhysicalDevices [integratedGpu, { integratedGpu with handle := 7 }, discreteGpu] =
      [(4096, { integratedGpu with handle := 7 }), (17384, discreteGpu)] := by
  decide

end gameplay
